import Mathlib

/-!
rofi-bluetooth: the reconciliation engine of `src/src/bluetooth.c`.

A shallow embedding of the plugin's private data, of the full rebuild of the
entry list (`update_entries`), of the three bus notification handlers
(`proxy_added`, `proxy_removed`, `property_changed`), of the selection
dispatcher (`bluetooth_mode_result`) and of the completion callbacks.

Representation choices, all of them visible in the definitions below:

* `u32` quantities are natural numbers below `2 ^ 32`; the sums that the code
  stores or uses as a row count are reduced modulo `2 ^ 32` and every `u32`
  subtraction wraps around `2 ^ 32`.  Loop counters run below `num_devices`
  or `num_entries` and are incremented without reduction.  The update
  `num_paired_devices += 2 * dev->paired - 1` adds one when the flag is set and
  subtracts one otherwise.
* `pd->entries` and `pd->devices` are the allocated buffers, as lists whose
  length is the capacity (`size_entries`, `size_devices`); the counts
  `num_entries` and `num_devices` are separate fields, so slots at or above a
  count keep their stale content exactly as in the C arrays.  Slots created
  by `g_realloc` or `g_malloc0` hold the zeroed record.
* A read or write outside a buffer, a dereference of the absent controller
  and an index outside a constant table are undefined behaviour in C; the
  embedded function returns `none` there.
* A `GDBusProxy *` is its address `ptr` together with the interface name, the
  object path and the property cache that `get_property` reads.  The cache is
  taken to hold every property the code asks for.
* `char *` texts are `String`s: `strlen` is `String.utf8ByteSize` and
  `g_utf8_strlen` is `String.length`; the null pointer is the empty string.
  Of heap ownership the embedding keeps the `ENTRY_ALLOCATED` bit and the two
  calls `g_free(entry->text)` of `property_changed`: releasing a string
  literal is undefined behaviour (`g_free_text`).
-/

namespace RofiBluetooth

/-! ## Machine arithmetic -/

/-- Reduction of a natural number to the range of `u32`. -/
def u32 (n : Nat) : Nat := n % 4294967296

/-- Subtraction `a - b` of two `u32` operands (both below `2 ^ 32`): the
difference, wrapped around `2 ^ 32` when `a < b`. -/
def u32_sub (a b : Nat) : Nat := if b ≤ a then a - b else 4294967296 - (b - a)

/-! ## `types.h` -/

/-- Navigation states, `enum STATE { LIST = 0, DEVICE, PAIR }`. -/
inductive STATE where
  | LIST
  | DEVICE
  | PAIR
  deriving DecidableEq, Repr

abbrev ENTRY_DEVICE : Nat := 1
abbrev ENTRY_CONTROLLER_PROP : Nat := 4
abbrev ENTRY_SCAN : Nat := 8
abbrev ENTRY_DEVICE_PROP : Nat := 16
abbrev ENTRY_DEVICE_PAIR : Nat := 32
abbrev ENTRY_DEVICE_CONNECT : Nat := 64
abbrev ENTRY_MENU_PAIR : Nat := 128
abbrev ENTRY_MENU_LIST : Nat := 256
abbrev ENTRY_ALLOCATED : Nat := 512

/-- A bus proxy: its address, interface, object path and cached properties
(`name` caches the property "Alias"). -/
structure GDBusProxy where
  ptr : Nat
  interface : String
  path : String
  address : String
  name : String
  connected : Bool
  paired : Bool
  trusted : Bool
  powered : Bool
  discoverable : Bool
  discovering : Bool
  deriving DecidableEq, Repr

structure Controller where
  remote_proxy : GDBusProxy
  powered : Bool
  discoverable : Bool
  discovering : Bool
  deriving DecidableEq, Repr

structure Device where
  remote_proxy : GDBusProxy
  address : String
  name : String
  connected : Bool
  paired : Bool
  trusted : Bool
  deriving DecidableEq, Repr

/-- A row of the view; `device` is the union payload
(`device` / `controller_prop` / `device_prop`). -/
structure Entry where
  text : String
  flags : Nat
  device : Nat
  deriving DecidableEq, Repr

structure BluetoothModePrivateData where
  state : STATE
  entries : List Entry
  num_entries : Nat
  controller : Option Controller
  devices : List Device
  num_devices : Nat
  num_paired_devices : Nat
  current_device : Nat
  command_status : Option String
  deriving DecidableEq, Repr

/-- The capacity of the entry buffer. -/
def size_entries (pd : BluetoothModePrivateData) : Nat := pd.entries.length

/-- The capacity of the device buffer. -/
def size_devices (pd : BluetoothModePrivateData) : Nat := pd.devices.length

/-- The zeroed proxy pointer. -/
def null_proxy : GDBusProxy :=
  { ptr := 0, interface := "", path := "", address := "", name := "",
    connected := false, paired := false, trusted := false,
    powered := false, discoverable := false, discovering := false }

/-- A zeroed `Device` slot. -/
def zero_device : Device :=
  { remote_proxy := null_proxy, address := "", name := "",
    connected := false, paired := false, trusted := false }

/-- A zeroed `Entry` slot. -/
def zero_entry : Entry := { text := "", flags := 0, device := 0 }

/-! ## `constants.h` -/

def controller_props : List String := ["Powered", "Discoverable", "Discovering"]

def device_props : List String := ["Connected", "Trusted"]

/-- The table `device_strings[3][2]`, indexed by row and by a boolean. -/
def device_strings (i : Nat) (val : Bool) : String :=
  match i, val with
  | 0, false => "Connect Device"
  | 0, true => "Disconnect Device"
  | 1, false => "Pair Device"
  | 1, true => "Remove Device"
  | 2, false => "Trust Device"
  | 2, true => "Untrust Device"
  | _, _ => ""

/-- The table `true_false_array[2]`, indexed by a boolean. -/
def true_false_array (val : Bool) : String :=
  match val with
  | false => "False"
  | true => "True"

/-! ## Formatting -/

/-- The conversion `%-<width>s` of `printf`: the text, then blanks up to
`width` bytes. -/
def printf_left (width : Nat) (s : String) : String :=
  s ++ String.mk (List.replicate (width - s.utf8ByteSize) ' ')

/-- Text of a root-list device row,
`"%-*s%-10s", (u32) (20 + nb - nub), device->name, TF(device->connected)`. -/
def list_row_text (device : Device) : String :=
  let nb := device.name.utf8ByteSize
  let nub := device.name.length
  printf_left (u32 (20 + nb - nub)) device.name ++
    printf_left 10 (true_false_array device.connected)

/-- Text of a pairing-list row, `"%-20s%-s", device->address, device->name`. -/
def pair_row_text (device : Device) : String :=
  printf_left 20 device.address ++ device.name

/-- Text of a controller-property row, `"%s: %s", name, TF(value)`. -/
def controller_row_text (name : String) (val : Bool) : String :=
  name ++ ": " ++ true_false_array val

/-- The access `(&controller->powered)[i]`. -/
def controller_info (c : Controller) (i : Nat) : Option Bool :=
  match i with
  | 0 => some c.powered
  | 1 => some c.discoverable
  | 2 => some c.discovering
  | _ => none

/-- The access `(&dev->connected)[i]`. -/
def device_info (dev : Device) (i : Nat) : Option Bool :=
  match i with
  | 0 => some dev.connected
  | 1 => some dev.paired
  | 2 => some dev.trusted
  | _ => none

/-! ## The entry list -/

def resize_entries_if_needed (pd : BluetoothModePrivateData) (new_num_entries : Nat) :
    BluetoothModePrivateData :=
  if pd.entries.length < new_num_entries then
    { pd with
      num_entries := new_num_entries
      entries := pd.entries ++ List.replicate (new_num_entries - pd.entries.length) zero_entry }
  else
    { pd with num_entries := new_num_entries }

/-- The assignment `set_entry(ENTRY(i), text, flags, data)`. -/
def set_entry (es : List Entry) (i : Nat) (text : String) (flags data : Nat) :
    Option (List Entry) :=
  if i < es.length then some (es.set i { text := text, flags := flags, device := data })
  else none

/-- The assignment `pd->entries[i].flags = flags`. -/
def set_entry_flags (es : List Entry) (i : Nat) (flags : Nat) : Option (List Entry) :=
  match es[i]? with
  | none => none
  | some e => some (es.set i { e with flags := flags })

/-- The assignment `pd->entries[i].text = text`. -/
def set_entry_text (es : List Entry) (i : Nat) (text : String) : Option (List Entry) :=
  match es[i]? with
  | none => none
  | some e => some (es.set i { e with text := text })

/-- The two device loops of `update_entries` (`for (u32 j = 0; j < num_devices; j++)`):
a device whose paired flag equals `want` gets the next row, tagged
`ENTRY_DEVICE | ENTRY_ALLOCATED` with payload `j`.  The first argument counts
the iterations left; the result is the final row counter and the buffer. -/
def update_entries_devices (devices : List Device) (want : Bool) (text : Device → String) :
    Nat → Nat → Nat → List Entry → Option (Nat × List Entry)
  | 0, _, i, es => some (i, es)
  | fuel + 1, j, i, es =>
    match devices[j]? with
    | none => none
    | some device =>
      if device.paired = want then
        match set_entry es i (text device) (ENTRY_DEVICE ||| ENTRY_ALLOCATED) j with
        | none => none
        | some es1 => update_entries_devices devices want text fuel (j + 1) (i + 1) es1
      else
        update_entries_devices devices want text fuel (j + 1) i es

/-- The body of the controller-property loop of `update_entries` for row `i`:
`a = i - pd->num_paired_devices - 1`, then
`set_entry(ENTRY(i), "<controller_props[a]>: <C_TF(a)>", ENTRY_CONTROLLER_PROP | ENTRY_ALLOCATED, a)`. -/
def update_entries_controller_row (controller : Option Controller) (num_paired_devices : Nat)
    (i : Nat) (es : List Entry) : Option (List Entry) :=
  let a := u32_sub (u32_sub i num_paired_devices) 1
  match controller_props[a]?, controller with
  | some name, some c =>
    match controller_info c a with
    | none => none
    | some val =>
      set_entry es i (controller_row_text name val) (ENTRY_CONTROLLER_PROP ||| ENTRY_ALLOCATED) a
  | _, _ => none

/-- The controller-property loop of `update_entries`
(`for (; i < pd->num_entries; i++)`).  The first argument counts the
iterations left. -/
def update_entries_controller (controller : Option Controller) (num_paired_devices : Nat) :
    Nat → Nat → List Entry → Option (Nat × List Entry)
  | 0, i, es => some (i, es)
  | fuel + 1, i, es =>
    match update_entries_controller_row controller num_paired_devices i es with
    | none => none
    | some es1 => update_entries_controller controller num_paired_devices fuel (i + 1) es1

def update_entries (pd : BluetoothModePrivateData) : Option BluetoothModePrivateData :=
  match pd.state with
  | STATE.LIST =>
    let pd1 := resize_entries_if_needed pd
      (u32 (pd.num_paired_devices + (if pd.controller.isSome then 3 else 0) + 1))
    match update_entries_devices pd1.devices true list_row_text pd1.num_devices 0 0
        pd1.entries with
    | none => none
    | some (i, es1) =>
      match set_entry es1 i "\uF44A Pair Device" ENTRY_MENU_PAIR 0 with
      | none => none
      | some es2 =>
        match update_entries_controller pd1.controller pd1.num_paired_devices
            (pd1.num_entries - (i + 1)) (i + 1) es2 with
        | none => none
        | some (i3, es3) =>
          match set_entry_flags es3 (u32_sub i3 1) (ENTRY_SCAN ||| ENTRY_ALLOCATED) with
          | none => none
          | some es4 => some { pd1 with entries := es4 }
  | STATE.PAIR =>
    let num_unpaired_devices := u32_sub pd.num_devices pd.num_paired_devices
    let pd1 := resize_entries_if_needed pd (u32 (num_unpaired_devices + 1))
    match update_entries_devices pd1.devices false pair_row_text pd1.num_devices 0 0
        pd1.entries with
    | none => none
    | some (i, es1) =>
      match set_entry es1 i "\uF438 Back" ENTRY_MENU_LIST 0 with
      | none => none
      | some es2 => some { pd1 with entries := es2 }
  | STATE.DEVICE =>
    match pd.devices[pd.current_device]? with
    | none => none
    | some dev =>
      let filled : Option BluetoothModePrivateData :=
        if dev.paired then
          let pd1 := resize_entries_if_needed pd 4
          match set_entry pd1.entries 0 (device_strings 0 dev.connected)
              ENTRY_DEVICE_CONNECT pd.current_device with
          | none => none
          | some es1 =>
            match set_entry es1 2 (device_strings 2 dev.trusted) ENTRY_DEVICE_PROP 2 with
            | none => none
            | some es2 => some { pd1 with entries := es2 }
        else
          some (resize_entries_if_needed pd 2)
      match filled with
      | none => none
      | some pd2 =>
        let pair_index := u32_sub (pd2.num_entries >>> 1) 1
        match set_entry pd2.entries pair_index (device_strings 1 dev.paired)
            ENTRY_DEVICE_PAIR pd.current_device with
        | none => none
        | some es3 =>
          match set_entry es3 (u32_sub pd2.num_entries 1) "\uF438 Back" ENTRY_MENU_LIST 0 with
          | none => none
          | some es4 => some { pd2 with entries := es4 }

/-- The rows the host can see: the first `num_entries` slots of the buffer. -/
def entry_list (pd : BluetoothModePrivateData) : List Entry :=
  pd.entries.take pd.num_entries

/-! ## The mode object and its surroundings -/

/-- The payload `generic_callback_data.data`, a `void *` that holds either a
text or an integer stored with `GUINT_TO_POINTER` (the null pointer is
`uint 0`). -/
inductive CallbackData where
  | text (s : String)
  | uint (n : Nat)
  deriving DecidableEq, Repr

/-- The completion handlers that a request can name. -/
inductive Callback where
  | generic_callback
  | connect_callback
  | pair_callback
  | remove_callback
  | scan_callback
  deriving DecidableEq, Repr

/-- A request handed to the bus client: `g_dbus_proxy_set_property_basic` or
`g_dbus_proxy_method_call`, with the address of the target proxy. -/
inductive BusCall where
  | set_property (proxy : Nat) (name : String) (value : Bool) (function : Option Callback)
  | method_call (proxy : Nat) (method : String) (argument : Option String)
      (function : Option Callback)
  deriving DecidableEq, Repr

/-- The mode object `sw` with what the handlers reach through it: the display
name, the private data, the global `generic_callback_data.data`, the requests
handed to the bus client so far (oldest first) and the number of calls of
`rofi_view_reload`. -/
structure Mode where
  display_name : String
  private_data : BluetoothModePrivateData
  generic_callback_data : CallbackData
  bus : List BusCall
  reloads : Nat
  deriving DecidableEq, Repr

/-- The call `rofi_view_reload()`. -/
def rofi_view_reload (sw : Mode) : Mode := { sw with reloads := sw.reloads + 1 }

/-- The state that `bluetooth_mode_init` leaves behind. -/
def bluetooth_mode_init : Mode :=
  { display_name := "Device:"
    private_data :=
      { state := STATE.LIST
        entries := [zero_entry]
        num_entries := 0
        controller := none
        devices := [zero_device]
        num_devices := 0
        num_paired_devices := 0
        current_device := 0
        command_status := none }
    generic_callback_data := CallbackData.uint 0
    bus := []
    reloads := 0 }

def bluetooth_mode_get_num_entries (sw : Mode) : Nat := sw.private_data.num_entries

/-! ## Notifications -/

def proxy_added (proxy : GDBusProxy) (sw : Mode) : Option Mode :=
  let pd := sw.private_data
  if proxy.interface = "org.bluez.Device1" then
    let devices :=
      if pd.devices.length ≤ pd.num_devices then
        pd.devices ++ List.replicate pd.devices.length zero_device
      else pd.devices
    if pd.num_devices < devices.length then
      let dev : Device :=
        { remote_proxy := proxy, address := proxy.address, name := proxy.name,
          connected := proxy.connected, paired := proxy.paired, trusted := proxy.trusted }
      let pd1 : BluetoothModePrivateData :=
        { pd with
          devices := devices.set pd.num_devices dev
          num_devices := u32 (pd.num_devices + 1)
          num_paired_devices :=
            if dev.paired then u32 (pd.num_paired_devices + 1) else pd.num_paired_devices }
      match update_entries pd1 with
      | none => none
      | some pd2 => some (rofi_view_reload { sw with private_data := pd2 })
    else none
  else if proxy.interface = "org.bluez.Adapter1" then
    match pd.controller with
    | some _ => some sw
    | none =>
      let c : Controller :=
        { remote_proxy := proxy, powered := proxy.powered,
          discoverable := proxy.discoverable, discovering := proxy.discovering }
      match update_entries { pd with controller := some c } with
      | none => none
      | some pd2 =>
        some (rofi_view_reload
          { sw with
            private_data := pd2
            bus := sw.bus ++ [BusCall.set_property proxy.ptr "Pairable" true none] })
  else some sw

/-- The loop of `find_device`; the first argument counts the iterations left. -/
def find_device_from (proxy : GDBusProxy) (devices : List Device) : Nat → Nat → Option Nat
  | 0, i => some i
  | fuel + 1, i =>
    match devices[i]? with
    | none => none
    | some d =>
      if d.remote_proxy.ptr = proxy.ptr then some i
      else find_device_from proxy devices fuel (i + 1)

def find_device (proxy : GDBusProxy) (devices : List Device) (num_devices : Nat) : Option Nat :=
  find_device_from proxy devices num_devices 0

/-- The string literals that a row text can point to: the two fixed rows of
`update_entries` and the table `device_strings`. -/
def static_texts : List String :=
  ["\uF44A Pair Device", "\uF438 Back", "Connect Device", "Disconnect Device", "Pair Device",
   "Remove Device", "Trust Device", "Untrust Device"]

/-- The call `g_free(entry->text)`.  Releasing a string literal is undefined
behaviour.  A text that the program allocates is formatted with a field of at
least 20 bytes or with ": " in it, so it is none of the literals
(`allocated_texts_not_static`), and a text is a literal exactly when it is in
`static_texts`; the null pointer of a zeroed slot is the empty text, which
`g_free` accepts. -/
def g_free_text (text : String) : Option Unit :=
  if text ∈ static_texts then none else some ()

/-- The statements `g_free(entry->text); entry->text = text` for the slot `i`. -/
def replace_entry_text (es : List Entry) (i : Nat) (text : String) : Option (List Entry) :=
  match es[i]? with
  | none => none
  | some e =>
    match g_free_text e.text with
    | none => none
    | some _ => some (es.set i { e with text := text })

/-- The row search of the connected patch in the root list
(`for (u32 i = 0; i < pd->num_entries; i++)`): the first row whose payload is
`dev_index` has its text released and replaced.  The first argument counts the
iterations left. -/
def patch_connected (dev_index : Nat) (text : String) :
    Nat → Nat → List Entry → Option (List Entry)
  | 0, _, es => some es
  | fuel + 1, i, es =>
    match es[i]? with
    | none => none
    | some entry =>
      if entry.device = dev_index then replace_entry_text es i text
      else patch_connected dev_index text fuel (i + 1) es

/-- The search `for (; i < 3; i++) if (!strcmp(name, controller_props[i])) break`. -/
def controller_prop_index (name : String) : Nat :=
  if name = "Powered" then 0
  else if name = "Discoverable" then 1
  else if name = "Discovering" then 2
  else 3

/-- The write `controller_info[i] = value`. -/
def set_controller_info (c : Controller) (i : Nat) (value : Bool) : Controller :=
  match i with
  | 0 => { c with powered := value }
  | 1 => { c with discoverable := value }
  | 2 => { c with discovering := value }
  | _ => c

/-- The branch `"Connected"` / `"ServicesResolved"` of `property_changed` for the
device `dev0` found at `dev_index`. -/
def property_changed_connected (dev_index : Nat) (dev0 : Device) (value : Bool) (sw : Mode) :
    Option Mode :=
  let pd := sw.private_data
  let dev := { dev0 with connected := value }
  let pd1 := { pd with devices := pd.devices.set dev_index dev }
  if pd.state = STATE.DEVICE ∧ pd.current_device = dev_index then
    match set_entry_text pd1.entries 0 (device_strings 0 dev.connected) with
    | none => none
    | some es => some (rofi_view_reload { sw with private_data := { pd1 with entries := es } })
  else if pd.state = STATE.LIST then
    match patch_connected dev_index
        (printf_left 20 dev.name ++ printf_left 10 (true_false_array dev.connected))
        pd1.num_entries 0 pd1.entries with
    | none => none
    | some es => some (rofi_view_reload { sw with private_data := { pd1 with entries := es } })
  else some { sw with private_data := pd1 }

/-- The branch `"Paired"` of `property_changed` for the device `dev0` found at
`dev_index`. -/
def property_changed_paired (dev_index : Nat) (dev0 : Device) (value : Bool) (sw : Mode) :
    Option Mode :=
  let pd := sw.private_data
  let dev := { dev0 with paired := value }
  let pd1 :=
    { pd with
      devices := pd.devices.set dev_index dev
      num_paired_devices :=
        if dev.paired then u32 (pd.num_paired_devices + 1)
        else u32_sub pd.num_paired_devices 1 }
  match update_entries pd1 with
  | none => none
  | some pd2 => some (rofi_view_reload { sw with private_data := pd2 })

/-- The branch `"Trusted"` of `property_changed` for the device `dev0` found at
`dev_index`. -/
def property_changed_trusted (dev_index : Nat) (dev0 : Device) (value : Bool) (sw : Mode) :
    Option Mode :=
  let pd := sw.private_data
  let dev := { dev0 with trusted := value }
  let pd1 := { pd with devices := pd.devices.set dev_index dev }
  if pd.state = STATE.DEVICE ∧ pd.current_device = dev_index then
    match set_entry_text pd1.entries 2 (device_strings 2 dev.trusted) with
    | none => none
    | some es => some (rofi_view_reload { sw with private_data := { pd1 with entries := es } })
  else some { sw with private_data := pd1 }

/-- The branch `"org.bluez.Adapter1"` of `property_changed`. -/
def property_changed_adapter (proxy : GDBusProxy) (name : String) (value : Bool) (sw : Mode) :
    Option Mode :=
  let pd := sw.private_data
  match pd.controller with
  | none => none
  | some c0 =>
    if c0.remote_proxy.ptr = proxy.ptr then
      let i := controller_prop_index name
      let update := decide (i < 3)
      let c := set_controller_info c0 i value
      let pd1 := { pd with controller := some c }
      if i = 2 ∧ c.discovering = true then
        match update_entries { pd1 with state := STATE.PAIR } with
        | none => none
        | some pd2 =>
          some (rofi_view_reload { sw with private_data := pd2, display_name := "Pair:" })
      else if update = true ∧ pd.state = STATE.LIST then
        match controller_info c i with
        | none => none
        | some val =>
          match replace_entry_text pd1.entries (u32 (pd.num_paired_devices + i + 1))
              (controller_row_text name val) with
          | none => none
          | some es =>
            some (rofi_view_reload { sw with private_data := { pd1 with entries := es } })
      else some (rofi_view_reload { sw with private_data := pd1 })
    else some sw

def property_changed (proxy : GDBusProxy) (name : String) (value : Bool) (sw : Mode) :
    Option Mode :=
  let pd := sw.private_data
  if proxy.interface = "org.bluez.Device1" then
    match find_device proxy pd.devices pd.num_devices with
    | none => none
    | some dev_index =>
      if dev_index ≠ pd.num_devices then
        match pd.devices[dev_index]? with
        | none => none
        | some dev0 =>
          if name = "Connected" ∨ name = "ServicesResolved" then
            property_changed_connected dev_index dev0 value sw
          else if name = "Paired" then property_changed_paired dev_index dev0 value sw
          else if name = "Trusted" then property_changed_trusted dev_index dev0 value sw
          else some sw
      else some sw
  else if proxy.interface = "org.bluez.Adapter1" then
    property_changed_adapter proxy name value sw
  else some sw

def proxy_removed (proxy : GDBusProxy) (sw : Mode) : Option Mode :=
  let pd := sw.private_data
  if proxy.interface = "org.bluez.Device1" then
    match find_device proxy pd.devices pd.num_devices with
    | none => none
    | some dev_index =>
      let removed : Option (BluetoothModePrivateData × Bool) :=
        if dev_index ≠ pd.num_devices then
          match pd.devices[dev_index]? with
          | none => none
          | some dev =>
            let num_devices := u32_sub pd.num_devices 1
            match pd.devices[num_devices]? with
            | none => none
            | some last =>
              if dev.paired then
                some ({ pd with
                        num_paired_devices := u32_sub pd.num_paired_devices 1
                        num_devices := num_devices
                        devices := pd.devices.set dev_index last },
                      decide (pd.state = STATE.LIST))
              else
                some ({ pd with
                        num_devices := num_devices
                        devices := pd.devices.set dev_index last },
                      decide (pd.state = STATE.PAIR))
        else some (pd, false)
      match removed with
      | none => none
      | some (pd1, update0) =>
        let forced := decide (pd1.state = STATE.DEVICE ∧ pd1.current_device = dev_index)
        let pd2 := if forced then { pd1 with state := STATE.LIST } else pd1
        if (forced || update0) = true then
          match update_entries pd2 with
          | none => none
          | some pd3 => some (rofi_view_reload { sw with private_data := pd3 })
        else some { sw with private_data := pd2 }
  else some sw

/-! ## Completion callbacks -/

/-- The payload read as `char *` by the conversion `%s`; an integer other
than the null pointer is not a text. -/
def CallbackData.as_text (d : CallbackData) : Option String :=
  match d with
  | CallbackData.text s => some s
  | CallbackData.uint 0 => some "(null)"
  | CallbackData.uint _ => none

/-- The payload read with `GPOINTER_TO_UINT` and tested as a condition; the
address of a text is not null. -/
def CallbackData.as_b32 (d : CallbackData) : Bool :=
  match d with
  | CallbackData.text _ => true
  | CallbackData.uint n => decide (n ≠ 0)

/-- Stores a new text in `pd->command_status`. -/
def set_command_status (sw : Mode) (status : String) : Mode :=
  { sw with private_data := { sw.private_data with command_status := some status } }

def generic_callback (error_is_set : Bool) (sw : Mode) : Option Mode :=
  match sw.generic_callback_data.as_text with
  | none => none
  | some str =>
    if error_is_set then
      some (set_command_status sw
        ("<span foreground=\"red\" weight=\"bold\">Error:</span> Failed to set " ++ str ++ "\n"))
    else
      some (set_command_status sw
        ("<span foreground =\"green\" weight=\"bold\">Success:</span> Changed " ++ str ++ "\n"))

def connect_callback (error_in_message : Bool) (sw : Mode) : Mode :=
  let connected := sw.generic_callback_data.as_b32
  let sw1 :=
    if error_in_message then
      set_command_status sw
        ("<span foreground=\"red\" weight=\"bold\">Error:</span> Failed to " ++
          (if connected then "disconnect" else "connect") ++ "\n")
    else sw
  set_command_status sw1
    ("<span foreground =\"green\" weight=\"bold\">Success:</span> " ++
      (if connected then "Disconnected" else "Connected") ++ "\n")

def pair_callback (error_in_message : Bool) (sw : Mode) : Mode :=
  let sw1 :=
    if error_in_message then
      set_command_status sw
        "<span foreground=\"red\" weight=\"bold\">Error:</span> Failed to pair\n"
    else sw
  set_command_status sw1 "<span foreground =\"green\" weight=\"bold\">Success:</span> Paired\n"

def remove_callback (error_in_message : Bool) (sw : Mode) : Mode :=
  let sw1 :=
    if error_in_message then
      set_command_status sw
        "<span foreground=\"red\" weight=\"bold\">Error:</span> Failed to remove\n"
    else sw
  set_command_status sw1 "<span foreground =\"green\" weight=\"bold\">Success:</span> Removed\n"

def scan_callback (error_in_message : Bool) (sw : Mode) : Mode :=
  let scan := sw.generic_callback_data.as_b32
  let sw1 :=
    if error_in_message then
      set_command_status sw
        ("<span foreground=\"red\" weight=\"bold\">Error:</span> Failed to " ++
          (if scan then "Stop" else "Start") ++ " discovery\n")
    else sw
  set_command_status sw1
    ("<span foreground=\"green\" weight=\"bold\">Success:</span> " ++
      (if scan then "stopped" else "started") ++ " discovery\n")

/-! ## Selections -/

def switch_state (sw : Mode) (next_state : STATE) (next_display_name : String) : Option Mode :=
  match update_entries
      { sw.private_data with state := next_state, command_status := none } with
  | none => none
  | some pd => some { sw with private_data := pd, display_name := next_display_name }

/-- Values of `ModeMode` in the host header `rofi/mode.h`. -/
abbrev MODE_EXIT : Nat := 1000
abbrev NEXT_DIALOG : Nat := 1001
abbrev RELOAD_DIALOG : Nat := 1002
abbrev PREVIOUS_DIALOG : Nat := 1003

/-- Values of `MenuReturn` in the host header `rofi/mode.h`. -/
abbrev MENU_OK : Nat := 0x00010000
abbrev MENU_CANCEL : Nat := 0x00020000
abbrev MENU_NEXT : Nat := 0x00040000
abbrev MENU_ENTRY_DELETE : Nat := 0x00100000
abbrev MENU_QUICK_SWITCH : Nat := 0x00200000
abbrev MENU_PREVIOUS : Nat := 0x00400000
abbrev MENU_LOWER_MASK : Nat := 0x0000FFFF

/-- The action tag `entry->flags & ~ENTRY_ALLOCATED`. -/
def entry_action (entry : Entry) : Nat := entry.flags &&& (4294967295 - ENTRY_ALLOCATED)

/-- The case `ENTRY_DEVICE_PROP` of the switch of `bluetooth_mode_result`. -/
def result_device_prop (sw : Mode) (entry : Entry) : Option (Nat × Mode) :=
  let pd := sw.private_data
  match pd.devices[pd.current_device]?, device_props[entry.device >>> 1]? with
  | some dev, some prop_name =>
    match device_info dev entry.device with
    | none => none
    | some current =>
      let prop := !current
      some (RELOAD_DIALOG,
        { sw with
          generic_callback_data :=
            CallbackData.text ("[" ++ prop_name ++ "] to " ++ true_false_array prop)
          bus := sw.bus ++ [BusCall.set_property dev.remote_proxy.ptr prop_name prop
            (some Callback.generic_callback)] })
  | _, _ => none

/-- The case `ENTRY_DEVICE_CONNECT` of the switch of `bluetooth_mode_result`. -/
def result_device_connect (sw : Mode) (entry : Entry) (submit_ok : Bool) :
    Option (Nat × Mode) :=
  let pd := sw.private_data
  match pd.devices[entry.device]? with
  | none => none
  | some dev =>
    let method := if dev.connected then "Disconnect" else "Connect"
    let sw1 : Mode :=
      { sw with
        generic_callback_data := CallbackData.uint dev.connected.toNat
        bus := sw.bus ++ [BusCall.method_call dev.remote_proxy.ptr method none
          (some Callback.connect_callback)] }
    if submit_ok then some (RELOAD_DIALOG, sw1)
    else
      some (RELOAD_DIALOG, set_command_status sw1
        ("<span foreground=\"red\" weight=\"bold\">Error:</span> Failed to " ++
          (if dev.connected then "disconnect" else "connect") ++ "\n"))

/-- The case `ENTRY_DEVICE_PAIR` of the switch of `bluetooth_mode_result`. -/
def result_device_pair (sw : Mode) (entry : Entry) (submit_ok : Bool) : Option (Nat × Mode) :=
  let pd := sw.private_data
  match pd.devices[entry.device]? with
  | none => none
  | some dev =>
    let path := dev.remote_proxy.path
    if dev.paired then
      match pd.controller with
      | none => none
      | some c =>
        some (if submit_ok then RELOAD_DIALOG else MODE_EXIT,
          { sw with
            generic_callback_data := CallbackData.text path
            bus := sw.bus ++ [BusCall.method_call c.remote_proxy.ptr "RemoveDevice"
              (some path) (some Callback.remove_callback)] })
    else
      some (RELOAD_DIALOG,
        { sw with
          generic_callback_data := CallbackData.text path
          bus := sw.bus ++ [BusCall.method_call dev.remote_proxy.ptr "Pair" none
            (some Callback.pair_callback)] })

/-- The case `ENTRY_CONTROLLER_PROP` of the switch of `bluetooth_mode_result`. -/
def result_controller_prop (sw : Mode) (entry : Entry) : Option (Nat × Mode) :=
  let pd := sw.private_data
  match pd.controller, controller_props[entry.device]? with
  | some c, some prop_name =>
    match controller_info c entry.device with
    | none => none
    | some current =>
      let prop := !current
      some (RELOAD_DIALOG,
        { sw with
          generic_callback_data :=
            CallbackData.text ("[" ++ prop_name ++ "] to " ++ true_false_array prop)
          bus := sw.bus ++ [BusCall.set_property c.remote_proxy.ptr prop_name prop
            (some Callback.generic_callback)] })
  | _, _ => none

/-- The case `ENTRY_SCAN` of the switch of `bluetooth_mode_result`. -/
def result_scan (sw : Mode) : Option (Nat × Mode) :=
  match sw.private_data.controller with
  | none => none
  | some c =>
    let method := if c.discovering then "StopDiscovery" else "StartDiscovery"
    some (RELOAD_DIALOG,
      { sw with
        generic_callback_data := CallbackData.uint c.discovering.toNat
        bus := sw.bus ++ [BusCall.method_call c.remote_proxy.ptr method none
          (some Callback.scan_callback)] })

/-- The case `ENTRY_DEVICE` of the switch of `bluetooth_mode_result`. -/
def result_device (sw : Mode) (entry : Entry) : Option (Nat × Mode) :=
  let pd := sw.private_data
  match pd.devices[entry.device]? with
  | none => none
  | some dev =>
    (switch_state { sw with private_data := { pd with current_device := entry.device } }
      STATE.DEVICE dev.name).map (fun sw1 => (RELOAD_DIALOG, sw1))

/-- The switch of `bluetooth_mode_result` on `entry->flags & ~ENTRY_ALLOCATED`. -/
def result_activate (sw : Mode) (entry : Entry) (submit_ok : Bool) : Option (Nat × Mode) :=
  let action := entry_action entry
  if action = ENTRY_MENU_LIST then
    (switch_state sw STATE.LIST "Device:").map (fun sw1 => (RELOAD_DIALOG, sw1))
  else if action = ENTRY_MENU_PAIR then
    (switch_state sw STATE.PAIR "Pair Device:").map (fun sw1 => (RELOAD_DIALOG, sw1))
  else if action = ENTRY_DEVICE then result_device sw entry
  else if action = ENTRY_DEVICE_PROP then result_device_prop sw entry
  else if action = ENTRY_DEVICE_CONNECT then result_device_connect sw entry submit_ok
  else if action = ENTRY_DEVICE_PAIR then result_device_pair sw entry submit_ok
  else if action = ENTRY_CONTROLLER_PROP then result_controller_prop sw entry
  else if action = ENTRY_SCAN then result_scan sw
  else some (RELOAD_DIALOG, sw)

/-- The dispatcher.  `submit_ok` is what the request function of the bus
client returns (`g_dbus_proxy_set_property_basic`, `g_dbus_proxy_method_call`)
when the selected row makes a request.  The result is the returned `ModeMode`
and the mode object. -/
def bluetooth_mode_result (sw : Mode) (mretv : Nat) (selected_line : Nat) (submit_ok : Bool) :
    Option (Nat × Mode) :=
  if mretv &&& MENU_OK ≠ 0 then
    match sw.private_data.entries[selected_line]? with
    | none => none
    | some entry => result_activate sw entry submit_ok
  else if mretv &&& MENU_NEXT ≠ 0 then some (NEXT_DIALOG, sw)
  else if mretv &&& MENU_PREVIOUS ≠ 0 then some (PREVIOUS_DIALOG, sw)
  else if mretv &&& MENU_CANCEL ≠ 0 then some (MODE_EXIT, sw)
  else if mretv &&& MENU_QUICK_SWITCH ≠ 0 then some (mretv &&& MENU_LOWER_MASK, sw)
  else some (RELOAD_DIALOG, sw)

/-! ## Runs of the engine -/

/-- What can happen to the mode after `bluetooth_mode_init`: a notification of
the bus client, a selection of the host, or the completion of a request. -/
inductive Event where
  | added (proxy : GDBusProxy)
  | removed (proxy : GDBusProxy)
  | changed (proxy : GDBusProxy) (name : String) (value : Bool)
  | result (mretv : Nat) (selected_line : Nat) (submit_ok : Bool)
  | generic_done (error_is_set : Bool)
  | connect_done (error_in_message : Bool)
  | pair_done (error_in_message : Bool)
  | remove_done (error_in_message : Bool)
  | scan_done (error_in_message : Bool)
  deriving DecidableEq, Repr

def step (sw : Mode) (ev : Event) : Option Mode :=
  match ev with
  | Event.added proxy => proxy_added proxy sw
  | Event.removed proxy => proxy_removed proxy sw
  | Event.changed proxy name value => property_changed proxy name value sw
  | Event.result mretv selected_line submit_ok =>
    (bluetooth_mode_result sw mretv selected_line submit_ok).map Prod.snd
  | Event.generic_done e => generic_callback e sw
  | Event.connect_done e => some (connect_callback e sw)
  | Event.pair_done e => some (pair_callback e sw)
  | Event.remove_done e => some (remove_callback e sw)
  | Event.scan_done e => some (scan_callback e sw)

def run (sw : Mode) : List Event → Option Mode
  | [] => some sw
  | ev :: evs =>
    match step sw ev with
    | none => none
    | some sw1 => run sw1 evs

/-! ## The registry and the rows of a rebuild -/

/-- The rows that one device loop of `update_entries` produces for a run of
devices whose first element has storage index `j`. -/
def device_rows (want : Bool) (text : Device → String) : Nat → List Device → List Entry
  | _, [] => []
  | j, d :: ds =>
    if d.paired = want then
      { text := text d, flags := ENTRY_DEVICE ||| ENTRY_ALLOCATED, device := j } ::
        device_rows want text (j + 1) ds
    else device_rows want text (j + 1) ds

/-- The devices of the registry: the first `num_devices` slots of the buffer. -/
def live_devices (pd : BluetoothModePrivateData) : List Device :=
  pd.devices.take pd.num_devices

/-- The number of registry devices whose paired flag is set. -/
def paired_count (pd : BluetoothModePrivateData) : Nat :=
  (live_devices pd).countP (fun d => d.paired)

/-- The registry is well formed: the count fits the buffer, the row counts
derived from it fit `u32`, and `num_paired_devices` is the number of paired
devices. -/
def registry_ok (pd : BluetoothModePrivateData) : Prop :=
  pd.num_devices ≤ pd.devices.length ∧ pd.num_devices + 4 < 4294967296 ∧
    pd.num_paired_devices = paired_count pd

instance (pd : BluetoothModePrivateData) : Decidable (registry_ok pd) := by
  unfold registry_ok; infer_instance

/-- The rows that the controller loop writes for the properties `k`, `k + 1`, ... -/
def controller_rows (c : Controller) : Nat → Nat → List Entry
  | _, 0 => []
  | k, fuel + 1 =>
    { text := controller_row_text (controller_props.getD k "") ((controller_info c k).getD false),
      flags := ENTRY_CONTROLLER_PROP ||| ENTRY_ALLOCATED, device := k } ::
      controller_rows c (k + 1) fuel

/-- The root list as `update_entries` leaves it: the paired devices, the
"Pair Device" row and, with a controller, its three property rows, the last
row written being re-tagged `ENTRY_SCAN | ENTRY_ALLOCATED`. -/
def root_rows (pd : BluetoothModePrivateData) : List Entry :=
  device_rows true list_row_text 0 (live_devices pd) ++
    match pd.controller with
    | none => [{ text := "\uF44A Pair Device", flags := ENTRY_SCAN ||| ENTRY_ALLOCATED, device := 0 }]
    | some c =>
      [{ text := "\uF44A Pair Device", flags := ENTRY_MENU_PAIR, device := 0 },
       { text := controller_row_text "Powered" c.powered,
         flags := ENTRY_CONTROLLER_PROP ||| ENTRY_ALLOCATED, device := 0 },
       { text := controller_row_text "Discoverable" c.discoverable,
         flags := ENTRY_CONTROLLER_PROP ||| ENTRY_ALLOCATED, device := 1 },
       { text := controller_row_text "Discovering" c.discovering,
         flags := ENTRY_SCAN ||| ENTRY_ALLOCATED, device := 2 }]

/-- The pairing list as `update_entries` leaves it. -/
def pair_rows (pd : BluetoothModePrivateData) : List Entry :=
  device_rows false pair_row_text 0 (live_devices pd) ++
    [{ text := "\uF438 Back", flags := ENTRY_MENU_LIST, device := 0 }]

/-- The device-detail list as `update_entries` leaves it for the device `dev`
stored at `current_device`. -/
def detail_rows (dev : Device) (current_device : Nat) : List Entry :=
  if dev.paired then
    [{ text := device_strings 0 dev.connected, flags := ENTRY_DEVICE_CONNECT,
       device := current_device },
     { text := device_strings 1 dev.paired, flags := ENTRY_DEVICE_PAIR,
       device := current_device },
     { text := device_strings 2 dev.trusted, flags := ENTRY_DEVICE_PROP, device := 2 },
     { text := "\uF438 Back", flags := ENTRY_MENU_LIST, device := 0 }]
  else
    [{ text := device_strings 1 dev.paired, flags := ENTRY_DEVICE_PAIR,
       device := current_device },
     { text := "\uF438 Back", flags := ENTRY_MENU_LIST, device := 0 }]

/-- The rows of a full rebuild, by navigation state. -/
def rebuilt_rows (pd : BluetoothModePrivateData) : List Entry :=
  match pd.state with
  | STATE.LIST => root_rows pd
  | STATE.PAIR => pair_rows pd
  | STATE.DEVICE =>
    match pd.devices[pd.current_device]? with
    | none => []
    | some dev => detail_rows dev pd.current_device

/-- The action of the row names a device: open-device-detail, connect toggle
or pairing toggle. -/
def references_device (e : Entry) : Prop :=
  entry_action e = ENTRY_DEVICE ∨ entry_action e = ENTRY_DEVICE_CONNECT ∨
    entry_action e = ENTRY_DEVICE_PAIR

instance (e : Entry) : Decidable (references_device e) := by
  unfold references_device; infer_instance

/-- The private data after the unordered removal of slot `i`, which holds `d`,
when `last` is the device of the last used slot. -/
def unordered_remove (pd : BluetoothModePrivateData) (i : Nat) (d last : Device) :
    BluetoothModePrivateData :=
  { pd with
    num_paired_devices :=
      if d.paired then pd.num_paired_devices - 1 else pd.num_paired_devices
    num_devices := pd.num_devices - 1
    devices := pd.devices.set i last }

/-- The registry fields of two modes agree: controller, device buffer,
`num_devices` and `num_paired_devices`. -/
def same_registry (sw sw1 : Mode) : Prop :=
  sw1.private_data.controller = sw.private_data.controller ∧
    sw1.private_data.devices = sw.private_data.devices ∧
    sw1.private_data.num_devices = sw.private_data.num_devices ∧
    sw1.private_data.num_paired_devices = sw.private_data.num_paired_devices

/-! ## Sample bus objects -/

/-- A device object of the bus, neither connected nor trusted. -/
def sample_device (ptr : Nat) (address name : String) (paired : Bool) : GDBusProxy :=
  { ptr := ptr, interface := "org.bluez.Device1", path := "/org/bluez/hci0/dev_" ++ address,
    address := address, name := name, connected := false, paired := paired, trusted := false,
    powered := false, discoverable := false, discovering := false }

/-- An adapter object of the bus, powered and discoverable, not discovering. -/
def sample_adapter : GDBusProxy :=
  { ptr := 100, interface := "org.bluez.Adapter1", path := "/org/bluez/hci0",
    address := "", name := "", connected := false, paired := false, trusted := false,
    powered := true, discoverable := true, discovering := false }

/-- The keyboard of the samples. -/
def sample_keyboard (paired : Bool) : GDBusProxy :=
  sample_device 1 "AA" "Keyboard" paired

/-- The headset of the samples. -/
def sample_headset (paired : Bool) : GDBusProxy :=
  sample_device 2 "BB" "Headset" paired

/-- The mouse of the samples. -/
def sample_mouse (paired : Bool) : GDBusProxy :=
  sample_device 3 "CC" "Mouse" paired

/-- The mode after the unpaired keyboard, the paired headset and the paired
mouse were added, root list active. -/
def sample_three : Mode :=
  (run bluetooth_mode_init
    [Event.added (sample_keyboard false), Event.added (sample_headset true),
     Event.added (sample_mouse true)]).getD bluetooth_mode_init

/-- The mode after the unpaired keyboard and the paired headset were added and
the headset row was activated: device detail of the headset. -/
def sample_detail : Mode :=
  (run bluetooth_mode_init
    [Event.added (sample_keyboard false), Event.added (sample_headset true),
     Event.result MENU_OK 0 true]).getD bluetooth_mode_init

/-- The mode after the adapter, the unpaired keyboard, the paired headset and
the unpaired mouse were added, root list active. -/
def sample_adapter_mode : Mode :=
  (run bluetooth_mode_init
    [Event.added sample_adapter, Event.added (sample_keyboard false),
     Event.added (sample_headset true), Event.added (sample_mouse false)]).getD
    bluetooth_mode_init

/-- The mode after the adapter and the unpaired keyboard were added and the
row "\uF44A Pair Device" was activated: pairing list. -/
def sample_pair_list : Mode :=
  (run bluetooth_mode_init
    [Event.added sample_adapter, Event.added (sample_keyboard false),
     Event.result MENU_OK 0 true]).getD bluetooth_mode_init

/-- The mode after the adapter and the paired headset were added and the
headset row was activated: device detail of the headset, with a controller. -/
def sample_adapter_detail : Mode :=
  (run bluetooth_mode_init
    [Event.added sample_adapter, Event.added (sample_headset true),
     Event.result MENU_OK 0 true]).getD bluetooth_mode_init

/-- The mode after the unpaired keyboard and the paired headset were added, the
headset row was activated and the keyboard was removed: device detail with
`current_device = num_devices = 1`. -/
def sample_stale_detail : Mode :=
  (run bluetooth_mode_init
    [Event.added (sample_keyboard false), Event.added (sample_headset true),
     Event.result MENU_OK 0 true, Event.removed (sample_keyboard false)]).getD
    bluetooth_mode_init

/-- A device object that was never added. -/
def sample_unknown : GDBusProxy := sample_device 9 "ZZ" "Ghost" false

/-- The mode after the adapter, the unpaired keyboard and the paired headset
were added, root list active. -/
def sample_adapter_two : Mode :=
  (run bluetooth_mode_init
    [Event.added sample_adapter, Event.added (sample_keyboard false),
     Event.added (sample_headset true)]).getD bluetooth_mode_init

/-- A device object whose name has a two-byte character: 4 codepoints, 5 bytes. -/
def sample_cafe : GDBusProxy := sample_device 4 "DD" "Café" true

/-- The mode after the adapter and the paired device "Café" were added, root
list active. -/
def sample_cafe_list : Mode :=
  (run bluetooth_mode_init
    [Event.added sample_adapter, Event.added sample_cafe]).getD bluetooth_mode_init

/-- The mode after the adapter and the unpaired keyboard were added, the
pairing list opened and the keyboard's row activated: device detail of an
unpaired device, two rows. -/
def sample_unpaired_detail : Mode :=
  (run bluetooth_mode_init
    [Event.added sample_adapter, Event.added (sample_keyboard false),
     Event.result MENU_OK 0 true, Event.result MENU_OK 0 true]).getD bluetooth_mode_init

/-- The mode after the adapter, the paired headset and the unpaired keyboard
were added, root list active. -/
def sample_adapter_pair : Mode :=
  (run bluetooth_mode_init
    [Event.added sample_adapter, Event.added (sample_headset true),
     Event.added (sample_keyboard false)]).getD bluetooth_mode_init

/-- The detail view of the device with handle `h` is active: the navigation
state is device-detail and `current_device` is a used slot that holds `h`. -/
def shows_device (pd : BluetoothModePrivateData) (h : Nat) : Prop :=
  pd.state = STATE.DEVICE ∧ pd.current_device < pd.num_devices ∧
    (pd.devices[pd.current_device]?).map (fun d => d.remote_proxy.ptr) = some h

instance (pd : BluetoothModePrivateData) (h : Nat) : Decidable (shows_device pd h) := by
  unfold shows_device; infer_instance

/-- The event is the Removed notification of a registered device while the
device shown occupies the last used slot: the unordered removal of
`proxy_removed` then moves the device shown (or removes it). -/
def moves_shown (sw : Mode) (ev : Event) : Prop :=
  match ev with
  | Event.removed proxy =>
    proxy.interface = "org.bluez.Device1" ∧
      (find_device proxy sw.private_data.devices sw.private_data.num_devices).isSome ∧
      find_device proxy sw.private_data.devices sw.private_data.num_devices ≠
        some sw.private_data.num_devices ∧
      sw.private_data.current_device + 1 = sw.private_data.num_devices
  | _ => False

instance (sw : Mode) (ev : Event) : Decidable (moves_shown sw ev) := by
  unfold moves_shown; split <;> infer_instance

/-! ## Machine arithmetic and buffer writes -/

theorem u32_of_lt {n : Nat} (h : n < 4294967296) : u32 n = n := by
  unfold u32; exact Nat.mod_eq_of_lt h

theorem u32_sub_of_le {a b : Nat} (hb : b ≤ a) : u32_sub a b = a - b := by
  unfold u32_sub; rw [if_pos hb]

theorem device_rows_length (want : Bool) (text : Device → String) (j : Nat) (ds : List Device) :
    (device_rows want text j ds).length = ds.countP (fun d => decide (d.paired = want)) := by
  induction ds generalizing j with
  | nil => rfl
  | cons d ds ih =>
    by_cases h : d.paired = want
    · simp [device_rows, h, ih, List.countP_cons]
    · simp [device_rows, h, ih, List.countP_cons]

theorem set_entry_append (pre post : List Entry) (e : Entry) (text : String) (flags data : Nat) :
    set_entry (pre ++ e :: post) pre.length text flags data =
      some (pre ++ { text := text, flags := flags, device := data } :: post) := by
  simp [set_entry]

theorem set_entry_flags_append (pre post : List Entry) (e : Entry) (flags : Nat) :
    set_entry_flags (pre ++ e :: post) pre.length flags =
      some (pre ++ { e with flags := flags } :: post) := by
  induction pre with
  | nil => simp [set_entry_flags]
  | cons a pre ih =>
    simp only [set_entry_flags, List.cons_append, List.length_cons, List.getElem?_cons_succ,
      List.set_cons_succ] at ih ⊢
    cases h : (pre ++ e :: post)[pre.length]? with
    | none => rw [h] at ih; simp at ih
    | some x => rw [h] at ih; simp only [Option.some.injEq] at ih ⊢; rw [ih]

theorem set_entry_text_append (pre post : List Entry) (e : Entry) (text : String) :
    set_entry_text (pre ++ e :: post) pre.length text =
      some (pre ++ { e with text := text } :: post) := by
  induction pre with
  | nil => simp [set_entry_text]
  | cons a pre ih =>
    simp only [set_entry_text, List.cons_append, List.length_cons, List.getElem?_cons_succ,
      List.set_cons_succ] at ih ⊢
    cases h : (pre ++ e :: post)[pre.length]? with
    | none => rw [h] at ih; simp at ih
    | some x => rw [h] at ih; simp only [Option.some.injEq] at ih ⊢; rw [ih]

theorem update_entries_devices_eq (devices : List Device) (want : Bool) (text : Device → String)
    (fuel : Nat) : ∀ (j : Nat) (pre post : List Entry), j + fuel ≤ devices.length →
      (device_rows want text j ((devices.drop j).take fuel)).length ≤ post.length →
      update_entries_devices devices want text fuel j pre.length (pre ++ post) =
        some (pre.length + (device_rows want text j ((devices.drop j).take fuel)).length,
          pre ++ device_rows want text j ((devices.drop j).take fuel) ++
            post.drop (device_rows want text j ((devices.drop j).take fuel)).length) := by
  induction fuel with
  | zero => intro j pre post _ _; simp [update_entries_devices, device_rows]
  | succ fuel ih =>
    intro j pre post hj hlen
    have hjlt : j < devices.length := by omega
    have hdrop : devices.drop j = devices[j] :: devices.drop (j + 1) :=
      List.drop_eq_getElem_cons hjlt
    have hget : devices[j]? = some devices[j] := List.getElem?_eq_getElem hjlt
    rw [hdrop, List.take_succ_cons] at hlen ⊢
    by_cases hp : devices[j].paired = want
    · simp only [device_rows, hp, if_true, List.length_cons] at hlen ⊢
      cases post with
      | nil => simp at hlen
      | cons e post =>
        simp only [update_entries_devices, hget, hp, if_true, set_entry_append]
        have := ih (j + 1) (pre ++ [Entry.mk (text devices[j])
          (ENTRY_DEVICE ||| ENTRY_ALLOCATED) j]) post (by omega)
          (by simpa using hlen)
        simp only [List.length_append, List.length_singleton, List.append_assoc,
          List.singleton_append] at this
        rw [this]
        simp [Nat.add_assoc, Nat.add_comm 1]
    · simp only [device_rows, if_neg hp] at hlen ⊢
      simp only [update_entries_devices, hget, if_neg hp]
      exact ih (j + 1) pre post (by omega) hlen

theorem resize_entries_eq (pd : BluetoothModePrivateData) (n : Nat) :
    resize_entries_if_needed pd n =
      { pd with
        num_entries := n
        entries := pd.entries ++ List.replicate (n - pd.entries.length) zero_entry } := by
  unfold resize_entries_if_needed
  split
  · rfl
  · rename_i h
    have : n - pd.entries.length = 0 := by omega
    simp [this]

theorem resized_length (es : List Entry) (n : Nat) :
    n ≤ (es ++ List.replicate (n - es.length) zero_entry).length := by
  rw [List.length_append, List.length_replicate]; omega

theorem resized_drop (es : List Entry) (n : Nat) :
    (es ++ List.replicate (n - es.length) zero_entry).drop n = es.drop n := by
  by_cases h : es.length < n
  · rw [List.drop_eq_nil_of_le (by rw [List.length_append, List.length_replicate]; omega),
      List.drop_eq_nil_of_le (by omega)]
  · have : n - es.length = 0 := by omega
    simp [this]

theorem update_entries_controller_eq (c : Controller) (P : Nat)
    (fuel : Nat) : ∀ (k : Nat) (pre post : List Entry), k + fuel ≤ 3 →
      pre.length = P + 1 + k → fuel ≤ post.length →
      update_entries_controller (some c) P fuel pre.length (pre ++ post) =
        some (pre.length + fuel, pre ++ controller_rows c k fuel ++ post.drop fuel) := by
  induction fuel with
  | zero =>
    intro k pre post _ _ _
    rw [update_entries_controller]
    simp only [controller_rows, List.append_nil, List.drop_zero, Nat.add_zero]
  | succ fuel ih =>
    intro k pre post hk hpre hpost
    cases post with
    | nil => simp at hpost
    | cons e post =>
      have ha : u32_sub (u32_sub pre.length P) 1 = k := by
        have h1 : u32_sub (P + 1 + k) P = 1 + k := by
          rw [u32_sub_of_le (by omega)]; omega
        rw [hpre, h1, u32_sub_of_le (by omega)]
        omega
      have hk3 : k < 3 := by omega
      obtain ⟨name, hname⟩ : ∃ name, controller_props[k]? = some name := by
        interval_cases k <;> simp [controller_props]
      obtain ⟨val, hval⟩ : ∃ val, controller_info c k = some val := by
        interval_cases k <;> simp [controller_info]
      have hrow : controller_rows c k (fuel + 1) =
          Entry.mk (controller_row_text name val) (ENTRY_CONTROLLER_PROP ||| ENTRY_ALLOCATED) k ::
            controller_rows c (k + 1) fuel := by
        simp [controller_rows, hval, List.getD, hname]
      rw [update_entries_controller]
      simp only [update_entries_controller_row, ha, hname, hval, set_entry_append]
      have := ih (k + 1) (pre ++ [Entry.mk (controller_row_text name val)
        (ENTRY_CONTROLLER_PROP ||| ENTRY_ALLOCATED) k]) post (by omega)
        (by simp; omega) (by simpa using hpost)
      simp only [List.length_append, List.length_singleton, List.append_assoc,
        List.singleton_append] at this
      rw [this, hrow]
      simp [Nat.add_assoc, Nat.add_comm 1]

theorem rows_length_paired (pd : BluetoothModePrivateData) (h : registry_ok pd) :
    (device_rows true list_row_text 0 (live_devices pd)).length = pd.num_paired_devices := by
  rw [device_rows_length, h.2.2, paired_count]
  congr 1
  funext d
  simp

theorem live_devices_length (pd : BluetoothModePrivateData) (h : registry_ok pd) :
    (live_devices pd).length = pd.num_devices := by
  unfold live_devices
  rw [List.length_take]
  exact Nat.min_eq_left h.1

theorem rows_length_unpaired (pd : BluetoothModePrivateData) (h : registry_ok pd) :
    (device_rows false pair_row_text 0 (live_devices pd)).length =
      pd.num_devices - pd.num_paired_devices := by
  rw [device_rows_length, h.2.2, paired_count, ← live_devices_length pd h]
  have := List.length_eq_countP_add_countP (fun d : Device => d.paired) (live_devices pd)
  have h2 : List.countP (fun d : Device => decide (d.paired = false)) (live_devices pd) =
      List.countP (fun d : Device => decide ¬(d.paired = true)) (live_devices pd) := by
    congr 1
    funext d
    cases d.paired <;> rfl
  rw [h2]
  omega

theorem paired_le_devices (pd : BluetoothModePrivateData) (h : registry_ok pd) :
    pd.num_paired_devices ≤ pd.num_devices := by
  rw [h.2.2, paired_count, ← live_devices_length pd h]
  exact List.countP_le_length _

theorem update_entries_list_eq (pd : BluetoothModePrivateData) (h : registry_ok pd)
    (hs : pd.state = STATE.LIST) :
    update_entries pd =
      some { pd with
        num_entries := (root_rows pd).length
        entries := root_rows pd ++ pd.entries.drop (root_rows pd).length } := by
  have hP := rows_length_paired pd h
  have hle := paired_le_devices pd h
  have hnum := h.1
  have hrange := h.2.1
  obtain ⟨st, es, ne, ctl, devs, nd, P, cur, status⟩ := pd
  simp only at hs hP hle hnum hrange
  subst hs
  simp only [update_entries, resize_entries_eq]
  generalize hrows : device_rows true list_row_text 0
    (live_devices ⟨STATE.LIST, es, ne, ctl, devs, nd, P, cur, status⟩) = rows at hP
  have hlive : (devs.drop 0).take nd =
      live_devices ⟨STATE.LIST, es, ne, ctl, devs, nd, P, cur, status⟩ := rfl
  clear h
  subst hP
  cases ctl with
  | none =>
    have hn : u32 (rows.length + (if (none : Option Controller).isSome = true then 3 else 0) + 1)
        = rows.length + 1 := by
      simp only [Option.isSome_none, Bool.false_eq_true, if_false, Nat.add_zero]
      exact u32_of_lt (by omega)
    simp only [hn, root_rows, hrows, List.length_append, List.length_singleton]
    rw [← resized_drop es (rows.length + 1)]
    have hlen := resized_length es (rows.length + 1)
    generalize es ++ List.replicate (rows.length + 1 - es.length) zero_entry = es1 at hlen ⊢
    have h1 := update_entries_devices_eq devs true list_row_text nd 0 [] es1 (by omega)
      (by rw [hlive, hrows]; omega)
    rw [hlive, hrows] at h1
    simp only [List.length_nil, List.nil_append, Nat.zero_add] at h1
    rw [h1]
    have hcons : es1.drop rows.length = es1[rows.length] :: es1.drop (rows.length + 1) :=
      List.drop_eq_getElem_cons (by omega)
    have h4 : u32_sub (rows.length + 1) 1 = rows.length := by
      rw [u32_sub_of_le (by omega)]; omega
    simp only [hcons, set_entry_append, Nat.sub_self, update_entries_controller, h4,
      set_entry_flags_append, List.append_assoc, List.singleton_append]
  | some c =>
    have hn : u32 (rows.length + (if (some c).isSome = true then 3 else 0) + 1)
        = rows.length + 4 := by
      simp only [Option.isSome_some, if_true]
      exact u32_of_lt (by omega)
    simp only [hn, root_rows, hrows, List.length_append, List.length_cons, List.length_nil,
      Nat.zero_add, Nat.reduceAdd]
    rw [← resized_drop es (rows.length + 4)]
    have hlen := resized_length es (rows.length + 4)
    generalize es ++ List.replicate (rows.length + 4 - es.length) zero_entry = es1 at hlen ⊢
    have h1 := update_entries_devices_eq devs true list_row_text nd 0 [] es1 (by omega)
      (by rw [hlive, hrows]; omega)
    rw [hlive, hrows] at h1
    simp only [List.length_nil, List.nil_append, Nat.zero_add] at h1
    rw [h1]
    have hcons : es1.drop rows.length = es1[rows.length] :: es1.drop (rows.length + 1) :=
      List.drop_eq_getElem_cons (by omega)
    have hfuel : rows.length + 4 - (rows.length + 1) = 3 := by omega
    simp only [hcons, set_entry_append, hfuel]
    have h3 := update_entries_controller_eq c rows.length 3 0
      (rows ++ [Entry.mk "\uF44A Pair Device" ENTRY_MENU_PAIR 0]) (es1.drop (rows.length + 1))
      (by omega) (by simp) (by rw [List.length_drop]; omega)
    simp only [List.length_append, List.length_singleton, List.append_assoc,
      List.singleton_append, List.drop_drop] at h3
    rw [h3]
    have h4 : u32_sub (rows.length + 1 + 3) 1 = rows.length + 3 := by
      rw [u32_sub_of_le (by omega)]; omega
    have hctl : controller_rows c 0 3 =
        [Entry.mk (controller_row_text "Powered" c.powered)
            (ENTRY_CONTROLLER_PROP ||| ENTRY_ALLOCATED) 0,
         Entry.mk (controller_row_text "Discoverable" c.discoverable)
            (ENTRY_CONTROLLER_PROP ||| ENTRY_ALLOCATED) 1,
         Entry.mk (controller_row_text "Discovering" c.discovering)
            (ENTRY_CONTROLLER_PROP ||| ENTRY_ALLOCATED) 2] := by
      simp [controller_rows, controller_props, controller_info]
    have h5 := set_entry_flags_append
      (rows ++ [Entry.mk "\uF44A Pair Device" ENTRY_MENU_PAIR 0,
        Entry.mk (controller_row_text "Powered" c.powered)
          (ENTRY_CONTROLLER_PROP ||| ENTRY_ALLOCATED) 0,
        Entry.mk (controller_row_text "Discoverable" c.discoverable)
          (ENTRY_CONTROLLER_PROP ||| ENTRY_ALLOCATED) 1])
      (es1.drop (rows.length + 4))
      (Entry.mk (controller_row_text "Discovering" c.discovering)
        (ENTRY_CONTROLLER_PROP ||| ENTRY_ALLOCATED) 2) (ENTRY_SCAN ||| ENTRY_ALLOCATED)
    simp only [List.length_append, List.length_cons, List.length_nil, List.append_assoc,
      List.cons_append, List.nil_append, Nat.zero_add] at h5
    simp only [h4, hctl, List.cons_append, List.nil_append]
    have h6 : rows.length + 1 + 3 = rows.length + 4 := by omega
    have h7 : rows.length + (1 + 1 + 1) = rows.length + 3 := by omega
    rw [h7] at h5
    rw [h6, h5]
    simp only [List.append_assoc, List.cons_append, List.nil_append]

theorem update_entries_pair_eq (pd : BluetoothModePrivateData) (h : registry_ok pd)
    (hs : pd.state = STATE.PAIR) :
    update_entries pd =
      some { pd with
        num_entries := (pair_rows pd).length
        entries := pair_rows pd ++ pd.entries.drop (pair_rows pd).length } := by
  have hU := rows_length_unpaired pd h
  have hle := paired_le_devices pd h
  have hnum := h.1
  have hrange := h.2.1
  obtain ⟨st, es, ne, ctl, devs, nd, P, cur, status⟩ := pd
  simp only at hs hU hle hnum hrange
  subst hs
  simp only [update_entries, resize_entries_eq]
  generalize hrows : device_rows false pair_row_text 0
    (live_devices ⟨STATE.PAIR, es, ne, ctl, devs, nd, P, cur, status⟩) = rows at hU
  have hlive : (devs.drop 0).take nd =
      live_devices ⟨STATE.PAIR, es, ne, ctl, devs, nd, P, cur, status⟩ := rfl
  clear h
  have hn : u32 (u32_sub nd P + 1) = rows.length + 1 := by
    rw [u32_sub_of_le hle, hU]
    exact u32_of_lt (by omega)
  simp only [hn, pair_rows, hrows, List.length_append, List.length_singleton]
  rw [← resized_drop es (rows.length + 1)]
  have hlen := resized_length es (rows.length + 1)
  generalize es ++ List.replicate (rows.length + 1 - es.length) zero_entry = es1 at hlen ⊢
  have h1 := update_entries_devices_eq devs false pair_row_text nd 0 [] es1 (by omega)
    (by rw [hlive, hrows]; omega)
  rw [hlive, hrows] at h1
  simp only [List.length_nil, List.nil_append, Nat.zero_add] at h1
  rw [h1]
  have hcons : es1.drop rows.length = es1[rows.length] :: es1.drop (rows.length + 1) :=
    List.drop_eq_getElem_cons (by omega)
  simp only [hcons, set_entry_append, List.append_assoc, List.singleton_append]

theorem update_entries_device_eq (pd : BluetoothModePrivateData) (dev : Device)
    (hs : pd.state = STATE.DEVICE) (hdev : pd.devices[pd.current_device]? = some dev) :
    update_entries pd =
      some { pd with
        num_entries := (detail_rows dev pd.current_device).length
        entries := detail_rows dev pd.current_device ++
          pd.entries.drop (detail_rows dev pd.current_device).length } := by
  obtain ⟨st, es, ne, ctl, devs, nd, P, cur, status⟩ := pd
  simp only at hs hdev
  subst hs
  simp only [update_entries, hdev, resize_entries_eq, detail_rows]
  cases hp : dev.paired with
  | true =>
    simp only [if_true, List.length_cons, List.length_nil]
    rw [← resized_drop es 4]
    have hlen := resized_length es 4
    generalize es ++ List.replicate (4 - es.length) zero_entry = es1 at hlen ⊢
    match es1, hlen with
    | a :: b :: c :: d :: rest, _ =>
      have h1 : u32_sub 2 1 = 1 := by decide
      have h2 : u32_sub 4 1 = 3 := by decide
      simp [set_entry, h1, h2]
  | false =>
    simp only [Bool.false_eq_true, if_false, List.length_cons, List.length_nil]
    rw [← resized_drop es 2]
    have hlen := resized_length es 2
    generalize es ++ List.replicate (2 - es.length) zero_entry = es1 at hlen ⊢
    match es1, hlen with
    | a :: b :: rest, _ =>
      have h1 : u32_sub 1 1 = 0 := by decide
      have h2 : u32_sub 2 1 = 1 := by decide
      simp [set_entry, h1, h2]

/-- The full rebuild succeeds on a well-formed registry and leaves exactly the
rows of `rebuilt_rows`, followed by the untouched rest of the buffer. -/
theorem update_entries_eq (pd : BluetoothModePrivateData) (h : registry_ok pd)
    (hcur : pd.state = STATE.DEVICE → pd.current_device < pd.devices.length) :
    update_entries pd =
      some { pd with
        num_entries := (rebuilt_rows pd).length
        entries := rebuilt_rows pd ++ pd.entries.drop (rebuilt_rows pd).length } := by
  cases hs : pd.state with
  | LIST => rw [update_entries_list_eq pd h hs]; simp only [rebuilt_rows, hs]
  | PAIR => rw [update_entries_pair_eq pd h hs]; simp only [rebuilt_rows, hs]
  | DEVICE =>
    have hlt := hcur hs
    have hdev : pd.devices[pd.current_device]? = some pd.devices[pd.current_device] :=
      List.getElem?_eq_getElem hlt
    rw [update_entries_device_eq pd _ hs hdev]
    simp only [rebuilt_rows, hs, hdev]

/-! ## The paired count -/

/-- C1 (fails on the code): the paired count is meant to equal the number of
registry devices whose paired flag is set after every event.  A "Paired"
notification that repeats the stored value breaks it in both directions:
after a device is added unpaired and notified `false`, the handler has
subtracted one from the count, which wraps to `2 ^ 32 - 1`, while no device is
paired; after a device is added paired, its detail view opened and the device
notified `true`, the count is 2 while one device is paired. -/
theorem C1_paired_count_diverges :
    (∃ sw, run bluetooth_mode_init
        [Event.added (sample_keyboard false),
         Event.changed (sample_keyboard false) "Paired" false] = some sw ∧
      sw.private_data.num_devices = 1 ∧
      sw.private_data.num_paired_devices = 4294967295 ∧
      paired_count sw.private_data = 0) ∧
    (∃ sw, run bluetooth_mode_init
        [Event.added (sample_headset true),
         Event.result MENU_OK 0 true,
         Event.changed (sample_headset true) "Paired" true] = some sw ∧
      sw.private_data.num_devices = 1 ∧
      sw.private_data.num_paired_devices = 2 ∧
      paired_count sw.private_data = 1) :=
  ⟨⟨_, rfl, rfl, rfl, rfl⟩, ⟨_, rfl, rfl, rfl, rfl⟩⟩

/-! ## The view and the registry -/

/-- C2 (fails on the code): every row that names a device is meant to carry an
index below `num_devices`.  With the root list showing one paired device
stored at index 1, the removal of the unpaired device at index 0 moves the
paired one to index 0 and rebuilds nothing: row 0 is still the
open-device-detail row with payload 1, and `num_devices` is 1. -/
theorem C2_row_keeps_removed_index :
    ∃ sw e, run bluetooth_mode_init
        [Event.added (sample_keyboard false),
         Event.added (sample_headset true),
         Event.removed (sample_keyboard false)] = some sw ∧
      sw.private_data.state = STATE.LIST ∧
      sw.private_data.num_devices = 1 ∧
      sw.private_data.num_entries = 2 ∧
      sw.private_data.entries[0]? = some e ∧
      references_device e ∧ e.device = 1 ∧ ¬ e.device < sw.private_data.num_devices :=
  ⟨_, _, rfl, rfl, rfl, rfl, rfl, by decide, rfl, by decide⟩

/-- C3 (fails on the code): after every handler the entry list is meant to
equal the full rebuild.  With the root list showing two paired devices stored
at indices 1 and 2, the removal of the unpaired device at index 0 moves the
last device to index 0 and rebuilds nothing: the list still shows the headset
before the mouse with payloads 1 and 2, while `update_entries` on the same
state yields the mouse with payload 0 before the headset with payload 1. -/
theorem C3_view_differs_from_rebuild :
    ∃ sw pd, run bluetooth_mode_init
        [Event.added (sample_keyboard false),
         Event.added (sample_headset true),
         Event.added (sample_mouse true),
         Event.removed (sample_keyboard false)] = some sw ∧
      update_entries sw.private_data = some pd ∧
      entry_list sw.private_data =
        [{ text := "Headset             False     ", flags := 513, device := 1 },
         { text := "Mouse               False     ", flags := 513, device := 2 },
         { text := "\uF44A Pair Device", flags := 520, device := 0 }] ∧
      entry_list pd =
        [{ text := "Mouse               False     ", flags := 513, device := 0 },
         { text := "Headset             False     ", flags := 513, device := 1 },
         { text := "\uF44A Pair Device", flags := 520, device := 0 }] ∧
      entry_list sw.private_data ≠ entry_list pd :=
  ⟨_, _, rfl, rfl, rfl, rfl, by decide⟩

/-! ## Unordered removal -/


theorem find_device_from_eq (proxy : GDBusProxy) (devices : List Device) (i : Nat) (d : Device)
    (hd : devices[i]? = some d) (hptr : d.remote_proxy.ptr = proxy.ptr) (fuel : Nat) :
    ∀ j, j ≤ i → i < j + fuel →
      (∀ k d', j ≤ k → k < i → devices[k]? = some d' → d'.remote_proxy.ptr ≠ proxy.ptr) →
      find_device_from proxy devices fuel j = some i := by
  induction fuel with
  | zero => intro j h1 h2 _; omega
  | succ fuel ih =>
    intro j h1 h2 hfirst
    rw [find_device_from]
    by_cases hji : j = i
    · subst hji
      simp only [hd, hptr, if_true]
    · have hlt : j < i := by omega
      have hjlen : j < devices.length := by
        have := (List.getElem?_eq_some_iff.mp hd).1
        omega
      have hget : devices[j]? = some devices[j] := List.getElem?_eq_getElem hjlen
      have hne := hfirst j devices[j] (Nat.le_refl j) hlt hget
      simp only [hget, if_neg hne]
      exact ih (j + 1) (by omega) (by omega)
        (fun k d' hk1 hk2 hk3 => hfirst k d' (by omega) hk2 hk3)

theorem find_device_from_miss (proxy : GDBusProxy) (devices : List Device) (fuel : Nat) :
    ∀ j, j + fuel ≤ devices.length →
      (∀ k d', j ≤ k → k < j + fuel → devices[k]? = some d' →
        d'.remote_proxy.ptr ≠ proxy.ptr) →
      find_device_from proxy devices fuel j = some (j + fuel) := by
  induction fuel with
  | zero => intro j _ _; rfl
  | succ fuel ih =>
    intro j hlen hall
    rw [find_device_from]
    have hget : devices[j]? = some devices[j] := List.getElem?_eq_getElem (by omega)
    have hne := hall j devices[j] (Nat.le_refl j) (by omega) hget
    simp only [hget, if_neg hne]
    rw [ih (j + 1) (by omega) (fun k d' hk1 hk2 hk3 => hall k d' (by omega) (by omega) hk3)]
    congr 1
    omega

theorem swap_perm {α : Type} (m : List α) (last : α) :
    ∀ i (h : i < m.length), List.Perm (m[i] :: m.set i last) (m ++ [last]) := by
  induction m with
  | nil => intro i h; simp at h
  | cons a m ih =>
    intro i h
    cases i with
    | zero =>
      simp only [List.getElem_cons_zero, List.set_cons_zero, List.cons_append]
      exact List.Perm.cons a (List.perm_append_singleton last m).symm
    | succ k =>
      have hk : k < m.length := by simpa using h
      simp only [List.getElem_cons_succ, List.set_cons_succ, List.cons_append]
      exact (List.Perm.swap a m[k] (m.set k last)).trans (List.Perm.cons a (ih k hk))

theorem live_after_removal (devices : List Device) (n i : Nat) (d last : Device)
    (hi : i < n) (hd : devices[i]? = some d) (hlast : devices[n - 1]? = some last) :
    List.Perm (d :: (devices.set i last).take (n - 1)) (devices.take n) := by
  have hn1 : n - 1 < devices.length := (List.getElem?_eq_some_iff.mp hlast).1
  have hlastv : devices[n - 1] = last := (List.getElem?_eq_some_iff.mp hlast).2
  have hil : i < devices.length := (List.getElem?_eq_some_iff.mp hd).1
  have hdv : devices[i] = d := (List.getElem?_eq_some_iff.mp hd).2
  have hlive : devices.take n = devices.take (n - 1) ++ [last] := by
    have := List.take_concat_get devices (n - 1) hn1
    rw [List.concat_eq_append, hlastv] at this
    rw [this]
    congr 1
    omega
  rw [hlive]
  by_cases hlst : i = n - 1
  · have hdl : d = last := by rw [← hdv, ← hlastv]; simp only [hlst]
    rw [List.set_take, List.set_eq_of_length_le (by rw [List.length_take]; omega), hdl]
    exact (List.perm_append_singleton _ _).symm
  · have hi2 : i < (devices.take (n - 1)).length := by
      rw [List.length_take]; omega
    have := swap_perm (devices.take (n - 1)) last i hi2
    rw [List.set_take]
    rw [List.getElem_take, hdv] at this
    exact this


theorem paired_count_unordered_remove (pd : BluetoothModePrivateData) (i : Nat)
    (d last : Device) (hi : i < pd.num_devices) (hd : pd.devices[i]? = some d)
    (hlast : pd.devices[pd.num_devices - 1]? = some last) :
    paired_count pd = paired_count (unordered_remove pd i d last) + (if d.paired then 1 else 0) := by
  have hperm := live_after_removal pd.devices pd.num_devices i d last hi hd hlast
  have := hperm.countP_eq (fun d => d.paired)
  unfold paired_count live_devices unordered_remove
  simp only
  rw [← this, List.countP_cons]

theorem registry_ok_unordered_remove (pd : BluetoothModePrivateData) (i : Nat)
    (d last : Device) (hok : registry_ok pd) (hi : i < pd.num_devices)
    (hd : pd.devices[i]? = some d) (hlast : pd.devices[pd.num_devices - 1]? = some last) :
    registry_ok (unordered_remove pd i d last) := by
  have hc := paired_count_unordered_remove pd i d last hi hd hlast
  obtain ⟨h1, h2, h3⟩ := hok
  refine ⟨?_, ?_, ?_⟩
  · simp only [unordered_remove, List.length_set]; omega
  · simp only [unordered_remove]; omega
  · have hP : (unordered_remove pd i d last).num_paired_devices =
        if d.paired then pd.num_paired_devices - 1 else pd.num_paired_devices := rfl
    rw [hP]
    rw [← h3] at hc
    generalize paired_count (unordered_remove pd i d last) = c at hc
    split <;> rename_i hp <;> simp only [hp, if_true, if_false, Bool.false_eq_true] at hc <;>
      omega

theorem match_none_some {α β : Type} (f : α → β) (o : Option α) :
    (match o with
      | none => none
      | some a => some (f a)) = o.map f := by
  cases o <;> rfl

theorem proxy_removed_eq (sw : Mode) (proxy : GDBusProxy) (i : Nat) (d last : Device)
    (hok : registry_ok sw.private_data) (hiface : proxy.interface = "org.bluez.Device1")
    (hfind : find_device proxy sw.private_data.devices sw.private_data.num_devices = some i)
    (hi : i < sw.private_data.num_devices) (hd : sw.private_data.devices[i]? = some d)
    (hlast : sw.private_data.devices[sw.private_data.num_devices - 1]? = some last) :
    proxy_removed proxy sw =
      if sw.private_data.state = STATE.DEVICE ∧ sw.private_data.current_device = i then
        (update_entries { unordered_remove sw.private_data i d last with state := STATE.LIST }).map
          (fun pd => rofi_view_reload { sw with private_data := pd })
      else if (if d.paired then sw.private_data.state = STATE.LIST
          else sw.private_data.state = STATE.PAIR) then
        (update_entries (unordered_remove sw.private_data i d last)).map
          (fun pd => rofi_view_reload { sw with private_data := pd })
      else some { sw with private_data := unordered_remove sw.private_data i d last } := by
  have hne : i ≠ sw.private_data.num_devices := by omega
  have hsub : u32_sub sw.private_data.num_devices 1 = sw.private_data.num_devices - 1 :=
    u32_sub_of_le (by omega)
  have hP : d.paired = true → u32_sub sw.private_data.num_paired_devices 1 =
      sw.private_data.num_paired_devices - 1 := by
    intro hp
    have := paired_count_unordered_remove sw.private_data i d last hi hd hlast
    rw [hp, if_pos rfl, ← hok.2.2] at this
    exact u32_sub_of_le (by omega)
  unfold proxy_removed
  simp only [hiface, if_true, hfind, ne_eq, hne, not_false_eq_true, hd, hsub, hlast]
  by_cases hf : sw.private_data.state = STATE.DEVICE ∧ sw.private_data.current_device = i
  · rw [if_pos hf]
    cases hp : d.paired with
    | true =>
      simp only [if_true, hP hp, unordered_remove, hp, hf, and_self, decide_True, Bool.true_or]
      cases update_entries _ <;> rfl
    | false =>
      simp only [Bool.false_eq_true, if_false, unordered_remove, hp, hf, and_self, decide_True,
        Bool.true_or, if_true]
      cases update_entries _ <;> rfl
  · rw [if_neg hf]
    cases hp : d.paired with
    | true =>
      simp only [if_true, hP hp, unordered_remove, hp, hf, decide_False, Bool.false_or]
      by_cases hl : sw.private_data.state = STATE.LIST
      · rw [if_pos hl, if_pos (decide_eq_true hl)]
        simp only [Bool.false_eq_true, if_false]
        cases update_entries _ <;> rfl
      · rw [if_neg hl, if_neg (by simpa using hl)]
        simp only [Bool.false_eq_true, if_false]
    | false =>
      simp only [Bool.false_eq_true, if_false, unordered_remove, hp, hf, decide_False,
        Bool.false_or]
      by_cases hl : sw.private_data.state = STATE.PAIR
      · rw [if_pos hl, if_pos (decide_eq_true hl)]
        cases update_entries _ <;> rfl
      · rw [if_neg hl, if_neg (by simpa using hl)]

theorem find_device_of_distinct (proxy : GDBusProxy) (devices : List Device) (n i : Nat)
    (d : Device)
    (hdistinct : (devices.take n).Pairwise (fun a b => a.remote_proxy.ptr ≠ b.remote_proxy.ptr))
    (hd : (devices.take n)[i]? = some d) (hptr : d.remote_proxy.ptr = proxy.ptr) :
    find_device proxy devices n = some i := by
  have hi : i < (devices.take n).length := (List.getElem?_eq_some_iff.mp hd).1
  have hin : i < n := by rw [List.length_take] at hi; omega
  have hd2 : devices[i]? = some d := by rw [List.getElem?_take_of_lt hin] at hd; exact hd
  refine find_device_from_eq proxy devices i d hd2 hptr n 0 (Nat.zero_le i) (by omega) ?_
  intro k d' _ hk hk2
  have hk3 : (devices.take n)[k]? = some d' := by
    rw [List.getElem?_take_of_lt (by omega)]; exact hk2
  obtain ⟨hkl, hkv⟩ := List.getElem?_eq_some_iff.mp hk3
  obtain ⟨_, hiv⟩ := List.getElem?_eq_some_iff.mp hd
  have := (List.pairwise_iff_getElem.mp hdistinct) k i hkl hi hk
  rw [hkv, hiv, hptr] at this
  exact this

theorem update_entries_frame (pd pd1 : BluetoothModePrivateData)
    (h : update_entries pd = some pd1) :
    pd1.state = pd.state ∧ pd1.controller = pd.controller ∧ pd1.devices = pd.devices ∧
      pd1.num_devices = pd.num_devices ∧ pd1.num_paired_devices = pd.num_paired_devices ∧
      pd1.current_device = pd.current_device ∧ pd1.command_status = pd.command_status := by
  unfold update_entries at h
  simp only [resize_entries_eq] at h
  split at h
  · split at h
    · exact absurd h (by simp)
    · split at h
      · exact absurd h (by simp)
      · split at h
        · exact absurd h (by simp)
        · split at h
          · exact absurd h (by simp)
          · simp only [Option.some.injEq] at h
            subst h
            simp [*]
  · split at h
    · exact absurd h (by simp)
    · split at h
      · exact absurd h (by simp)
      · simp only [Option.some.injEq] at h
        subst h
        simp [*]
  · split at h
    · exact absurd h (by simp)
    · split at h
      · exact absurd h (by simp)
      · rename_i pd2 hfilled
        split at h
        · exact absurd h (by simp)
        · split at h
          · exact absurd h (by simp)
          · simp only [Option.some.injEq] at h
            subst h
            split at hfilled
            · split at hfilled
              · exact absurd hfilled (by simp)
              · split at hfilled
                · exact absurd hfilled (by simp)
                · simp only [Option.some.injEq] at hfilled
                  subst hfilled
                  simp [*]
            · simp only [Option.some.injEq] at hfilled
              subst hfilled
              simp [*]

theorem registry_ok_state (pd : BluetoothModePrivateData) (st : STATE) :
    registry_ok { pd with state := st } ↔ registry_ok pd := Iff.rfl

/-- On a well-formed registry the removal of a found device yields a mode
whose registry is `unordered_remove`; the navigation state goes to the root
list exactly when the device detail of that slot was shown. -/
theorem proxy_removed_registry (sw : Mode) (proxy : GDBusProxy) (i : Nat) (d last : Device)
    (hok : registry_ok sw.private_data) (hiface : proxy.interface = "org.bluez.Device1")
    (hfind : find_device proxy sw.private_data.devices sw.private_data.num_devices = some i)
    (hi : i < sw.private_data.num_devices) (hd : sw.private_data.devices[i]? = some d)
    (hlast : sw.private_data.devices[sw.private_data.num_devices - 1]? = some last) :
    ∃ sw1, proxy_removed proxy sw = some sw1 ∧
      sw1.private_data.devices = sw.private_data.devices.set i last ∧
      sw1.private_data.num_devices = sw.private_data.num_devices - 1 ∧
      sw1.private_data.num_paired_devices =
        (unordered_remove sw.private_data i d last).num_paired_devices ∧
      sw1.private_data.controller = sw.private_data.controller := by
  have hok1 := registry_ok_unordered_remove sw.private_data i d last hok hi hd hlast
  rw [proxy_removed_eq sw proxy i d last hok hiface hfind hi hd hlast]
  by_cases hf : sw.private_data.state = STATE.DEVICE ∧ sw.private_data.current_device = i
  · rw [if_pos hf,
      update_entries_eq _ ((registry_ok_state _ _).mpr hok1) (fun h => by simp at h)]
    exact ⟨_, rfl, rfl, rfl, rfl, rfl⟩
  · rw [if_neg hf]
    by_cases hu : (if d.paired then sw.private_data.state = STATE.LIST
        else sw.private_data.state = STATE.PAIR)
    · rw [if_pos hu, update_entries_eq _ hok1 (fun h => by
        have h2 : sw.private_data.state = STATE.DEVICE := h
        rw [h2] at hu
        split at hu <;> simp at hu)]
      exact ⟨_, rfl, rfl, rfl, rfl, rfl⟩
    · rw [if_neg hu]
      exact ⟨_, rfl, rfl, rfl, rfl, rfl⟩

/-- C4: on a registry of `n ≥ 1` devices with pairwise distinct handles, the
Removed notification for the handle of the device `d` at position `i < n`
yields a registry of `n - 1` devices in which the device previously last is at
position `i` (when `i < n - 1`), every other position below `n - 1` holds the
device it held before, and the devices are, as a multiset, the original ones
without `d`. -/
theorem C4_unordered_removal (sw : Mode) (proxy : GDBusProxy) (i : Nat) (d : Device)
    (hok : registry_ok sw.private_data)
    (hiface : proxy.interface = "org.bluez.Device1")
    (hdistinct : (live_devices sw.private_data).Pairwise
      (fun a b => a.remote_proxy.ptr ≠ b.remote_proxy.ptr))
    (hd : (live_devices sw.private_data)[i]? = some d)
    (hptr : d.remote_proxy.ptr = proxy.ptr) :
    ∃ sw1, proxy_removed proxy sw = some sw1 ∧
      sw1.private_data.num_devices = sw.private_data.num_devices - 1 ∧
      (live_devices sw1.private_data).length = sw.private_data.num_devices - 1 ∧
      (i < sw.private_data.num_devices - 1 →
        (live_devices sw1.private_data)[i]? =
          (live_devices sw.private_data)[sw.private_data.num_devices - 1]?) ∧
      (∀ j, j < sw.private_data.num_devices - 1 → j ≠ i →
        (live_devices sw1.private_data)[j]? = (live_devices sw.private_data)[j]?) ∧
      (↑(live_devices sw1.private_data) : Multiset Device) =
        (↑(live_devices sw.private_data) : Multiset Device).erase d := by
  have hfind := find_device_of_distinct proxy sw.private_data.devices
    sw.private_data.num_devices i d hdistinct hd hptr
  have hilen : i < (live_devices sw.private_data).length := (List.getElem?_eq_some_iff.mp hd).1
  have hin : i < sw.private_data.num_devices := by
    rw [live_devices_length _ hok] at hilen; exact hilen
  have hd2 : sw.private_data.devices[i]? = some d := by
    unfold live_devices at hd
    rw [List.getElem?_take_of_lt hin] at hd; exact hd
  have hnlen := hok.1
  have hn1 : sw.private_data.num_devices - 1 < sw.private_data.devices.length := by omega
  obtain ⟨last, hlast⟩ :
      ∃ last, sw.private_data.devices[sw.private_data.num_devices - 1]? = some last :=
    ⟨_, List.getElem?_eq_getElem hn1⟩
  obtain ⟨sw1, hrun, hdev, hnum, _, _⟩ :=
    proxy_removed_registry sw proxy i d last hok hiface hfind hin hd2 hlast
  have hperm := live_after_removal sw.private_data.devices sw.private_data.num_devices i d last
    hin hd2 hlast
  refine ⟨sw1, hrun, hnum, ?_, ?_, ?_, ?_⟩
  · unfold live_devices
    rw [hdev, hnum, List.length_take, List.length_set]; omega
  · intro hlt
    unfold live_devices
    rw [hdev, hnum, List.getElem?_take_of_lt hlt, List.getElem?_take_of_lt (by omega),
      List.getElem?_set_self (by omega), hlast]
  · intro j hj hji
    unfold live_devices
    rw [hdev, hnum, List.getElem?_take_of_lt hj, List.getElem?_take_of_lt (by omega),
      List.getElem?_set_ne (Ne.symm hji)]
  · unfold live_devices
    rw [hdev, hnum]
    have h1 : (↑(sw.private_data.devices.take sw.private_data.num_devices) : Multiset Device) =
        d ::ₘ ↑((sw.private_data.devices.set i last).take
            (sw.private_data.num_devices - 1)) := by
      rw [Multiset.cons_coe]
      exact (Multiset.coe_eq_coe.mpr hperm).symm
    rw [h1, Multiset.erase_cons_head]

/-- Witness of C4: the keyboard at position 0 of three devices is removed. -/
theorem C4_unordered_removal_witness :
    registry_ok sample_three.private_data ∧
    ∃ sw1, proxy_removed (sample_keyboard false) sample_three = some sw1 ∧
      sw1.private_data.num_devices = sample_three.private_data.num_devices - 1 ∧
      (live_devices sw1.private_data).length = sample_three.private_data.num_devices - 1 ∧
      (0 < sample_three.private_data.num_devices - 1 →
        (live_devices sw1.private_data)[0]? =
          (live_devices sample_three.private_data)[sample_three.private_data.num_devices - 1]?) ∧
      (∀ j, j < sample_three.private_data.num_devices - 1 → j ≠ 0 →
        (live_devices sw1.private_data)[j]? = (live_devices sample_three.private_data)[j]?) ∧
      (↑(live_devices sw1.private_data) : Multiset Device) =
        (↑(live_devices sample_three.private_data) : Multiset Device).erase
          { remote_proxy := sample_keyboard false, address := "AA", name := "Keyboard",
            connected := false, paired := false, trusted := false } :=
  ⟨by decide, C4_unordered_removal sample_three (sample_keyboard false) 0 _ (by decide)
    (by decide) (by decide) rfl rfl⟩

/-! ## Forced navigation -/

theorem registry_ok_entries (pd : BluetoothModePrivateData) (es : List Entry) (ne : Nat) :
    registry_ok { pd with entries := es, num_entries := ne } ↔ registry_ok pd := Iff.rfl

/-- On a well-formed registry the rows that a full rebuild shows are
`rebuilt_rows`, whatever the entry buffer held before. -/
theorem update_entries_entry_list (pd : BluetoothModePrivateData) (h : registry_ok pd)
    (hcur : pd.state = STATE.DEVICE → pd.current_device < pd.devices.length) :
    (update_entries pd).map entry_list = some (rebuilt_rows pd) := by
  rw [update_entries_eq pd h hcur]
  simp only [Option.map_some', entry_list, List.take_left']

/-- C5: with the device-detail view active for the registered device `d`
stored at `current_device`, the Removed notification for its handle leaves the
root list as navigation state, the registry without `d`, and as entry list
exactly what a full rebuild computes from that state and registry, whatever
the entry buffer held. -/
theorem C5_forced_navigation (sw : Mode) (proxy : GDBusProxy) (d : Device)
    (hok : registry_ok sw.private_data)
    (hiface : proxy.interface = "org.bluez.Device1")
    (hstate : sw.private_data.state = STATE.DEVICE)
    (hcur : sw.private_data.current_device < sw.private_data.num_devices)
    (hd : sw.private_data.devices[sw.private_data.current_device]? = some d)
    (hfind : find_device proxy sw.private_data.devices sw.private_data.num_devices =
      some sw.private_data.current_device) :
    ∃ sw1, proxy_removed proxy sw = some sw1 ∧
      sw1.private_data.state = STATE.LIST ∧
      sw1.private_data.controller = sw.private_data.controller ∧
      sw1.private_data.num_devices = sw.private_data.num_devices - 1 ∧
      (↑(live_devices sw1.private_data) : Multiset Device) =
        (↑(live_devices sw.private_data) : Multiset Device).erase d ∧
      registry_ok sw1.private_data ∧
      entry_list sw1.private_data = root_rows sw1.private_data ∧
      ∀ (es : List Entry) (ne : Nat),
        (update_entries { sw1.private_data with entries := es, num_entries := ne }).map
          entry_list = some (entry_list sw1.private_data) := by
  have hnlen := hok.1
  have hn1 : sw.private_data.num_devices - 1 < sw.private_data.devices.length := by omega
  obtain ⟨last, hlast⟩ :
      ∃ last, sw.private_data.devices[sw.private_data.num_devices - 1]? = some last :=
    ⟨_, List.getElem?_eq_getElem hn1⟩
  have hok1 := registry_ok_unordered_remove sw.private_data sw.private_data.current_device
    d last hok hcur hd hlast
  have hok2 : registry_ok
      { unordered_remove sw.private_data sw.private_data.current_device d last with
        state := STATE.LIST } := (registry_ok_state _ _).mpr hok1
  have hperm := live_after_removal sw.private_data.devices sw.private_data.num_devices
    sw.private_data.current_device d last hcur hd hlast
  rw [proxy_removed_eq sw proxy _ d last hok hiface hfind hcur hd hlast,
    if_pos ⟨hstate, rfl⟩, update_entries_eq _ hok2 (fun h => by simp at h)]
  refine ⟨_, rfl, rfl, rfl, rfl, ?_, hok2, ?_, ?_⟩
  · show (↑(((sw.private_data.devices.set sw.private_data.current_device last).take
        (sw.private_data.num_devices - 1))) : Multiset Device) = _
    have h1 : (↑(live_devices sw.private_data) : Multiset Device) =
        d ::ₘ ↑((sw.private_data.devices.set sw.private_data.current_device last).take
            (sw.private_data.num_devices - 1)) := by
      rw [Multiset.cons_coe]
      exact (Multiset.coe_eq_coe.mpr hperm).symm
    rw [h1, Multiset.erase_cons_head]
  · simp only [rofi_view_reload, entry_list, List.take_left']
    rfl
  · intro es ne
    have := update_entries_entry_list
      { unordered_remove sw.private_data sw.private_data.current_device d last with
        state := STATE.LIST, entries := es, num_entries := ne } hok2 (fun h => by simp at h)
    simp only [rofi_view_reload, entry_list, List.take_left'] at this ⊢
    exact this

/-- Witness of C5: the headset is removed while its detail view is shown. -/
theorem C5_forced_navigation_witness :
    registry_ok sample_detail.private_data ∧
    sample_detail.private_data.state = STATE.DEVICE ∧
    ∃ sw1, proxy_removed (sample_headset true) sample_detail = some sw1 ∧
      sw1.private_data.state = STATE.LIST ∧
      sw1.private_data.controller = sample_detail.private_data.controller ∧
      sw1.private_data.num_devices = sample_detail.private_data.num_devices - 1 ∧
      (↑(live_devices sw1.private_data) : Multiset Device) =
        (↑(live_devices sample_detail.private_data) : Multiset Device).erase
          { remote_proxy := sample_headset true, address := "BB", name := "Headset",
            connected := false, paired := true, trusted := false } ∧
      registry_ok sw1.private_data ∧
      entry_list sw1.private_data = root_rows sw1.private_data ∧
      ∀ (es : List Entry) (ne : Nat),
        (update_entries { sw1.private_data with entries := es, num_entries := ne }).map
          entry_list = some (entry_list sw1.private_data) :=
  ⟨by decide, rfl, C5_forced_navigation sample_detail (sample_headset true) _ (by decide)
    (by decide) rfl (by decide) rfl rfl⟩

/-! ## The dispatcher and the registry -/


theorem switch_state_frame (sw sw1 : Mode) (st : STATE) (name : String)
    (h : switch_state sw st name = some sw1) :
    sw1.private_data.controller = sw.private_data.controller ∧
      sw1.private_data.devices = sw.private_data.devices ∧
      sw1.private_data.num_devices = sw.private_data.num_devices ∧
      sw1.private_data.num_paired_devices = sw.private_data.num_paired_devices ∧
      sw1.private_data.current_device = sw.private_data.current_device ∧
      sw1.generic_callback_data = sw.generic_callback_data ∧ sw1.bus = sw.bus ∧
      sw1.reloads = sw.reloads := by
  unfold switch_state at h
  split at h
  · exact absurd h (by simp)
  · rename_i pd hpd
    simp only [Option.some.injEq] at h
    subst h
    have := update_entries_frame _ _ hpd
    simp only at this
    exact ⟨this.2.1, this.2.2.1, this.2.2.2.1, this.2.2.2.2.1, this.2.2.2.2.2.1, rfl, rfl, rfl⟩


theorem same_registry_of_switch (sw sw0 sw1 : Mode) (st : STATE) (name : String) (retv r : Nat)
    (h0 : same_registry sw sw0 ∧ sw0.reloads = sw.reloads)
    (h : (switch_state sw0 st name).map (fun sw1 => (r, sw1)) = some (retv, sw1)) :
    same_registry sw sw1 ∧ sw1.reloads = sw.reloads := by
  obtain ⟨sw2, h2, h3⟩ := Option.map_eq_some'.mp h
  simp only [Prod.mk.injEq] at h3
  rw [← h3.2]
  have := switch_state_frame _ _ _ _ h2
  obtain ⟨⟨a, b, c, d⟩, e⟩ := h0
  exact ⟨⟨this.1.trans a, this.2.1.trans b, this.2.2.1.trans c, this.2.2.2.1.trans d⟩,
    this.2.2.2.2.2.2.2.trans e⟩

theorem result_activate_frame (sw : Mode) (entry : Entry) (submit_ok : Bool) (retv : Nat)
    (sw1 : Mode) (h : result_activate sw entry submit_ok = some (retv, sw1)) :
    same_registry sw sw1 ∧ sw1.reloads = sw.reloads := by
  unfold result_activate at h
  simp only at h
  split at h
  · exact same_registry_of_switch sw sw sw1 _ _ _ _ ⟨⟨rfl, rfl, rfl, rfl⟩, rfl⟩ h
  split at h
  · exact same_registry_of_switch sw sw sw1 _ _ _ _ ⟨⟨rfl, rfl, rfl, rfl⟩, rfl⟩ h
  split at h
  · unfold result_device at h
    simp only at h
    split at h
    · exact absurd h (by simp)
    · refine same_registry_of_switch sw _ sw1 _ _ _ _ ?_ h
      exact ⟨⟨rfl, rfl, rfl, rfl⟩, rfl⟩
  split at h
  · unfold result_device_prop at h
    simp only at h
    split at h
    · split at h
      · exact absurd h (by simp)
      · simp only [Option.some.injEq, Prod.mk.injEq] at h
        rw [← h.2]
        exact ⟨⟨rfl, rfl, rfl, rfl⟩, rfl⟩
    · exact absurd h (by simp)
  split at h
  · unfold result_device_connect at h
    simp only at h
    split at h
    · exact absurd h (by simp)
    · split at h <;>
        (simp only [Option.some.injEq, Prod.mk.injEq] at h
         rw [← h.2]
         exact ⟨⟨rfl, rfl, rfl, rfl⟩, rfl⟩)
  split at h
  · unfold result_device_pair at h
    simp only at h
    split at h
    · exact absurd h (by simp)
    · split at h
      · split at h
        · exact absurd h (by simp)
        · simp only [Option.some.injEq, Prod.mk.injEq] at h
          rw [← h.2]
          exact ⟨⟨rfl, rfl, rfl, rfl⟩, rfl⟩
      · simp only [Option.some.injEq, Prod.mk.injEq] at h
        rw [← h.2]
        exact ⟨⟨rfl, rfl, rfl, rfl⟩, rfl⟩
  split at h
  · unfold result_controller_prop at h
    simp only at h
    split at h
    · split at h
      · exact absurd h (by simp)
      · simp only [Option.some.injEq, Prod.mk.injEq] at h
        rw [← h.2]
        exact ⟨⟨rfl, rfl, rfl, rfl⟩, rfl⟩
    · exact absurd h (by simp)
  split at h
  · unfold result_scan at h
    split at h
    · exact absurd h (by simp)
    · simp only [Option.some.injEq, Prod.mk.injEq] at h
      rw [← h.2]
      exact ⟨⟨rfl, rfl, rfl, rfl⟩, rfl⟩
  · simp only [Option.some.injEq, Prod.mk.injEq] at h
    rw [← h.2]
    exact ⟨⟨rfl, rfl, rfl, rfl⟩, rfl⟩

theorem bluetooth_mode_result_frame (sw : Mode) (mretv selected_line : Nat) (submit_ok : Bool)
    (retv : Nat) (sw1 : Mode)
    (h : bluetooth_mode_result sw mretv selected_line submit_ok = some (retv, sw1)) :
    same_registry sw sw1 ∧ sw1.reloads = sw.reloads := by
  unfold bluetooth_mode_result at h
  split at h
  · split at h
    · exact absurd h (by simp)
    · exact result_activate_frame sw _ submit_ok retv sw1 h
  · repeat' split at h
    all_goals
      simp only [Option.some.injEq, Prod.mk.injEq] at h
      rw [← h.2]
      exact ⟨⟨rfl, rfl, rfl, rfl⟩, rfl⟩

/-- C6: `bluetooth_mode_result` leaves the registry as it was (the controller
record, the device buffer with every device's fields, `num_devices` and
`num_paired_devices`) for every selected row, return code of the host and
answer of the bus client, and each completion callback changes nothing but
`command_status`. -/
theorem C6_dispatcher_writes_no_registry_field (sw : Mode) :
    (∀ (mretv selected_line : Nat) (submit_ok : Bool) (retv : Nat) (sw1 : Mode),
      bluetooth_mode_result sw mretv selected_line submit_ok = some (retv, sw1) →
        sw1.private_data.controller = sw.private_data.controller ∧
        sw1.private_data.devices = sw.private_data.devices ∧
        sw1.private_data.num_devices = sw.private_data.num_devices ∧
        sw1.private_data.num_paired_devices = sw.private_data.num_paired_devices) ∧
    (∀ (e : Bool) (sw1 : Mode), generic_callback e sw = some sw1 →
      sw1 = { sw with private_data :=
        { sw.private_data with command_status := sw1.private_data.command_status } }) ∧
    (∀ e : Bool, connect_callback e sw = { sw with private_data :=
      { sw.private_data with
        command_status := (connect_callback e sw).private_data.command_status } }) ∧
    (∀ e : Bool, pair_callback e sw = { sw with private_data :=
      { sw.private_data with
        command_status := (pair_callback e sw).private_data.command_status } }) ∧
    (∀ e : Bool, remove_callback e sw = { sw with private_data :=
      { sw.private_data with
        command_status := (remove_callback e sw).private_data.command_status } }) ∧
    (∀ e : Bool, scan_callback e sw = { sw with private_data :=
      { sw.private_data with
        command_status := (scan_callback e sw).private_data.command_status } }) := by
  refine ⟨?_, ?_, ?_, ?_, ?_, ?_⟩
  · intro mretv selected_line submit_ok retv sw1 h
    exact (bluetooth_mode_result_frame sw mretv selected_line submit_ok retv sw1 h).1
  · intro e sw1 h
    unfold generic_callback at h
    split at h
    · exact absurd h (by simp)
    · split at h <;>
        (simp only [Option.some.injEq] at h
         rw [← h]
         rfl)
  · intro e; cases e <;> rfl
  · intro e; cases e <;> rfl
  · intro e; cases e <;> rfl
  · intro e; cases e <;> rfl

/-- Witness of C6: the headset row of the root list is activated. -/
theorem C6_dispatcher_writes_no_registry_field_witness :
    ∃ out, bluetooth_mode_result sample_three MENU_OK 0 true = some out ∧
      out.2.private_data.controller = sample_three.private_data.controller ∧
      out.2.private_data.devices = sample_three.private_data.devices ∧
      out.2.private_data.num_devices = sample_three.private_data.num_devices ∧
      out.2.private_data.num_paired_devices = sample_three.private_data.num_paired_devices :=
  ⟨_, rfl, (C6_dispatcher_writes_no_registry_field sample_three).1 MENU_OK 0 true _ _ rfl⟩

/-! ## The implicit switch to the pairing list -/


theorem device_rows_eq_enum (want : Bool) (text : Device → String) (ds : List Device) :
    ∀ j, device_rows want text j ds =
      ((ds.enumFrom j).filter (fun p => p.2.paired == want)).map
        (fun p => Entry.mk (text p.2) (ENTRY_DEVICE ||| ENTRY_ALLOCATED) p.1) := by
  induction ds with
  | nil => intro j; rfl
  | cons d ds ih =>
    intro j
    by_cases h : d.paired = want
    · simp [device_rows, List.enumFrom, List.filter_cons, h, ih]
    · simp [device_rows, List.enumFrom, List.filter_cons, h, ih]

theorem registry_ok_controller (pd : BluetoothModePrivateData) (c : Option Controller) :
    registry_ok { pd with controller := c } ↔ registry_ok pd := Iff.rfl

theorem printf_left_length (width : Nat) (s : String) (h : s.utf8ByteSize = s.length) :
    (printf_left width s).length = max width s.length := by
  unfold printf_left
  rw [String.length_append, h]
  show s.length + (List.replicate (width - s.length) ' ').length = _
  rw [List.length_replicate]
  omega

/-- C7: for a registered controller (whatever its flags, so in particular
powered, discoverable and not discovering) and any navigation state (so in
particular the root list), the notification that "Discovering" became true for
the controller's handle stores `discovering = true` and nothing else in the
controller, makes the pairing list the navigation state and leaves as entry
list one open-device-detail row per unpaired device, in storage order and with
the storage index as payload, showing the address left-justified in a field of
20 bytes (20 columns for an address of one-byte characters) followed by the
name, then the single row "\uF438 Back" tagged navigate-to-root. -/
theorem C7_discovery_switches_to_pair_list (sw : Mode) (proxy : GDBusProxy) (c : Controller)
    (hok : registry_ok sw.private_data)
    (hiface : proxy.interface = "org.bluez.Adapter1")
    (hc : sw.private_data.controller = some c)
    (hptr : c.remote_proxy.ptr = proxy.ptr) :
    ∃ sw1, property_changed proxy "Discovering" true sw = some sw1 ∧
      sw1.private_data.controller = some { c with discovering := true } ∧
      sw1.private_data.state = STATE.PAIR ∧
      sw1.private_data.devices = sw.private_data.devices ∧
      sw1.private_data.num_devices = sw.private_data.num_devices ∧
      entry_list sw1.private_data =
        (((live_devices sw.private_data).enum.filter (fun p => !p.2.paired)).map
          (fun p => Entry.mk (printf_left 20 p.2.address ++ p.2.name)
            (ENTRY_DEVICE ||| ENTRY_ALLOCATED) p.1)) ++
          [Entry.mk "\uF438 Back" ENTRY_MENU_LIST 0] ∧
      (∀ address : String, address.utf8ByteSize = address.length →
        (printf_left 20 address).length = max 20 address.length) := by
  have hne : ¬ proxy.interface = "org.bluez.Device1" := by rw [hiface]; decide
  have hidx : controller_prop_index "Discovering" = 2 := by decide
  have hok2 : registry_ok
      { sw.private_data with
        controller := some (set_controller_info c 2 true), state := STATE.PAIR } := hok
  unfold property_changed
  simp only [if_neg hne, if_pos hiface]
  unfold property_changed_adapter
  simp only [hc, hptr, if_true, hidx]
  have hd : (set_controller_info c 2 true).discovering = true := rfl
  rw [if_pos ⟨trivial, hd⟩, update_entries_eq _ hok2 (fun h => by simp at h)]
  refine ⟨_, rfl, rfl, rfl, rfl, rfl, ?_, fun a h => printf_left_length 20 a h⟩
  simp only [rofi_view_reload, entry_list, List.take_left']
  show pair_rows _ = _
  unfold pair_rows
  rw [device_rows_eq_enum]
  simp only [List.enum, pair_row_text, live_devices]
  congr 2
  apply List.filter_congr
  intro p _
  cases p.2.paired <;> rfl

/-- Witness of C7: the adapter starts discovering while the root list shows the
headset; the keyboard and the mouse are unpaired. -/
theorem C7_discovery_switches_to_pair_list_witness :
    registry_ok sample_adapter_mode.private_data ∧
    sample_adapter_mode.private_data.state = STATE.LIST ∧
    ∃ sw1, property_changed sample_adapter "Discovering" true sample_adapter_mode = some sw1 ∧
      sw1.private_data.controller =
        some { remote_proxy := sample_adapter, powered := true, discoverable := true,
               discovering := true } ∧
      sw1.private_data.state = STATE.PAIR ∧
      sw1.private_data.devices = sample_adapter_mode.private_data.devices ∧
      sw1.private_data.num_devices = sample_adapter_mode.private_data.num_devices ∧
      entry_list sw1.private_data =
        (((live_devices sample_adapter_mode.private_data).enum.filter
            (fun p => !p.2.paired)).map
          (fun p => Entry.mk (printf_left 20 p.2.address ++ p.2.name)
            (ENTRY_DEVICE ||| ENTRY_ALLOCATED) p.1)) ++
          [Entry.mk "\uF438 Back" ENTRY_MENU_LIST 0] ∧
      (∀ address : String, address.utf8ByteSize = address.length →
        (printf_left 20 address).length = max 20 address.length) :=
  ⟨by decide, rfl,
    C7_discovery_switches_to_pair_list sample_adapter_mode sample_adapter
      { remote_proxy := sample_adapter, powered := true, discoverable := true,
        discovering := false } (by decide) (by decide) rfl rfl⟩

/-! ## The trust toggle -/

/-- The view of a mode in device detail is the full rebuild: the entry buffer
starts with the rows of `detail_rows` and `num_entries` counts them. -/
theorem detail_view_eq (pd : BluetoothModePrivateData) (d : Device)
    (hstate : pd.state = STATE.DEVICE) (hd : pd.devices[pd.current_device]? = some d)
    (hview : update_entries pd = some pd) :
    pd.entries = detail_rows d pd.current_device ++
        pd.entries.drop (detail_rows d pd.current_device).length ∧
      pd.num_entries = (detail_rows d pd.current_device).length := by
  rw [update_entries_device_eq pd d hstate hd] at hview
  simp only [Option.some.injEq] at hview
  constructor
  · exact (congrArg BluetoothModePrivateData.entries hview).symm
  · exact (congrArg BluetoothModePrivateData.num_entries hview).symm

/-- C8: with the detail view of a paired, untrusted device `d` shown (the
entry list is the full rebuild, so row 2 reads "Trust Device"), activating
row 2 hands the bus client a set-property request for "Trusted" with value
true on the handle of `d` and changes nothing in the private data (`d.trusted`
stays false, row 2 keeps its text); the later notification that "Trusted"
became true for `d` stores `trusted = true`, makes row 2 read
"Untrust Device" with the same tag and payload, and leaves every other slot
of the entry buffer as it was. -/
theorem C8_trust_toggle_waits_for_notification (sw : Mode) (proxy : GDBusProxy) (d : Device)
    (mretv : Nat) (submit_ok : Bool)
    (hm : mretv &&& MENU_OK ≠ 0)
    (hiface : proxy.interface = "org.bluez.Device1")
    (hstate : sw.private_data.state = STATE.DEVICE)
    (hcur : sw.private_data.current_device < sw.private_data.num_devices)
    (hd : sw.private_data.devices[sw.private_data.current_device]? = some d)
    (hfind : find_device proxy sw.private_data.devices sw.private_data.num_devices =
      some sw.private_data.current_device)
    (hpaired : d.paired = true) (htrusted : d.trusted = false)
    (hview : update_entries sw.private_data = some sw.private_data) :
    sw.private_data.entries[2]? = some (Entry.mk "Trust Device" ENTRY_DEVICE_PROP 2) ∧
    ∃ retv sw1, bluetooth_mode_result sw mretv 2 submit_ok = some (retv, sw1) ∧
      sw1.bus = sw.bus ++ [BusCall.set_property d.remote_proxy.ptr "Trusted" true
        (some Callback.generic_callback)] ∧
      sw1.private_data = sw.private_data ∧
      ∃ sw2, property_changed proxy "Trusted" true sw1 = some sw2 ∧
        sw2.private_data.devices[sw.private_data.current_device]? =
          some { d with trusted := true } ∧
        sw2.private_data.entries[2]? = some (Entry.mk "Untrust Device" ENTRY_DEVICE_PROP 2) ∧
        sw2.private_data.num_entries = sw.private_data.num_entries ∧
        sw2.private_data.state = STATE.DEVICE ∧
        ∀ k, k ≠ 2 → sw2.private_data.entries[k]? = sw.private_data.entries[k]? := by
  obtain ⟨hent, hnum⟩ := detail_view_eq sw.private_data d hstate hd hview
  simp only [detail_rows, hpaired, htrusted, if_true, List.length_cons, List.length_nil,
    List.cons_append, List.nil_append, device_strings] at hent hnum
  have hrow : sw.private_data.entries[2]? = some (Entry.mk "Trust Device" ENTRY_DEVICE_PROP 2) := by
    rw [hent]; rfl
  refine ⟨hrow, ?_⟩
  have hres : bluetooth_mode_result sw mretv 2 submit_ok =
      some (RELOAD_DIALOG,
        { sw with
          generic_callback_data := CallbackData.text "[Trusted] to True"
          bus := sw.bus ++ [BusCall.set_property d.remote_proxy.ptr "Trusted" true
            (some Callback.generic_callback)] }) := by
    unfold bluetooth_mode_result
    rw [if_pos hm]
    simp only [hrow]
    have ha : entry_action (Entry.mk "Trust Device" ENTRY_DEVICE_PROP 2) = ENTRY_DEVICE_PROP := by
      decide
    unfold result_activate
    simp only [ha]
    rw [if_neg (by decide), if_neg (by decide), if_neg (by decide), if_pos trivial]
    unfold result_device_prop
    simp only [hd]
    have hp : device_props[2 >>> 1]? = some "Trusted" := by decide
    simp only [hp, device_info, htrusted]
    rfl
  refine ⟨_, _, hres, rfl, rfl, ?_⟩
  have hne : sw.private_data.current_device ≠ sw.private_data.num_devices := by omega
  unfold property_changed
  simp only [if_pos hiface, hfind, ne_eq, hne, not_false_eq_true, if_true, hd]
  rw [if_neg (by decide), if_neg (by decide)]
  unfold property_changed_trusted
  simp only
  rw [if_pos ⟨hstate, trivial⟩]
  have hset : set_entry_text sw.private_data.entries 2 (device_strings 2 true) =
      some (sw.private_data.entries.set 2 (Entry.mk "Untrust Device" ENTRY_DEVICE_PROP 2)) := by
    unfold set_entry_text
    rw [hrow]
    rfl
  simp only [hset]
  have hlen : sw.private_data.current_device < sw.private_data.devices.length :=
    (List.getElem?_eq_some_iff.mp hd).1
  have hlen2 : 2 < sw.private_data.entries.length := (List.getElem?_eq_some_iff.mp hrow).1
  refine ⟨_, rfl, ?_, ?_, rfl, hstate, ?_⟩
  · simp only [rofi_view_reload]
    rw [List.getElem?_set_self hlen]
  · simp only [rofi_view_reload]
    rw [List.getElem?_set_self hlen2]
  · intro k hk
    simp only [rofi_view_reload]
    rw [List.getElem?_set_ne (Ne.symm hk)]

/-- Witness of C8: row 2 of the headset's detail view is activated, then the
notification arrives. -/
theorem C8_trust_toggle_waits_for_notification_witness :
    sample_detail.private_data.state = STATE.DEVICE ∧
    sample_detail.private_data.entries[2]? =
      some (Entry.mk "Trust Device" ENTRY_DEVICE_PROP 2) ∧
    ∃ retv sw1, bluetooth_mode_result sample_detail MENU_OK 2 true = some (retv, sw1) ∧
      sw1.bus = sample_detail.bus ++ [BusCall.set_property 2 "Trusted" true
        (some Callback.generic_callback)] ∧
      sw1.private_data = sample_detail.private_data ∧
      ∃ sw2, property_changed (sample_headset true) "Trusted" true sw1 = some sw2 ∧
        sw2.private_data.devices[sample_detail.private_data.current_device]? =
          some { remote_proxy := sample_headset true, address := "BB", name := "Headset",
                 connected := false, paired := true, trusted := true } ∧
        sw2.private_data.entries[2]? = some (Entry.mk "Untrust Device" ENTRY_DEVICE_PROP 2) ∧
        sw2.private_data.num_entries = sample_detail.private_data.num_entries ∧
        sw2.private_data.state = STATE.DEVICE ∧
        ∀ k, k ≠ 2 → sw2.private_data.entries[k]? = sample_detail.private_data.entries[k]? :=
  ⟨rfl,
    C8_trust_toggle_waits_for_notification sample_detail (sample_headset true)
      { remote_proxy := sample_headset true, address := "BB", name := "Headset",
        connected := false, paired := true, trusted := false }
      MENU_OK true (by decide) (by decide) rfl (by decide) rfl rfl rfl rfl rfl⟩

/-! ## Pairing -/

theorem device_rows_mem (want : Bool) (text : Device → String) (ds : List Device) :
    ∀ (i : Nat) (d : Device) (j : Nat), ds[i]? = some d → d.paired = want →
      ∃ k, k < (device_rows want text j ds).length ∧
        (device_rows want text j ds)[k]? =
          some (Entry.mk (text d) (ENTRY_DEVICE ||| ENTRY_ALLOCATED) (j + i)) := by
  induction ds with
  | nil => intro i d j h; simp at h
  | cons a ds ih =>
    intro i d j h hp
    cases i with
    | zero =>
      simp only [List.getElem?_cons_zero, Option.some.injEq] at h
      subst h
      exact ⟨0, by simp [device_rows, hp], by simp [device_rows, hp]⟩
    | succ i =>
      simp only [List.getElem?_cons_succ] at h
      obtain ⟨k, hk, hk2⟩ := ih i d (j + 1) h hp
      have hidx : j + 1 + i = j + (i + 1) := by omega
      rw [hidx] at hk2
      by_cases ha : a.paired = want
      · refine ⟨k + 1, ?_, ?_⟩
        · simp only [device_rows, ha, if_true, List.length_cons]; omega
        · simp only [device_rows, ha, if_true, List.getElem?_cons_succ]; exact hk2
      · refine ⟨k, ?_, ?_⟩
        · simp only [device_rows, if_neg ha]; exact hk
        · simp only [device_rows, if_neg ha]; exact hk2

theorem countP_set {α : Type} (p : α → Bool) (l : List α) (x : α) :
    ∀ (i : Nat) (a : α), l[i]? = some a →
      (l.set i x).countP p + (if p a then 1 else 0) = l.countP p + (if p x then 1 else 0) := by
  induction l with
  | nil => intro i a h; simp at h
  | cons b l ih =>
    intro i a h
    cases i with
    | zero =>
      simp only [List.getElem?_cons_zero, Option.some.injEq] at h
      subst h
      simp only [List.set_cons_zero, List.countP_cons]
      omega
    | succ i =>
      simp only [List.getElem?_cons_succ] at h
      have := ih i a h
      simp only [List.set_cons_succ, List.countP_cons]
      omega

/-- The registry stays well formed when the device at `i`, unpaired so far, is
stored again with the paired flag set and the count is raised by one. -/
theorem registry_ok_set_paired (pd : BluetoothModePrivateData) (i : Nat) (d : Device)
    (hok : registry_ok pd) (hi : i < pd.num_devices) (hd : pd.devices[i]? = some d)
    (hp : d.paired = false) :
    registry_ok
      { pd with
        devices := pd.devices.set i { d with paired := true }
        num_paired_devices := pd.num_paired_devices + 1 } := by
  obtain ⟨h1, h2, h3⟩ := hok
  refine ⟨?_, h2, ?_⟩
  · simp only [List.length_set]; exact h1
  · have hlive : (pd.devices.take pd.num_devices)[i]? = some d := by
      rw [List.getElem?_take_of_lt hi]; exact hd
    have := countP_set (fun d : Device => d.paired) (pd.devices.take pd.num_devices)
      { d with paired := true } i d hlive
    simp only [hp, Bool.false_eq_true, if_false, if_true, Nat.add_zero] at this
    simp only [paired_count, live_devices, List.set_take] at h3 ⊢
    rw [h3, this]

theorem pair_view_eq (pd : BluetoothModePrivateData) (hok : registry_ok pd)
    (hstate : pd.state = STATE.PAIR) (hview : update_entries pd = some pd) :
    pd.entries = pair_rows pd ++ pd.entries.drop (pair_rows pd).length ∧
      pd.num_entries = (pair_rows pd).length := by
  rw [update_entries_pair_eq pd hok hstate] at hview
  simp only [Option.some.injEq] at hview
  constructor
  · exact (congrArg BluetoothModePrivateData.entries hview).symm
  · exact (congrArg BluetoothModePrivateData.num_entries hview).symm

/-- Activating, in the pairing list, the row of the unpaired device `d` stored
at `i` opens its detail view without any request to the bus. -/
theorem result_pair_list_row (sw : Mode) (d : Device) (i : Nat) (mretv : Nat)
    (submit_ok : Bool) (hm : mretv &&& MENU_OK ≠ 0)
    (hok : registry_ok sw.private_data) (hstate : sw.private_data.state = STATE.PAIR)
    (hview : update_entries sw.private_data = some sw.private_data)
    (hi : i < sw.private_data.num_devices) (hd : sw.private_data.devices[i]? = some d)
    (hp : d.paired = false) :
    ∃ k, k < sw.private_data.num_entries ∧
      sw.private_data.entries[k]? =
        some (Entry.mk (pair_row_text d) (ENTRY_DEVICE ||| ENTRY_ALLOCATED) i) ∧
      bluetooth_mode_result sw mretv k submit_ok =
        some (RELOAD_DIALOG,
          { sw with
            display_name := d.name
            private_data :=
              { sw.private_data with
                state := STATE.DEVICE
                current_device := i
                command_status := none
                num_entries := 2
                entries :=
                  [Entry.mk "Pair Device" ENTRY_DEVICE_PAIR i,
                   Entry.mk "\uF438 Back" ENTRY_MENU_LIST 0] ++ sw.private_data.entries.drop 2 } }) := by
  obtain ⟨hent, hnum⟩ := pair_view_eq sw.private_data hok hstate hview
  have hlive : (live_devices sw.private_data)[i]? = some d := by
    unfold live_devices; rw [List.getElem?_take_of_lt hi]; exact hd
  obtain ⟨k, hk, hk2⟩ := device_rows_mem false pair_row_text (live_devices sw.private_data)
    i d 0 hlive hp
  rw [Nat.zero_add] at hk2
  have hrow : sw.private_data.entries[k]? =
      some (Entry.mk (pair_row_text d) (ENTRY_DEVICE ||| ENTRY_ALLOCATED) i) := by
    rw [hent]
    unfold pair_rows
    rw [List.append_assoc, List.getElem?_append_left hk]
    exact hk2
  refine ⟨k, ?_, hrow, ?_⟩
  · rw [hnum]; unfold pair_rows; rw [List.length_append]; omega
  · unfold bluetooth_mode_result
    rw [if_pos hm]
    simp only [hrow]
    have ha : entry_action (Entry.mk (pair_row_text d) (ENTRY_DEVICE ||| ENTRY_ALLOCATED) i) =
        ENTRY_DEVICE := by
      show (ENTRY_DEVICE ||| ENTRY_ALLOCATED) &&& (4294967295 - ENTRY_ALLOCATED) = ENTRY_DEVICE
      decide
    unfold result_activate
    simp only [ha]
    rw [if_neg (by decide), if_neg (by decide), if_pos trivial]
    unfold result_device
    simp only [hd]
    unfold switch_state
    have hok2 : registry_ok
        { sw.private_data with
          current_device := i, state := STATE.DEVICE, command_status := none } := hok
    have hdev : ({ sw.private_data with
          current_device := i, state := STATE.DEVICE,
          command_status := none } : BluetoothModePrivateData).devices[
        ({ sw.private_data with
          current_device := i, state := STATE.DEVICE,
          command_status := none } : BluetoothModePrivateData).current_device]? = some d := hd
    rw [update_entries_device_eq _ d rfl hdev]
    simp only [detail_rows, hp, Bool.false_eq_true, if_false, device_strings, Option.map_some',
      List.length_cons, List.length_nil]



/-- The notification that "Paired" became true for the unpaired device `d`
stored at `i`: the flag is stored, the count is raised by one and the entry
list is rebuilt. -/
theorem property_changed_paired_true (sw : Mode) (proxy : GDBusProxy) (d : Device) (i : Nat)
    (hok : registry_ok sw.private_data)
    (hcur : sw.private_data.state = STATE.DEVICE →
      sw.private_data.current_device < sw.private_data.num_devices)
    (hiface : proxy.interface = "org.bluez.Device1")
    (hfind : find_device proxy sw.private_data.devices sw.private_data.num_devices = some i)
    (hi : i < sw.private_data.num_devices) (hd : sw.private_data.devices[i]? = some d)
    (hp : d.paired = false) :
    ∃ sw1, property_changed proxy "Paired" true sw = some sw1 ∧
      sw1.private_data.num_paired_devices = sw.private_data.num_paired_devices + 1 ∧
      sw1.private_data.num_devices = sw.private_data.num_devices ∧
      sw1.private_data.devices = sw.private_data.devices.set i { d with paired := true } ∧
      sw1.private_data.state = sw.private_data.state ∧
      sw1.private_data.controller = sw.private_data.controller ∧
      registry_ok sw1.private_data ∧
      entry_list sw1.private_data = rebuilt_rows sw1.private_data := by
  have hne : i ≠ sw.private_data.num_devices := by omega
  have hle := paired_le_devices sw.private_data hok
  have hrange := hok.2.1
  have hu : u32 (sw.private_data.num_paired_devices + 1) =
      sw.private_data.num_paired_devices + 1 := u32_of_lt (by omega)
  have hok1 := registry_ok_set_paired sw.private_data i d hok hi hd hp
  unfold property_changed
  simp only [if_pos hiface, hfind, ne_eq, hne, not_false_eq_true, if_true, hd]
  rw [if_neg (by decide)]
  unfold property_changed_paired
  simp only [if_true, hu]
  rw [update_entries_eq _ hok1 (fun h => by
    have := hcur h
    have hlen := hok.1
    simp only [List.length_set]
    omega)]
  refine ⟨_, rfl, rfl, rfl, rfl, rfl, rfl, hok1, ?_⟩
  simp only [rofi_view_reload, entry_list, List.take_left']
  rfl



/-- C9, as stated, fails: in the pairing list the row of the unpaired keyboard
is an open-device-detail row; activating it hands no request to the bus client
(the only request ever made is the adapter's "Pairable" at start, so no Pair
call for the keyboard's handle) and opens the keyboard's detail view. -/
theorem C9_pair_list_row_issues_no_pair_call :
    ∃ retv sw1,
      sample_pair_list.private_data.state = STATE.PAIR ∧
      entry_list sample_pair_list.private_data =
        [{ text := "AA                  Keyboard", flags := 513, device := 0 },
         { text := "\uF438 Back", flags := 256, device := 0 }] ∧
      bluetooth_mode_result sample_pair_list MENU_OK 0 true = some (retv, sw1) ∧
      sw1.bus = sample_pair_list.bus ∧
      sw1.bus = [BusCall.set_property 100 "Pairable" true none] ∧
      BusCall.method_call 1 "Pair" none (some Callback.pair_callback) ∉ sw1.bus ∧
      sw1.private_data.state = STATE.DEVICE ∧
      sw1.private_data.current_device = 0 :=
  ⟨_, _, rfl, rfl, rfl, rfl, rfl, by decide, rfl, rfl⟩

/-- C9, amended: with the pairing list shown (the entry list being the full
rebuild) and `d` an unpaired device stored at `i`, the list has a row for `d`;
activating it hands no request to the bus client and opens the detail view of
`d`, whose rows are "Pair Device" and "\uF438 Back"; activating row 0 there hands
the bus client a Pair method call on the handle of `d` and changes nothing in
the private data.  For every later well-formed state in which a device `d3` is
stored unpaired at `i3`, the notification that "Paired" became true for its
handle raises `num_paired_devices` by exactly one and, when the root list is
the navigation state, leaves an entry list with a row for `d3` at a position
below `num_paired_devices`, the row at position `num_paired_devices` being
"\uF44A Pair Device". -/
theorem C9_pair_from_detail_then_list (sw : Mode) (d : Device) (i : Nat) (mretv : Nat)
    (submit_ok : Bool) (hm : mretv &&& MENU_OK ≠ 0)
    (hok : registry_ok sw.private_data) (hstate : sw.private_data.state = STATE.PAIR)
    (hview : update_entries sw.private_data = some sw.private_data)
    (hi : i < sw.private_data.num_devices) (hd : sw.private_data.devices[i]? = some d)
    (hp : d.paired = false) :
    (∃ k row retv sw1, k < sw.private_data.num_entries ∧
      sw.private_data.entries[k]? = some row ∧
      entry_action row = ENTRY_DEVICE ∧ row.device = i ∧ row.text = pair_row_text d ∧
      bluetooth_mode_result sw mretv k submit_ok = some (retv, sw1) ∧
      sw1.bus = sw.bus ∧
      sw1.private_data.state = STATE.DEVICE ∧
      sw1.private_data.current_device = i ∧
      sw1.private_data.devices = sw.private_data.devices ∧
      entry_list sw1.private_data =
        [Entry.mk "Pair Device" ENTRY_DEVICE_PAIR i, Entry.mk "\uF438 Back" ENTRY_MENU_LIST 0] ∧
      ∃ retv2 sw2, bluetooth_mode_result sw1 mretv 0 submit_ok = some (retv2, sw2) ∧
        sw2.bus = sw.bus ++ [BusCall.method_call d.remote_proxy.ptr "Pair" none
          (some Callback.pair_callback)] ∧
        sw2.private_data = sw1.private_data) ∧
    (∀ (sw3 : Mode) (proxy : GDBusProxy) (d3 : Device) (i3 : Nat),
      registry_ok sw3.private_data →
      (sw3.private_data.state = STATE.DEVICE →
        sw3.private_data.current_device < sw3.private_data.num_devices) →
      proxy.interface = "org.bluez.Device1" →
      find_device proxy sw3.private_data.devices sw3.private_data.num_devices = some i3 →
      i3 < sw3.private_data.num_devices →
      sw3.private_data.devices[i3]? = some d3 →
      d3.paired = false →
      ∃ sw4, property_changed proxy "Paired" true sw3 = some sw4 ∧
        sw4.private_data.num_paired_devices = sw3.private_data.num_paired_devices + 1 ∧
        sw4.private_data.devices[i3]? = some { d3 with paired := true } ∧
        (sw3.private_data.state = STATE.LIST →
          ∃ k e, k < sw4.private_data.num_paired_devices ∧
            (entry_list sw4.private_data)[k]? =
              some (Entry.mk (list_row_text { d3 with paired := true })
                (ENTRY_DEVICE ||| ENTRY_ALLOCATED) i3) ∧
            (entry_list sw4.private_data)[sw4.private_data.num_paired_devices]? = some e ∧
            e.text = "\uF44A Pair Device")) := by
  constructor
  · obtain ⟨k, hk, hrow, hres⟩ :=
      result_pair_list_row sw d i mretv submit_ok hm hok hstate hview hi hd hp
    refine ⟨k, _, _, _, hk, hrow, ?_, rfl, rfl, hres, rfl, rfl, rfl, rfl, rfl, ?_⟩
    · show (ENTRY_DEVICE ||| ENTRY_ALLOCATED) &&& (4294967295 - ENTRY_ALLOCATED) = ENTRY_DEVICE
      decide
    · unfold bluetooth_mode_result
      rw [if_pos hm]
      simp only [List.cons_append, List.nil_append, List.getElem?_cons_zero]
      have ha : entry_action (Entry.mk "Pair Device" ENTRY_DEVICE_PAIR i) = ENTRY_DEVICE_PAIR := by
        show ENTRY_DEVICE_PAIR &&& (4294967295 - ENTRY_ALLOCATED) = ENTRY_DEVICE_PAIR
        decide
      unfold result_activate
      simp only [ha]
      rw [if_neg (by decide), if_neg (by decide), if_neg (by decide), if_neg (by decide),
        if_neg (by decide), if_pos trivial]
      unfold result_device_pair
      simp only [hd, hp, Bool.false_eq_true, if_false]
      exact ⟨_, _, rfl, rfl, rfl⟩
  · intro sw3 proxy d3 i3 hok3 hcur3 hiface hfind hi3 hd3 hp3
    obtain ⟨sw4, hrun, hP, hn, hdev, hst, hctl, hok4, hlist⟩ :=
      property_changed_paired_true sw3 proxy d3 i3 hok3 hcur3 hiface hfind hi3 hd3 hp3
    have hlen : i3 < sw3.private_data.devices.length := (List.getElem?_eq_some_iff.mp hd3).1
    refine ⟨sw4, hrun, hP, ?_, ?_⟩
    · rw [hdev, List.getElem?_set_self hlen]
    · intro hl
      have hlive : (live_devices sw4.private_data)[i3]? = some { d3 with paired := true } := by
        unfold live_devices
        rw [hn, List.getElem?_take_of_lt hi3, hdev, List.getElem?_set_self hlen]
      obtain ⟨k, hk, hk2⟩ := device_rows_mem true list_row_text
        (live_devices sw4.private_data) i3 _ 0 hlive rfl
      rw [Nat.zero_add] at hk2
      have hrl := rows_length_paired sw4.private_data hok4
      have hrows : rebuilt_rows sw4.private_data = root_rows sw4.private_data := by
        unfold rebuilt_rows; rw [hst, hl]
      rw [hlist, hrows]
      unfold root_rows
      refine ⟨k, ?_, by rw [← hrl]; exact hk, ?_, ?_⟩
      · exact match sw4.private_data.controller with
          | none => Entry.mk "\uF44A Pair Device" (ENTRY_SCAN ||| ENTRY_ALLOCATED) 0
          | some _ => Entry.mk "\uF44A Pair Device" ENTRY_MENU_PAIR 0
      · rw [List.getElem?_append_left hk]; exact hk2
      · rw [← hrl, List.getElem?_append_right (Nat.le_refl _), Nat.sub_self]
        cases sw4.private_data.controller <;> exact ⟨rfl, rfl⟩

/-- Witness of C9 (amended): the keyboard's row of the pairing list. -/
theorem C9_pair_from_detail_then_list_witness :
    registry_ok sample_pair_list.private_data ∧
    sample_pair_list.private_data.state = STATE.PAIR ∧
    ((∃ k row retv sw1, k < sample_pair_list.private_data.num_entries ∧
      sample_pair_list.private_data.entries[k]? = some row ∧
      entry_action row = ENTRY_DEVICE ∧ row.device = 0 ∧
      row.text = pair_row_text
        { remote_proxy := sample_keyboard false, address := "AA", name := "Keyboard",
          connected := false, paired := false, trusted := false } ∧
      bluetooth_mode_result sample_pair_list MENU_OK k true = some (retv, sw1) ∧
      sw1.bus = sample_pair_list.bus ∧
      sw1.private_data.state = STATE.DEVICE ∧
      sw1.private_data.current_device = 0 ∧
      sw1.private_data.devices = sample_pair_list.private_data.devices ∧
      entry_list sw1.private_data =
        [Entry.mk "Pair Device" ENTRY_DEVICE_PAIR 0, Entry.mk "\uF438 Back" ENTRY_MENU_LIST 0] ∧
      ∃ retv2 sw2, bluetooth_mode_result sw1 MENU_OK 0 true = some (retv2, sw2) ∧
        sw2.bus = sample_pair_list.bus ++ [BusCall.method_call 1 "Pair" none
          (some Callback.pair_callback)] ∧
        sw2.private_data = sw1.private_data) ∧
    (∀ (sw3 : Mode) (proxy : GDBusProxy) (d3 : Device) (i3 : Nat),
      registry_ok sw3.private_data →
      (sw3.private_data.state = STATE.DEVICE →
        sw3.private_data.current_device < sw3.private_data.num_devices) →
      proxy.interface = "org.bluez.Device1" →
      find_device proxy sw3.private_data.devices sw3.private_data.num_devices = some i3 →
      i3 < sw3.private_data.num_devices →
      sw3.private_data.devices[i3]? = some d3 →
      d3.paired = false →
      ∃ sw4, property_changed proxy "Paired" true sw3 = some sw4 ∧
        sw4.private_data.num_paired_devices = sw3.private_data.num_paired_devices + 1 ∧
        sw4.private_data.devices[i3]? = some { d3 with paired := true } ∧
        (sw3.private_data.state = STATE.LIST →
          ∃ k e, k < sw4.private_data.num_paired_devices ∧
            (entry_list sw4.private_data)[k]? =
              some (Entry.mk (list_row_text { d3 with paired := true })
                (ENTRY_DEVICE ||| ENTRY_ALLOCATED) i3) ∧
            (entry_list sw4.private_data)[sw4.private_data.num_paired_devices]? = some e ∧
            e.text = "\uF44A Pair Device"))) :=
  ⟨by decide, rfl,
    C9_pair_from_detail_then_list sample_pair_list
      { remote_proxy := sample_keyboard false, address := "AA", name := "Keyboard",
        connected := false, paired := false, trusted := false }
      0 MENU_OK true (by decide) (by decide) rfl rfl (by decide) rfl rfl⟩

/-! ## Idempotence of the rebuild -/

/-- C10: on a well-formed registry (the buffer holds `num_devices` devices,
`num_paired_devices` is the number of paired ones and, in device detail,
`current_device < num_devices`), whatever the entry buffer held before, a
second `update_entries` right after the first returns the state of the first
unchanged: the same `num_entries` and, at every index, the same text, flags
and payload. -/
theorem C10_rebuild_idempotent (pd : BluetoothModePrivateData)
    (hok : registry_ok pd)
    (hcur : pd.state = STATE.DEVICE → pd.current_device < pd.num_devices) :
    ∃ pd1 pd2, update_entries pd = some pd1 ∧ update_entries pd1 = some pd2 ∧
      pd2.num_entries = pd1.num_entries ∧
      (∀ i, i < pd1.num_entries → pd2.entries[i]? = pd1.entries[i]?) ∧
      pd2 = pd1 := by
  have hcur1 : pd.state = STATE.DEVICE → pd.current_device < pd.devices.length :=
    fun h => Nat.lt_of_lt_of_le (hcur h) hok.1
  have h1 := update_entries_eq pd hok hcur1
  have h2 := update_entries_eq
    { pd with
      num_entries := (rebuilt_rows pd).length
      entries := rebuilt_rows pd ++ pd.entries.drop (rebuilt_rows pd).length } hok hcur1
  have hrows : rebuilt_rows
      { pd with
        num_entries := (rebuilt_rows pd).length
        entries := rebuilt_rows pd ++ pd.entries.drop (rebuilt_rows pd).length } =
      rebuilt_rows pd := rfl
  rw [hrows] at h2
  simp only [List.drop_left'] at h2
  exact ⟨_, _, h1, h2, rfl, fun _ _ => rfl, rfl⟩

/-- Witness of C10: the pairing list rebuilt over the buffer the root list left. -/
theorem C10_rebuild_idempotent_witness :
    registry_ok { sample_adapter_mode.private_data with state := STATE.PAIR } ∧
    ∃ pd1 pd2,
      update_entries { sample_adapter_mode.private_data with state := STATE.PAIR } = some pd1 ∧
      update_entries pd1 = some pd2 ∧
      pd2.num_entries = pd1.num_entries ∧
      (∀ i, i < pd1.num_entries → pd2.entries[i]? = pd1.entries[i]?) ∧
      pd2 = pd1 :=
  ⟨by decide,
    C10_rebuild_idempotent { sample_adapter_mode.private_data with state := STATE.PAIR }
      (by decide) (by decide)⟩

/-! ## Errors of requests -/

/-- C11 (fails on the code): a reply that carries a remote error is meant to
leave the red "Error:" status naming the failed operation.  In each of
`connect_callback`, `pair_callback`, `remove_callback` and `scan_callback` the
error status is stored and then overwritten by the unconditional assignment
of the success status, so with an error reply the pending status afterwards
is the green "Success:" text, in every state. -/
theorem C11_error_reply_leaves_success_status (sw : Mode) :
    (connect_callback true sw).private_data.command_status =
      some ("<span foreground =\"green\" weight=\"bold\">Success:</span> " ++
        (if sw.generic_callback_data.as_b32 then "Disconnected" else "Connected") ++ "\n") ∧
    (pair_callback true sw).private_data.command_status =
      some "<span foreground =\"green\" weight=\"bold\">Success:</span> Paired\n" ∧
    (remove_callback true sw).private_data.command_status =
      some "<span foreground =\"green\" weight=\"bold\">Success:</span> Removed\n" ∧
    (scan_callback true sw).private_data.command_status =
      some ("<span foreground=\"green\" weight=\"bold\">Success:</span> " ++
        (if sw.generic_callback_data.as_b32 then "stopped" else "started") ++ " discovery\n") ∧
    (pair_callback true sample_detail).private_data.command_status ≠
      some "<span foreground=\"red\" weight=\"bold\">Error:</span> Failed to pair\n" :=
  ⟨rfl, rfl, rfl, rfl, by decide⟩

/-- C12, as stated, fails: with the headset's detail view shown, activating
"Remove Device" while the bus client rejects the RemoveDevice call returns
`MODE_EXIT` and leaves the pending status empty. -/
theorem C12_rejected_remove_exits_without_status :
    ∃ sw1, sample_adapter_detail.private_data.entries[1]? =
        some (Entry.mk "Remove Device" ENTRY_DEVICE_PAIR 0) ∧
      bluetooth_mode_result sample_adapter_detail MENU_OK 1 false = some (MODE_EXIT, sw1) ∧
      sw1.private_data.command_status = none ∧
      sw1.bus = sample_adapter_detail.bus ++
        [BusCall.method_call 100 "RemoveDevice" (some "/org/bluez/hci0/dev_BB")
          (some Callback.remove_callback)] :=
  ⟨_, rfl, rfl, rfl, rfl⟩

/-- C12, amended: when the bus client rejects the request of an activated
row, `bluetooth_mode_result` leaves the registry as it was.  For the connect
toggle the pending status becomes the error text "Failed to connect" or
"Failed to disconnect" and `RELOAD_DIALOG` is returned.  For the pairing
toggle of a paired device (the rejected RemoveDevice call) `MODE_EXIT` is
returned; for the pairing toggle of an unpaired device, the device-property
toggle, the controller-property toggle and the scan toggle `RELOAD_DIALOG`
is returned. -/
theorem C12_rejected_submission (sw : Mode) (mretv k : Nat) (entry : Entry)
    (hm : mretv &&& MENU_OK ≠ 0)
    (hrow : sw.private_data.entries[k]? = some entry) :
    (entry_action entry = ENTRY_DEVICE_CONNECT →
      ∀ d, sw.private_data.devices[entry.device]? = some d →
        ∃ sw1, bluetooth_mode_result sw mretv k false = some (RELOAD_DIALOG, sw1) ∧
          same_registry sw sw1 ∧
          sw1.private_data.command_status =
            some ("<span foreground=\"red\" weight=\"bold\">Error:</span> Failed to " ++
              (if d.connected then "disconnect" else "connect") ++ "\n")) ∧
    (entry_action entry = ENTRY_DEVICE_PAIR →
      ∀ d, sw.private_data.devices[entry.device]? = some d →
        (d.paired = true → ∀ c, sw.private_data.controller = some c →
          ∃ sw1, bluetooth_mode_result sw mretv k false = some (MODE_EXIT, sw1) ∧
            same_registry sw sw1) ∧
        (d.paired = false →
          ∃ sw1, bluetooth_mode_result sw mretv k false = some (RELOAD_DIALOG, sw1) ∧
            same_registry sw sw1)) ∧
    (entry_action entry = ENTRY_DEVICE_PROP →
      ∀ d, sw.private_data.devices[sw.private_data.current_device]? = some d →
        entry.device < 3 →
        ∃ sw1, bluetooth_mode_result sw mretv k false = some (RELOAD_DIALOG, sw1) ∧
          same_registry sw sw1) ∧
    (entry_action entry = ENTRY_CONTROLLER_PROP →
      ∀ c, sw.private_data.controller = some c → entry.device < 3 →
        ∃ sw1, bluetooth_mode_result sw mretv k false = some (RELOAD_DIALOG, sw1) ∧
          same_registry sw sw1) ∧
    (entry_action entry = ENTRY_SCAN →
      ∀ c, sw.private_data.controller = some c →
        ∃ sw1, bluetooth_mode_result sw mretv k false = some (RELOAD_DIALOG, sw1) ∧
          same_registry sw sw1) := by
  have hres : bluetooth_mode_result sw mretv k false = result_activate sw entry false := by
    unfold bluetooth_mode_result
    rw [if_pos hm]
    simp only [hrow]
  rw [hres]
  unfold result_activate
  refine ⟨?_, ?_, ?_, ?_, ?_⟩
  · intro hact d hd
    simp only [hact]
    rw [if_neg (by decide), if_neg (by decide), if_neg (by decide), if_neg (by decide),
      if_pos trivial]
    unfold result_device_connect
    simp only [hd]
    exact ⟨_, rfl, ⟨rfl, rfl, rfl, rfl⟩, rfl⟩
  · intro hact d hd
    simp only [hact]
    rw [if_neg (by decide), if_neg (by decide), if_neg (by decide), if_neg (by decide),
      if_neg (by decide), if_pos trivial]
    unfold result_device_pair
    simp only [hd]
    constructor
    · intro hp c hc
      rw [if_pos hp]
      simp only [hc]
      exact ⟨_, rfl, ⟨rfl, rfl, rfl, rfl⟩⟩
    · intro hp
      rw [if_neg (by rw [hp]; decide)]
      exact ⟨_, rfl, ⟨rfl, rfl, rfl, rfl⟩⟩
  · intro hact d hd hlt
    simp only [hact]
    rw [if_neg (by decide), if_neg (by decide), if_neg (by decide), if_pos trivial]
    unfold result_device_prop
    simp only [hd]
    have h3 : entry.device = 0 ∨ entry.device = 1 ∨ entry.device = 2 := by omega
    rcases h3 with h | h | h <;> rw [h] <;> exact ⟨_, rfl, ⟨rfl, rfl, rfl, rfl⟩⟩
  · intro hact c hc hlt
    simp only [hact]
    rw [if_neg (by decide), if_neg (by decide), if_neg (by decide), if_neg (by decide),
      if_neg (by decide), if_neg (by decide), if_pos trivial]
    unfold result_controller_prop
    simp only [hc]
    have h3 : entry.device = 0 ∨ entry.device = 1 ∨ entry.device = 2 := by omega
    rcases h3 with h | h | h <;> rw [h] <;> exact ⟨_, rfl, ⟨rfl, rfl, rfl, rfl⟩⟩
  · intro hact c hc
    simp only [hact]
    rw [if_neg (by decide), if_neg (by decide), if_neg (by decide), if_neg (by decide),
      if_neg (by decide), if_neg (by decide), if_neg (by decide), if_pos trivial]
    unfold result_scan
    simp only [hc]
    exact ⟨_, rfl, ⟨rfl, rfl, rfl, rfl⟩⟩

/-- Witness of C12: the request of the row "Connect Device" of the headset's
detail view is rejected. -/
theorem C12_rejected_submission_witness :
    sample_adapter_detail.private_data.entries[0]? =
      some (Entry.mk "Connect Device" ENTRY_DEVICE_CONNECT 0) ∧
    ∃ sw1, bluetooth_mode_result sample_adapter_detail MENU_OK 0 false =
        some (RELOAD_DIALOG, sw1) ∧
      same_registry sample_adapter_detail sw1 ∧
      sw1.private_data.command_status =
        some "<span foreground=\"red\" weight=\"bold\">Error:</span> Failed to connect\n" :=
  ⟨rfl,
    (C12_rejected_submission sample_adapter_detail MENU_OK 0
      (Entry.mk "Connect Device" ENTRY_DEVICE_CONNECT 0) (by decide) rfl).1 rfl
      { remote_proxy := sample_headset true, address := "BB", name := "Headset",
        connected := false, paired := true, trusted := false } rfl⟩

/-! ## Notifications that change nothing -/

/-- C13 (fails on the code): a Removed notification for a handle that matches
no device is meant to change nothing.  With the detail view of the device at
index 1 shown and one device left in the registry (so
`current_device = num_devices`), `find_device` returns `num_devices` for the
unknown handle, the test `current_device == dev_index` succeeds, and the
handler switches to the root list and rebuilds the entry list. -/
theorem C13_unknown_removal_leaves_detail_view :
    ∃ sw1, sample_stale_detail.private_data.state = STATE.DEVICE ∧
      sample_stale_detail.private_data.num_devices = 1 ∧
      sample_stale_detail.private_data.current_device = 1 ∧
      find_device sample_unknown sample_stale_detail.private_data.devices
        sample_stale_detail.private_data.num_devices = some 1 ∧
      proxy_removed sample_unknown sample_stale_detail = some sw1 ∧
      sw1.private_data.state = STATE.LIST ∧
      entry_list sample_stale_detail.private_data =
        [{ text := "Connect Device", flags := 64, device := 1 },
         { text := "Remove Device", flags := 32, device := 1 },
         { text := "Trust Device", flags := 16, device := 2 },
         { text := "\uF438 Back", flags := 256, device := 0 }] ∧
      entry_list sw1.private_data =
        [{ text := "Headset             False     ", flags := 513, device := 0 },
         { text := "\uF44A Pair Device", flags := 520, device := 0 }] ∧
      sw1.reloads = sample_stale_detail.reloads + 1 :=
  ⟨_, rfl, rfl, rfl, rfl, rfl, rfl, rfl, rfl, rfl⟩

/-- C14 (fails on the code): a handler that changes nothing is meant to request
no redraw.  The notification of the adapter property "Pairable", none of the
three names the handler knows, leaves the private data and the title as they
were, and `rofi_view_reload` is called all the same. -/
theorem C14_unknown_adapter_property_redraws :
    ∃ sw1, property_changed sample_adapter "Pairable" true sample_adapter_mode = some sw1 ∧
      sw1.private_data = sample_adapter_mode.private_data ∧
      sw1.display_name = sample_adapter_mode.display_name ∧
      sw1.reloads = sample_adapter_mode.reloads + 1 :=
  ⟨_, rfl, rfl, rfl, rfl⟩

/-! ## Transitions outside `switch_state` -/

/-- C15 (fails on the code): every change of the navigation state is meant to
clear the pending status and to set the title of the new state.  The forced
return to the root list, after the headset shown in detail is removed, keeps
the status of the earlier Connect call and the title "Headset"; the switch to
the pairing list when discovery starts keeps the status of the earlier
property change and sets the title "Pair:", where `switch_state` sets
"Pair Device:" for the same state. -/
theorem C15_implicit_transitions_keep_status :
    (∃ sw, run bluetooth_mode_init
        [Event.added sample_adapter, Event.added (sample_headset true),
         Event.result MENU_OK 0 true, Event.result MENU_OK 0 true,
         Event.connect_done false, Event.removed (sample_headset true)] = some sw ∧
      sw.private_data.state = STATE.LIST ∧
      sw.private_data.command_status =
        some "<span foreground =\"green\" weight=\"bold\">Success:</span> Connected\n" ∧
      sw.display_name = "Headset") ∧
    (∃ sw, run bluetooth_mode_init
        [Event.added sample_adapter, Event.added (sample_headset true),
         Event.result MENU_OK 2 true, Event.generic_done false,
         Event.changed sample_adapter "Discovering" true] = some sw ∧
      sw.private_data.state = STATE.PAIR ∧
      sw.private_data.command_status =
        some ("<span foreground =\"green\" weight=\"bold\">Success:</span> " ++
          "Changed [Powered] to False\n") ∧
      sw.display_name = "Pair:") ∧
    (∃ sw, run bluetooth_mode_init
        [Event.added sample_adapter, Event.added (sample_headset true),
         Event.result MENU_OK 1 true] = some sw ∧
      sw.private_data.state = STATE.PAIR ∧
      sw.private_data.command_status = none ∧
      sw.display_name = "Pair Device:") :=
  ⟨⟨_, rfl, rfl, rfl, rfl⟩, ⟨_, rfl, rfl, rfl, rfl⟩, ⟨_, rfl, rfl, rfl, rfl⟩⟩

/-! ## Rows of the lists -/

/-- A text has at least as many bytes as codepoints. -/
theorem length_le_utf8ByteSize (s : String) : s.length ≤ s.utf8ByteSize := by
  cases s with
  | mk cs =>
    show cs.length ≤ String.utf8Len cs
    induction cs with
    | nil => exact Nat.le_refl _
    | cons c cs ih =>
      have hc := Char.utf8Size_pos c
      simp only [List.length_cons, String.utf8Len_cons]
      omega

/-- The width `20 + nb - nub` makes `printf` pad the name to 20 codepoints. -/
theorem list_row_text_eq (d : Device) (h : d.name.utf8ByteSize + 20 < 4294967296) :
    list_row_text d =
      d.name ++ String.mk (List.replicate (max 20 d.name.length - d.name.length) ' ') ++
        printf_left 10 (true_false_array d.connected) := by
  have hle := length_le_utf8ByteSize d.name
  unfold list_row_text
  simp only
  rw [u32_of_lt (by omega)]
  unfold printf_left
  have e : 20 + d.name.utf8ByteSize - d.name.length - d.name.utf8ByteSize =
      max 20 d.name.length - d.name.length := by omega
  rw [e]

/-- The rows shown after a rebuild of the root list. -/
theorem entry_list_rebuilt (pd : BluetoothModePrivateData) (rows rest : List Entry) :
    entry_list { pd with num_entries := rows.length, entries := rows ++ rest } = rows := by
  unfold entry_list
  simp

/-- Every row of a device loop shows a device of the run with the wanted
paired flag and carries its storage index. -/
theorem device_rows_getElem (want : Bool) (text : Device → String) (ds : List Device) :
    ∀ (j k : Nat) (row : Entry), (device_rows want text j ds)[k]? = some row →
      ∃ i d, ds[i]? = some d ∧ d.paired = want ∧
        row = Entry.mk (text d) (ENTRY_DEVICE ||| ENTRY_ALLOCATED) (j + i) := by
  induction ds with
  | nil => intro j k row h; simp [device_rows] at h
  | cons d ds ih =>
    intro j k row h
    unfold device_rows at h
    by_cases hp : d.paired = want
    · rw [if_pos hp] at h
      cases k with
      | zero =>
        simp only [List.getElem?_cons_zero, Option.some.injEq] at h
        exact ⟨0, d, List.getElem?_cons_zero, hp, h.symm⟩
      | succ k =>
        simp only [List.getElem?_cons_succ] at h
        obtain ⟨i, d1, hd1, hp1, hrow⟩ := ih (j + 1) k row h
        refine ⟨i + 1, d1, by simpa using hd1, hp1, ?_⟩
        rw [hrow]
        congr 1
        omega
    · rw [if_neg hp] at h
      obtain ⟨i, d1, hd1, hp1, hrow⟩ := ih (j + 1) k row h
      refine ⟨i + 1, d1, by simpa using hd1, hp1, ?_⟩
      rw [hrow]
      congr 1
      omega

/-- A device of the registry sits in the buffer below `num_devices`. -/
theorem live_devices_getElem (pd : BluetoothModePrivateData) (i : Nat) (d : Device)
    (h : (live_devices pd)[i]? = some d) : i < pd.num_devices ∧ pd.devices[i]? = some d := by
  unfold live_devices at h
  rw [List.getElem?_take] at h
  split at h
  · exact ⟨by assumption, h⟩
  · exact absurd h (by simp)

/-! ## Opening a device -/

/-- A view that equals its rebuild starts with the rows of the rebuild. -/
theorem view_eq (pd : BluetoothModePrivateData) (hok : registry_ok pd)
    (hcur : pd.state = STATE.DEVICE → pd.current_device < pd.devices.length)
    (hview : update_entries pd = some pd) :
    pd.entries = rebuilt_rows pd ++ pd.entries.drop (rebuilt_rows pd).length ∧
      pd.num_entries = (rebuilt_rows pd).length := by
  rw [update_entries_eq pd hok hcur] at hview
  simp only [Option.some.injEq] at hview
  exact ⟨(congrArg BluetoothModePrivateData.entries hview).symm,
    (congrArg BluetoothModePrivateData.num_entries hview).symm⟩

/-- In a root list or pairing list that equals its rebuild, a shown row with
the action `ENTRY_DEVICE` is the row of a registry device and carries its
storage index. -/
theorem device_row_of_view (pd : BluetoothModePrivateData) (k : Nat) (row : Entry)
    (hok : registry_ok pd)
    (hstate : pd.state = STATE.LIST ∨ pd.state = STATE.PAIR)
    (hview : update_entries pd = some pd)
    (hk : k < pd.num_entries) (hrow : pd.entries[k]? = some row)
    (hact : entry_action row = ENTRY_DEVICE) :
    ∃ i d, i < pd.num_devices ∧ pd.devices[i]? = some d ∧
      d.paired = decide (pd.state = STATE.LIST) ∧
      row = Entry.mk (if pd.state = STATE.LIST then list_row_text d else pair_row_text d)
        (ENTRY_DEVICE ||| ENTRY_ALLOCATED) i := by
  have hcur : pd.state = STATE.DEVICE → pd.current_device < pd.devices.length := by
    intro h; rcases hstate with h1 | h1 <;> rw [h1] at h <;> exact absurd h (by decide)
  obtain ⟨hent, hnum⟩ := view_eq pd hok hcur hview
  rw [hent, List.getElem?_append_left (by omega)] at hrow
  rcases hstate with hs | hs
  · simp only [rebuilt_rows, hs, root_rows] at hrow
    by_cases hlt : k < (device_rows true list_row_text 0 (live_devices pd)).length
    · rw [List.getElem?_append_left hlt] at hrow
      obtain ⟨i, d, hd, hp, hr⟩ := device_rows_getElem true list_row_text _ 0 k row hrow
      obtain ⟨hi, hd1⟩ := live_devices_getElem pd i d hd
      rw [Nat.zero_add] at hr
      refine ⟨i, d, hi, hd1, ?_, ?_⟩
      · rw [hp, hs]; rfl
      · rw [hr, hs]; rfl
    · rw [List.getElem?_append_right (by omega)] at hrow
      have hmem := List.getElem?_mem hrow
      exfalso
      cases hc : pd.controller with
      | none =>
        rw [hc] at hmem
        simp only [List.mem_singleton] at hmem
        rw [hmem] at hact
        revert hact
        decide
      | some c =>
        rw [hc] at hmem
        simp only [List.mem_cons, List.mem_singleton, List.not_mem_nil, or_false] at hmem
        rcases hmem with h | h | h | h <;> rw [h] at hact <;> revert hact
        · decide
        · show (ENTRY_CONTROLLER_PROP ||| ENTRY_ALLOCATED) &&& (4294967295 - ENTRY_ALLOCATED) =
            ENTRY_DEVICE → False
          decide
        · show (ENTRY_CONTROLLER_PROP ||| ENTRY_ALLOCATED) &&& (4294967295 - ENTRY_ALLOCATED) =
            ENTRY_DEVICE → False
          decide
        · show (ENTRY_SCAN ||| ENTRY_ALLOCATED) &&& (4294967295 - ENTRY_ALLOCATED) =
            ENTRY_DEVICE → False
          decide
  · simp only [rebuilt_rows, hs, pair_rows] at hrow
    by_cases hlt : k < (device_rows false pair_row_text 0 (live_devices pd)).length
    · rw [List.getElem?_append_left hlt] at hrow
      obtain ⟨i, d, hd, hp, hr⟩ := device_rows_getElem false pair_row_text _ 0 k row hrow
      obtain ⟨hi, hd1⟩ := live_devices_getElem pd i d hd
      rw [Nat.zero_add] at hr
      refine ⟨i, d, hi, hd1, ?_, ?_⟩
      · rw [hp, hs]; rfl
      · rw [hr, hs]; rfl
    · rw [List.getElem?_append_right (by omega)] at hrow
      have hmem := List.getElem?_mem hrow
      exfalso
      simp only [List.mem_singleton] at hmem
      rw [hmem] at hact
      revert hact
      decide

/-- Activating a row with the action `ENTRY_DEVICE` whose payload is the slot
of `d`: `current_device` is set and `switch_state` rebuilds the detail view. -/
theorem result_open_device (sw : Mode) (mretv k : Nat) (submit_ok : Bool) (row : Entry)
    (d : Device) (hm : mretv &&& MENU_OK ≠ 0)
    (hrow : sw.private_data.entries[k]? = some row)
    (hact : entry_action row = ENTRY_DEVICE)
    (hd : sw.private_data.devices[row.device]? = some d) :
    bluetooth_mode_result sw mretv k submit_ok =
      some (RELOAD_DIALOG,
        { sw with
          display_name := d.name
          private_data :=
            { sw.private_data with
              state := STATE.DEVICE
              current_device := row.device
              command_status := none
              num_entries := (detail_rows d row.device).length
              entries := detail_rows d row.device ++
                sw.private_data.entries.drop (detail_rows d row.device).length } }) := by
  unfold bluetooth_mode_result
  rw [if_pos hm]
  simp only [hrow]
  unfold result_activate
  simp only [hact]
  rw [if_neg (by decide), if_neg (by decide), if_pos trivial]
  unfold result_device
  simp only [hd]
  unfold switch_state
  have hdev : ({ sw.private_data with
        current_device := row.device, state := STATE.DEVICE,
        command_status := none } : BluetoothModePrivateData).devices[
      ({ sw.private_data with
        current_device := row.device, state := STATE.DEVICE,
        command_status := none } : BluetoothModePrivateData).current_device]? = some d := hd
  rw [update_entries_device_eq _ d rfl hdev]
  rfl

/-- C16: with the root list or the pairing list active, the registry well
formed and the entry list equal to its rebuild, activating a shown row whose
action is open-device-detail (a device row; it shows the device `d` stored at
the index the row carries) returns `RELOAD_DIALOG` with the navigation state
device-detail, `current_device` the storage index of `d`, the title the name
of `d`, no pending status, the entry list the rebuild by the device-detail
rule (and equal to its own rebuild), the registry untouched and no request
handed to the bus client. -/
theorem C16_open_device (sw : Mode) (mretv k : Nat) (submit_ok : Bool) (row : Entry)
    (hm : mretv &&& MENU_OK ≠ 0)
    (hok : registry_ok sw.private_data)
    (hstate : sw.private_data.state = STATE.LIST ∨ sw.private_data.state = STATE.PAIR)
    (hview : update_entries sw.private_data = some sw.private_data)
    (hk : k < sw.private_data.num_entries)
    (hrow : sw.private_data.entries[k]? = some row)
    (hact : entry_action row = ENTRY_DEVICE) :
    ∃ d sw1, row.device < sw.private_data.num_devices ∧
      sw.private_data.devices[row.device]? = some d ∧
      row.text = (if sw.private_data.state = STATE.LIST then list_row_text d
        else pair_row_text d) ∧
      bluetooth_mode_result sw mretv k submit_ok = some (RELOAD_DIALOG, sw1) ∧
      sw1.private_data.state = STATE.DEVICE ∧
      sw1.private_data.current_device = row.device ∧
      sw1.display_name = d.name ∧
      sw1.private_data.command_status = none ∧
      entry_list sw1.private_data = detail_rows d row.device ∧
      update_entries sw1.private_data = some sw1.private_data ∧
      same_registry sw sw1 ∧
      sw1.bus = sw.bus := by
  obtain ⟨i, d, hi, hd, _, hr⟩ := device_row_of_view sw.private_data k row hok hstate hview
    hk hrow hact
  have hdev : row.device = i := by rw [hr]
  rw [← hdev] at hi hd
  refine ⟨d, _, hi, hd, by rw [hr], result_open_device sw mretv k submit_ok row d hm hrow hact hd,
    rfl, rfl, rfl, rfl, ?_, ?_, ⟨rfl, rfl, rfl, rfl⟩, rfl⟩
  · unfold entry_list
    simp
  · have h2 := update_entries_device_eq
      { sw.private_data with
        state := STATE.DEVICE
        current_device := row.device
        command_status := none
        num_entries := (detail_rows d row.device).length
        entries := detail_rows d row.device ++
          sw.private_data.entries.drop (detail_rows d row.device).length } d rfl hd
    simp only [List.drop_left'] at h2
    exact h2

/-- Witness of C16: the headset row of the root list is activated. -/
theorem C16_open_device_witness :
    sample_three.private_data.state = STATE.LIST ∧
    sample_three.private_data.entries[0]? =
      some (Entry.mk "Headset             False     " (ENTRY_DEVICE ||| ENTRY_ALLOCATED) 1) ∧
    ∃ d sw1, (1 : Nat) < sample_three.private_data.num_devices ∧
      sample_three.private_data.devices[1]? = some d ∧
      "Headset             False     " =
        (if sample_three.private_data.state = STATE.LIST then list_row_text d
          else pair_row_text d) ∧
      bluetooth_mode_result sample_three MENU_OK 0 true = some (RELOAD_DIALOG, sw1) ∧
      sw1.private_data.state = STATE.DEVICE ∧
      sw1.private_data.current_device = 1 ∧
      sw1.display_name = d.name ∧
      sw1.private_data.command_status = none ∧
      entry_list sw1.private_data = detail_rows d 1 ∧
      update_entries sw1.private_data = some sw1.private_data ∧
      same_registry sample_three sw1 ∧
      sw1.bus = sample_three.bus :=
  ⟨rfl, rfl,
    C16_open_device sample_three MENU_OK 0 true
      (Entry.mk "Headset             False     " (ENTRY_DEVICE ||| ENTRY_ALLOCATED) 1)
      (by decide) (by decide) (Or.inl rfl) rfl (by decide) rfl (by decide)⟩

/-! ## The root list without a controller -/

/-- C17 (fails on the code): without a controller the last row of the root list
is meant to be "\uF44A Pair Device" tagged open-pairing-list with a text marked as
not owned, and no row is meant to be tagged as the scan toggle.  The
assignment `pd->entries[--i].flags = ENTRY_SCAN | ENTRY_ALLOCATED` runs without
a controller too: after the first device is added the only row reads
"\uF44A Pair Device", its action is the scan toggle and its text is marked as owned;
activating it dereferences the absent controller. -/
theorem C17_pair_row_tagged_scan_without_adapter :
    ∃ sw e, run bluetooth_mode_init [Event.added (sample_keyboard false)] = some sw ∧
      sw.private_data.controller = none ∧
      paired_count sw.private_data = 0 ∧
      sw.private_data.num_entries = 1 ∧
      entry_list sw.private_data = [e] ∧
      e.text = "\uF44A Pair Device" ∧
      e.flags = (ENTRY_SCAN ||| ENTRY_ALLOCATED) ∧
      entry_action e = ENTRY_SCAN ∧
      entry_action e ≠ ENTRY_MENU_PAIR ∧
      e.flags &&& ENTRY_ALLOCATED ≠ 0 ∧
      bluetooth_mode_result sw MENU_OK 0 true = none :=
  ⟨_, _, rfl, rfl, rfl, rfl, rfl, rfl, rfl, rfl, by decide, by decide, rfl⟩

/-! ## The root list with a controller -/

/-- C18: with a controller `c`, a well-formed registry and
`P = num_paired_devices`, the rebuild of the root list succeeds and shows
exactly `P + 4` rows: first the paired devices in storage order, each tagged
`ENTRY_DEVICE` (with an owned text) and carrying the storage index of its
device, then "\uF44A Pair Device" tagged `ENTRY_MENU_PAIR`, "Powered: True|False"
and "Discoverable: True|False" tagged `ENTRY_CONTROLLER_PROP` with indices 0
and 1, and "Discovering: True|False" tagged `ENTRY_SCAN`.  The text of a
device row is the name, blanks up to codepoint column
`max 20 (codepoints of the name)`, and the label "True"/"False" of the
connected flag (for a name whose byte length plus 20 fits `u32`). -/
theorem C18_root_list_with_adapter (pd : BluetoothModePrivateData) (c : Controller)
    (hok : registry_ok pd) (hstate : pd.state = STATE.LIST) (hc : pd.controller = some c) :
    ∃ (pd1 : BluetoothModePrivateData) (rows : List Entry), update_entries pd = some pd1 ∧
      pd1.num_entries = pd.num_paired_devices + 4 ∧
      rows = (((live_devices pd).enum.filter (fun p => p.2.paired)).map
        (fun p => Entry.mk (list_row_text p.2) (ENTRY_DEVICE ||| ENTRY_ALLOCATED) p.1)) ∧
      rows.length = pd.num_paired_devices ∧
      entry_list pd1 = rows ++
        [Entry.mk "\uF44A Pair Device" ENTRY_MENU_PAIR 0,
         Entry.mk ("Powered: " ++ true_false_array c.powered)
           (ENTRY_CONTROLLER_PROP ||| ENTRY_ALLOCATED) 0,
         Entry.mk ("Discoverable: " ++ true_false_array c.discoverable)
           (ENTRY_CONTROLLER_PROP ||| ENTRY_ALLOCATED) 1,
         Entry.mk ("Discovering: " ++ true_false_array c.discovering)
           (ENTRY_SCAN ||| ENTRY_ALLOCATED) 2] ∧
      (∀ (k : Nat) (row : Entry), rows[k]? = some row →
        entry_action row = ENTRY_DEVICE ∧ row.device < pd.num_devices ∧
        ∃ d, pd.devices[row.device]? = some d ∧ d.paired = true ∧
          row.text = list_row_text d) ∧
      (∀ d : Device, d.name.utf8ByteSize + 20 < 4294967296 →
        list_row_text d =
          d.name ++ String.mk (List.replicate (max 20 d.name.length - d.name.length) ' ') ++
            (true_false_array d.connected ++
              String.mk (List.replicate (10 - (true_false_array d.connected).length) ' ')) ∧
        (d.name ++
          String.mk (List.replicate (max 20 d.name.length - d.name.length) ' ')).length =
            max 20 d.name.length) := by
  have hrows : (((live_devices pd).enum.filter (fun p => p.2.paired)).map
      (fun p => Entry.mk (list_row_text p.2) (ENTRY_DEVICE ||| ENTRY_ALLOCATED) p.1)) =
      device_rows true list_row_text 0 (live_devices pd) := by
    rw [device_rows_eq_enum]
    simp [List.enum]
  have hlen := rows_length_paired pd hok
  refine ⟨_, _, update_entries_list_eq pd hok hstate, ?_, rfl, ?_, ?_, ?_, ?_⟩
  · show (root_rows pd).length = _
    unfold root_rows
    rw [hc, List.length_append, hlen]
    rfl
  · rw [hrows, hlen]
  · rw [entry_list_rebuilt, hrows]
    unfold root_rows
    rw [hc]
    rfl
  · intro k row hrow
    rw [hrows] at hrow
    obtain ⟨i, d, hd, hp, rfl⟩ := device_rows_getElem true list_row_text _ 0 k row hrow
    obtain ⟨hi, hd1⟩ := live_devices_getElem pd i d hd
    rw [Nat.zero_add]
    refine ⟨?_, hi, d, hd1, hp, rfl⟩
    show (ENTRY_DEVICE ||| ENTRY_ALLOCATED) &&& (4294967295 - ENTRY_ALLOCATED) = ENTRY_DEVICE
    decide
  · intro d hd
    constructor
    · rw [list_row_text_eq d hd]
      unfold printf_left
      cases d.connected <;> rfl
    · rw [String.length_append]
      show d.name.length + (List.replicate _ ' ').length = _
      rw [List.length_replicate]
      omega

/-- Witness of C18: the root list with the adapter, the paired headset and two
unpaired devices. -/
theorem C18_root_list_with_adapter_witness :
    registry_ok sample_adapter_mode.private_data ∧
    sample_adapter_mode.private_data.num_paired_devices = 1 ∧
    ∃ (pd1 : BluetoothModePrivateData) (rows : List Entry),
      update_entries sample_adapter_mode.private_data = some pd1 ∧
      pd1.num_entries = 5 ∧
      rows.length = 1 ∧
      entry_list pd1 = rows ++
        [Entry.mk "\uF44A Pair Device" ENTRY_MENU_PAIR 0,
         Entry.mk "Powered: True" (ENTRY_CONTROLLER_PROP ||| ENTRY_ALLOCATED) 0,
         Entry.mk "Discoverable: True" (ENTRY_CONTROLLER_PROP ||| ENTRY_ALLOCATED) 1,
         Entry.mk "Discovering: False" (ENTRY_SCAN ||| ENTRY_ALLOCATED) 2] :=
  ⟨by decide, rfl,
    match C18_root_list_with_adapter sample_adapter_mode.private_data
      { remote_proxy := sample_adapter, powered := true, discoverable := true,
        discovering := false } (by decide) rfl rfl with
    | ⟨pd1, rows, h1, h2, _, h4, h5, _⟩ => ⟨pd1, rows, h1, h2, h4, h5⟩⟩

/-! ## The detail view -/

/-- The rows shown after a rebuild of the detail view of `dev`. -/
theorem entry_list_detail (pd : BluetoothModePrivateData) (dev : Device) (rest : List Entry) :
    entry_list { pd with
        num_entries := (detail_rows dev pd.current_device).length
        entries := detail_rows dev pd.current_device ++ rest } =
      detail_rows dev pd.current_device := by
  unfold entry_list
  simp

/-- C19: in the device-detail state, with `current_device` below `num_devices`
(and the device buffer holding `num_devices` slots), the rebuild succeeds and
shows, for a paired device, exactly four rows: row 0 the connect toggle
("Connect Device" when not connected, "Disconnect Device" when connected),
row 1 = 4/2 - 1 the pairing toggle "Remove Device", row 2 the trust toggle
("Trust Device" / "Untrust Device"), row 3 "\uF438 Back"; for an unpaired device
exactly two rows: row 0 = 2/2 - 1 the pairing toggle "Pair Device" and row 1
"\uF438 Back".  In both cases the last row is "\uF438 Back", tagged `ENTRY_MENU_LIST`. -/
theorem C19_device_detail_layout (pd : BluetoothModePrivateData)
    (hstate : pd.state = STATE.DEVICE) (hn : pd.num_devices ≤ pd.devices.length)
    (hcur : pd.current_device < pd.num_devices) :
    ∃ dev pd1, pd.devices[pd.current_device]? = some dev ∧ update_entries pd = some pd1 ∧
      (dev.paired = true →
        pd1.num_entries = 4 ∧
        entry_list pd1 =
          [Entry.mk (if dev.connected then "Disconnect Device" else "Connect Device")
             ENTRY_DEVICE_CONNECT pd.current_device,
           Entry.mk "Remove Device" ENTRY_DEVICE_PAIR pd.current_device,
           Entry.mk (if dev.trusted then "Untrust Device" else "Trust Device")
             ENTRY_DEVICE_PROP 2,
           Entry.mk "\uF438 Back" ENTRY_MENU_LIST 0]) ∧
      (dev.paired = false →
        pd1.num_entries = 2 ∧
        entry_list pd1 =
          [Entry.mk "Pair Device" ENTRY_DEVICE_PAIR pd.current_device,
           Entry.mk "\uF438 Back" ENTRY_MENU_LIST 0]) ∧
      (entry_list pd1).getLast? = some (Entry.mk "\uF438 Back" ENTRY_MENU_LIST 0) ∧
      (entry_list pd1)[pd1.num_entries / 2 - 1]? =
        some (Entry.mk (if dev.paired then "Remove Device" else "Pair Device")
          ENTRY_DEVICE_PAIR pd.current_device) := by
  have hlen : pd.current_device < pd.devices.length := Nat.lt_of_lt_of_le hcur hn
  obtain ⟨dev, hdev⟩ : ∃ dev, pd.devices[pd.current_device]? = some dev :=
    ⟨_, List.getElem?_eq_getElem hlen⟩
  refine ⟨dev, _, hdev, update_entries_device_eq pd dev hstate hdev, ?_⟩
  rw [entry_list_detail]
  cases hp : dev.paired <;> cases hc : dev.connected <;> cases ht : dev.trusted <;>
    simp [detail_rows, hp, hc, ht, device_strings]

/-- Witness of C19: the detail view of the paired headset. -/
theorem C19_device_detail_layout_witness :
    sample_detail.private_data.current_device < sample_detail.private_data.num_devices ∧
    ∃ dev pd1, sample_detail.private_data.devices[sample_detail.private_data.current_device]? =
        some dev ∧
      update_entries sample_detail.private_data = some pd1 ∧
      (dev.paired = true →
        pd1.num_entries = 4 ∧
        entry_list pd1 =
          [Entry.mk (if dev.connected then "Disconnect Device" else "Connect Device")
             ENTRY_DEVICE_CONNECT sample_detail.private_data.current_device,
           Entry.mk "Remove Device" ENTRY_DEVICE_PAIR sample_detail.private_data.current_device,
           Entry.mk (if dev.trusted then "Untrust Device" else "Trust Device")
             ENTRY_DEVICE_PROP 2,
           Entry.mk "\uF438 Back" ENTRY_MENU_LIST 0]) ∧
      (dev.paired = false →
        pd1.num_entries = 2 ∧
        entry_list pd1 =
          [Entry.mk "Pair Device" ENTRY_DEVICE_PAIR sample_detail.private_data.current_device,
           Entry.mk "\uF438 Back" ENTRY_MENU_LIST 0]) ∧
      (entry_list pd1).getLast? = some (Entry.mk "\uF438 Back" ENTRY_MENU_LIST 0) ∧
      (entry_list pd1)[pd1.num_entries / 2 - 1]? =
        some (Entry.mk (if dev.paired then "Remove Device" else "Pair Device")
          ENTRY_DEVICE_PAIR sample_detail.private_data.current_device) :=
  ⟨by decide, C19_device_detail_layout sample_detail.private_data rfl (by decide) (by decide)⟩

/-! ## Transitions out of the detail view -/

/-- C20, as stated, fails: with the detail view of the headset shown, the
notification that "Discovering" became true for the controller makes the
pairing list the navigation state. -/
theorem C20_discovery_leaves_detail_for_pair_list :
    ∃ sw1, sample_adapter_detail.private_data.state = STATE.DEVICE ∧
      property_changed sample_adapter "Discovering" true sample_adapter_detail = some sw1 ∧
      sw1.private_data.state = STATE.PAIR :=
  ⟨_, rfl, rfl, rfl⟩

/-- A rebuild keeps the navigation state and `current_device`. -/
theorem update_entries_nav (pd pd1 : BluetoothModePrivateData)
    (h : update_entries pd = some pd1) :
    pd1.state = pd.state ∧ pd1.current_device = pd.current_device :=
  ⟨(update_entries_frame pd pd1 h).1, (update_entries_frame pd pd1 h).2.2.2.2.2.1⟩

/-- An Added notification keeps the navigation state and `current_device`. -/
theorem proxy_added_nav (proxy : GDBusProxy) (sw sw1 : Mode)
    (h : proxy_added proxy sw = some sw1) :
    sw1.private_data.state = sw.private_data.state ∧
      sw1.private_data.current_device = sw.private_data.current_device := by
  unfold proxy_added at h
  dsimp only at h
  repeat' split at h
  all_goals first
    | (cases h; done)
    | (cases h; exact ⟨rfl, rfl⟩)
    | (rename_i pd2 hpd2
       cases h
       have h3 := update_entries_nav _ _ hpd2
       exact h3)

/-- The unordered removal inside `proxy_removed` keeps the navigation state
and `current_device`. -/
theorem proxy_removed_nav (proxy : GDBusProxy) (sw sw1 : Mode)
    (h : proxy_removed proxy sw = some sw1) :
    (sw1.private_data.state = sw.private_data.state ∨ sw1.private_data.state = STATE.LIST) ∧
      sw1.private_data.current_device = sw.private_data.current_device := by
  unfold proxy_removed at h
  dsimp only at h
  split at h
  · split at h
    · exact absurd h (by simp)
    · rename_i dev_index _
      split at h
      · exact absurd h (by simp)
      · rename_i pd1 update0 hrem
        have hpd1 : pd1.state = sw.private_data.state ∧
            pd1.current_device = sw.private_data.current_device := by
          repeat' split at hrem
          all_goals first
            | (cases hrem; done)
            | (cases hrem; exact ⟨rfl, rfl⟩)
        have hpd2 : ∀ b : Bool,
            ((if b = true then { pd1 with state := STATE.LIST } else pd1).state =
                sw.private_data.state ∨
              (if b = true then { pd1 with state := STATE.LIST } else pd1).state = STATE.LIST) ∧
            (if b = true then { pd1 with state := STATE.LIST } else pd1).current_device =
              sw.private_data.current_device := by
          intro b; cases b
          · exact ⟨Or.inl hpd1.1, hpd1.2⟩
          · exact ⟨Or.inr rfl, hpd1.2⟩
        have h2 := hpd2 (decide (pd1.state = STATE.DEVICE ∧ pd1.current_device = dev_index))
        split at h
        · split at h
          · exact absurd h (by simp)
          · rename_i pd3 hpd3
            simp only [Option.some.injEq] at h
            rw [← h]
            have h3 := update_entries_nav _ _ hpd3
            simp only [rofi_view_reload]
            rw [h3.1, h3.2]
            exact h2
        · simp only [Option.some.injEq] at h
          rw [← h]
          exact h2
  · simp only [Option.some.injEq] at h
    rw [← h]
    exact ⟨Or.inl rfl, rfl⟩

/-- Only the name "Discovering" has index 2 in `controller_props`. -/
theorem controller_prop_index_two (name : String) (h : controller_prop_index name = 2) :
    name = "Discovering" := by
  unfold controller_prop_index at h
  repeat' split at h
  all_goals first
    | assumption
    | exact absurd h (by decide)

/-- The device branches of `property_changed` keep the navigation state and
`current_device`. -/
theorem property_changed_device_nav (dev_index : Nat) (dev0 : Device) (value : Bool)
    (sw sw1 : Mode) :
    (property_changed_connected dev_index dev0 value sw = some sw1 →
      sw1.private_data.state = sw.private_data.state ∧
        sw1.private_data.current_device = sw.private_data.current_device) ∧
    (property_changed_paired dev_index dev0 value sw = some sw1 →
      sw1.private_data.state = sw.private_data.state ∧
        sw1.private_data.current_device = sw.private_data.current_device) ∧
    (property_changed_trusted dev_index dev0 value sw = some sw1 →
      sw1.private_data.state = sw.private_data.state ∧
        sw1.private_data.current_device = sw.private_data.current_device) := by
  refine ⟨?_, ?_, ?_⟩
  · intro h
    unfold property_changed_connected at h
    dsimp only at h
    repeat' split at h
    all_goals first
      | (cases h; done)
      | (cases h; exact ⟨rfl, rfl⟩)
  · intro h
    unfold property_changed_paired at h
    dsimp only at h
    repeat' split at h
    all_goals first
      | (cases h; done)
      | (rename_i pd2 hpd2
         cases h
         have h3 := update_entries_nav _ _ hpd2
         exact h3)
  · intro h
    unfold property_changed_trusted at h
    dsimp only at h
    repeat' split at h
    all_goals first
      | (cases h; done)
      | (cases h; exact ⟨rfl, rfl⟩)

/-- A property notification keeps the navigation state and `current_device`,
except that the notification "Discovering" = true for the registered
controller makes the pairing list the navigation state. -/
theorem property_changed_nav (proxy : GDBusProxy) (name : String) (value : Bool)
    (sw sw1 : Mode) (h : property_changed proxy name value sw = some sw1) :
    (sw1.private_data.state = sw.private_data.state ∧
      sw1.private_data.current_device = sw.private_data.current_device) ∨
    (sw1.private_data.state = STATE.PAIR ∧
      sw1.private_data.current_device = sw.private_data.current_device ∧
      name = "Discovering" ∧ value = true ∧ proxy.interface = "org.bluez.Adapter1" ∧
      ∃ c, sw.private_data.controller = some c ∧ c.remote_proxy.ptr = proxy.ptr) := by
  unfold property_changed at h
  dsimp only at h
  split at h
  · left
    split at h
    · exact absurd h (by simp)
    · rename_i dev_index _
      split at h
      · split at h
        · exact absurd h (by simp)
        · rename_i dev0 _
          have hdev := property_changed_device_nav dev_index dev0 value sw sw1
          split at h
          · exact hdev.1 h
          · split at h
            · exact hdev.2.1 h
            · split at h
              · exact hdev.2.2 h
              · cases h; exact ⟨rfl, rfl⟩
      · cases h; exact ⟨rfl, rfl⟩
  · split at h
    · rename_i hiface
      unfold property_changed_adapter at h
      dsimp only at h
      split at h
      · exact absurd h (by simp)
      · rename_i c0 hc0
        split at h
        · rename_i hptr
          split at h
          · rename_i hdisc
            right
            have hname := controller_prop_index_two name hdisc.1
            have hval : value = true := by
              have h2 := hdisc.2
              rw [hdisc.1] at h2
              exact h2
            split at h
            · exact absurd h (by simp)
            · rename_i pd2 hpd2
              cases h
              have h3 := update_entries_nav _ _ hpd2
              exact ⟨h3.1, h3.2, hname, hval, hiface, c0, hc0, hptr⟩
          · left
            repeat' split at h
            all_goals first
              | (cases h; done)
              | (cases h; exact ⟨rfl, rfl⟩)
        · left; cases h; exact ⟨rfl, rfl⟩
    · left; cases h; exact ⟨rfl, rfl⟩

/-- An activated row whose action is neither open-device-detail nor
open-pairing-list keeps the navigation state or makes it the root list, and
keeps `current_device`. -/
theorem result_activate_nav (sw : Mode) (entry : Entry) (submit_ok : Bool) (retv : Nat)
    (sw1 : Mode) (h : result_activate sw entry submit_ok = some (retv, sw1))
    (hdev : entry_action entry ≠ ENTRY_DEVICE) (hpair : entry_action entry ≠ ENTRY_MENU_PAIR) :
    (sw1.private_data.state = sw.private_data.state ∨ sw1.private_data.state = STATE.LIST) ∧
      sw1.private_data.current_device = sw.private_data.current_device := by
  unfold result_activate at h
  dsimp only at h
  split at h
  · unfold switch_state at h
    split at h
    · exact absurd h (by simp)
    · rename_i pd2 hpd2
      cases h
      have h3 := update_entries_nav _ _ hpd2
      exact ⟨Or.inr h3.1, h3.2⟩
  · unfold result_device_prop result_device_connect result_device_pair result_controller_prop
      result_scan at h
    dsimp only at h
    repeat' split at h
    all_goals first
      | (cases h; done)
      | (cases h; exact ⟨Or.inl rfl, rfl⟩)

/-- The tags of the detail view are none of the actions open-device-detail
and open-pairing-list. -/
theorem detail_flags_action (entry : Entry)
    (h : entry.flags = ENTRY_DEVICE_CONNECT ∨ entry.flags = ENTRY_DEVICE_PAIR ∨
      entry.flags = ENTRY_DEVICE_PROP ∨ entry.flags = ENTRY_MENU_LIST) :
    entry_action entry ≠ ENTRY_DEVICE ∧ entry_action entry ≠ ENTRY_MENU_PAIR := by
  unfold entry_action
  rcases h with h | h | h | h <;> rw [h] <;> decide

/-- The rows of a detail view carry none of the actions open-device-detail
and open-pairing-list. -/
theorem detail_rows_action (dev : Device) (cur : Nat) (entry : Entry)
    (h : entry ∈ detail_rows dev cur) :
    entry_action entry ≠ ENTRY_DEVICE ∧ entry_action entry ≠ ENTRY_MENU_PAIR := by
  apply detail_flags_action
  unfold detail_rows at h
  split at h
  · simp only [List.mem_cons, List.mem_singleton, List.not_mem_nil, or_false] at h
    rcases h with h | h | h | h <;> rw [h]
    · exact Or.inl rfl
    · exact Or.inr (Or.inl rfl)
    · exact Or.inr (Or.inr (Or.inl rfl))
    · exact Or.inr (Or.inr (Or.inr rfl))
  · simp only [List.mem_cons, List.mem_singleton, List.not_mem_nil, or_false] at h
    rcases h with h | h <;> rw [h]
    · exact Or.inr (Or.inl rfl)
    · exact Or.inr (Or.inr (Or.inr rfl))

/-- A selection in a detail view that equals its rebuild keeps the detail view
of the same slot or returns to the root list. -/
theorem result_detail_nav (sw : Mode) (mretv k : Nat) (submit_ok : Bool) (retv : Nat)
    (sw1 : Mode) (hstate : sw.private_data.state = STATE.DEVICE)
    (hview : update_entries sw.private_data = some sw.private_data)
    (hk : k < sw.private_data.num_entries)
    (h : bluetooth_mode_result sw mretv k submit_ok = some (retv, sw1)) :
    (sw1.private_data.state = sw.private_data.state ∨ sw1.private_data.state = STATE.LIST) ∧
      sw1.private_data.current_device = sw.private_data.current_device := by
  unfold bluetooth_mode_result at h
  split at h
  · split at h
    · exact absurd h (by simp)
    · rename_i entry hentry
      cases hd : sw.private_data.devices[sw.private_data.current_device]? with
      | none =>
        exfalso
        unfold update_entries at hview
        simp only [hstate, hd] at hview
        exact absurd hview (by simp)
      | some d =>
        obtain ⟨hent, hnum⟩ := detail_view_eq sw.private_data d hstate hd hview
        rw [hent, List.getElem?_append_left (by omega)] at hentry
        have hact := detail_rows_action d _ entry (List.getElem?_mem hentry)
        exact result_activate_nav sw entry submit_ok retv sw1 h hact.1 hact.2
  · repeat' split at h
    all_goals
      cases h
      exact ⟨Or.inl rfl, rfl⟩

/-- The completion callbacks keep the navigation state and `current_device`. -/
theorem callbacks_nav (sw : Mode) (e : Bool) :
    (∀ sw1, generic_callback e sw = some sw1 →
      sw1.private_data.state = sw.private_data.state ∧
        sw1.private_data.current_device = sw.private_data.current_device) ∧
    ((connect_callback e sw).private_data.state = sw.private_data.state ∧
      (connect_callback e sw).private_data.current_device = sw.private_data.current_device) ∧
    ((pair_callback e sw).private_data.state = sw.private_data.state ∧
      (pair_callback e sw).private_data.current_device = sw.private_data.current_device) ∧
    ((remove_callback e sw).private_data.state = sw.private_data.state ∧
      (remove_callback e sw).private_data.current_device = sw.private_data.current_device) ∧
    ((scan_callback e sw).private_data.state = sw.private_data.state ∧
      (scan_callback e sw).private_data.current_device = sw.private_data.current_device) := by
  refine ⟨?_, ?_, ?_, ?_, ?_⟩
  · intro sw1 h
    unfold generic_callback at h
    repeat' split at h
    all_goals first
      | (cases h; done)
      | (cases h; exact ⟨rfl, rfl⟩)
  · cases e <;> exact ⟨rfl, rfl⟩
  · cases e <;> exact ⟨rfl, rfl⟩
  · cases e <;> exact ⟨rfl, rfl⟩
  · cases e <;> exact ⟨rfl, rfl⟩

/-- The view keeps showing `h` when the navigation fields and the registry
slots are kept. -/
theorem shows_device_frame (pd pd1 : BluetoothModePrivateData) (h : Nat)
    (hs : shows_device pd h) (h1 : pd1.state = pd.state)
    (hc : pd1.current_device = pd.current_device) (hn : pd1.num_devices = pd.num_devices)
    (hd : pd1.devices = pd.devices) : shows_device pd1 h := by
  unfold shows_device at hs ⊢
  rw [h1, hc, hn, hd]
  exact hs

/-- The view keeps showing `h` when one slot is overwritten by a device with
the handle it had. -/
theorem shows_device_set (pd pd1 : BluetoothModePrivateData) (h j : Nat) (d0 d1 : Device)
    (hs : shows_device pd h) (hd0 : pd.devices[j]? = some d0)
    (hp : d1.remote_proxy = d0.remote_proxy) (h1 : pd1.state = pd.state)
    (hc : pd1.current_device = pd.current_device) (hn : pd1.num_devices = pd.num_devices)
    (hd : pd1.devices = pd.devices.set j d1) : shows_device pd1 h := by
  unfold shows_device at hs ⊢
  rw [h1, hc, hn, hd]
  refine ⟨hs.1, hs.2.1, ?_⟩
  by_cases hj : j = pd.current_device
  · rw [hj] at hd0 ⊢
    have hlen : pd.current_device < pd.devices.length := (List.getElem?_eq_some_iff.mp hd0).1
    rw [List.getElem?_set_self hlen]
    have h3 := hs.2.2
    rw [hd0] at h3
    simp only [Option.map_some', Option.some.injEq] at h3 ⊢
    rw [hp]
    exact h3
  · rw [List.getElem?_set_ne hj]
    exact hs.2.2

/-- An Added notification keeps the view on `h`. -/
theorem proxy_added_shows (proxy : GDBusProxy) (sw sw1 : Mode) (h : Nat)
    (hok : registry_ok sw.private_data) (hs : shows_device sw.private_data h)
    (hstep : proxy_added proxy sw = some sw1) : shows_device sw1.private_data h := by
  have hcur := hs.2.1
  have hlen : sw.private_data.current_device < sw.private_data.devices.length :=
    Nat.lt_of_lt_of_le hcur hok.1
  have hn1 : u32 (sw.private_data.num_devices + 1) = sw.private_data.num_devices + 1 :=
    u32_of_lt (by have := hok.2.1; omega)
  unfold proxy_added at hstep
  dsimp only at hstep
  split at hstep
  · by_cases hcap : sw.private_data.devices.length ≤ sw.private_data.num_devices
    · simp only [if_pos hcap] at hstep
      split at hstep
      · split at hstep
        · exact absurd hstep (by simp)
        · rename_i pd2 hpd2
          cases hstep
          have hf := update_entries_frame _ _ hpd2
          unfold shows_device at hs ⊢
          simp only [rofi_view_reload]
          rw [hf.1, hf.2.2.2.2.2.1, hf.2.2.2.1, hf.2.2.1]
          refine ⟨hs.1, ?_, ?_⟩
          · show sw.private_data.current_device < u32 (sw.private_data.num_devices + 1)
            rw [hn1]; omega
          · show ((sw.private_data.devices ++
                List.replicate sw.private_data.devices.length zero_device).set
                  sw.private_data.num_devices _)[sw.private_data.current_device]?.map _ = _
            rw [List.getElem?_set_ne (by omega), List.getElem?_append_left hlen]
            exact hs.2.2
      · exact absurd hstep (by simp)
    · simp only [if_neg hcap] at hstep
      split at hstep
      · split at hstep
        · exact absurd hstep (by simp)
        · rename_i pd2 hpd2
          cases hstep
          have hf := update_entries_frame _ _ hpd2
          unfold shows_device at hs ⊢
          simp only [rofi_view_reload]
          rw [hf.1, hf.2.2.2.2.2.1, hf.2.2.2.1, hf.2.2.1]
          refine ⟨hs.1, ?_, ?_⟩
          · show sw.private_data.current_device < u32 (sw.private_data.num_devices + 1)
            rw [hn1]; omega
          · show ((sw.private_data.devices).set
                  sw.private_data.num_devices _)[sw.private_data.current_device]?.map _ = _
            rw [List.getElem?_set_ne (by omega)]
            exact hs.2.2
      · exact absurd hstep (by simp)
  · repeat' split at hstep
    all_goals first
      | (cases hstep; done)
      | (cases hstep; exact hs)
      | (rename_i pd2 hpd2
         cases hstep
         have hf := update_entries_frame _ _ hpd2
         exact shows_device_frame sw.private_data pd2 h hs hf.1 hf.2.2.2.2.2.1 hf.2.2.2.1
           hf.2.2.1)

/-- A Removed notification keeps the view on `h` when it leaves the detail
view active and does not move the device shown. -/
theorem proxy_removed_shows (proxy : GDBusProxy) (sw sw1 : Mode) (h : Nat)
    (hs : shows_device sw.private_data h) (hstep : proxy_removed proxy sw = some sw1)
    (h1 : sw1.private_data.state = STATE.DEVICE)
    (hnot : ¬ moves_shown sw (Event.removed proxy)) : shows_device sw1.private_data h := by
  unfold proxy_removed at hstep
  dsimp only at hstep
  split at hstep
  · rename_i hiface
    split at hstep
    · exact absurd hstep (by simp)
    · rename_i dev_index hfind
      split at hstep
      · exact absurd hstep (by simp)
      · rename_i pd1 update0 hrem
        have hnav : pd1.state = STATE.DEVICE ∧
            pd1.current_device = sw.private_data.current_device := by
          repeat' split at hrem
          all_goals first
            | (cases hrem; done)
            | (cases hrem; exact ⟨hs.1, rfl⟩)
        have hpd1 : dev_index ≠ sw.private_data.current_device → shows_device pd1 h := by
          intro hj
          split at hrem
          · rename_i hne
            have hlast : sw.private_data.current_device + 1 ≠ sw.private_data.num_devices := by
              intro hl
              apply hnot
              unfold moves_shown
              refine ⟨hiface, ?_, ?_, hl⟩
              · rw [hfind]; rfl
              · rw [hfind]; intro hc; exact hne (Option.some.inj hc)
            have hcur := hs.2.1
            have hsub : u32_sub sw.private_data.num_devices 1 =
                sw.private_data.num_devices - 1 := u32_sub_of_le (by omega)
            repeat' split at hrem
            all_goals first
              | (cases hrem; done)
              | (cases hrem
                 unfold shows_device at hs ⊢
                 refine ⟨hs.1, ?_, ?_⟩
                 · show sw.private_data.current_device < u32_sub sw.private_data.num_devices 1
                   rw [hsub]; omega
                 · show ((sw.private_data.devices).set dev_index _)[
                     sw.private_data.current_device]?.map _ = _
                   rw [List.getElem?_set_ne hj]
                   exact hs.2.2)
          · cases hrem
            exact hs
        by_cases hj : dev_index = sw.private_data.current_device
        · exfalso
          have hforced : decide (pd1.state = STATE.DEVICE ∧ pd1.current_device = dev_index) =
              true := by
            rw [hnav.1, hnav.2, hj]; simp
          rw [hforced] at hstep
          simp only [if_true, Bool.true_or] at hstep
          split at hstep
          · exact absurd hstep (by simp)
          · rename_i pd3 hpd3
            cases hstep
            have hf := update_entries_frame _ _ hpd3
            have h2 : pd3.state = STATE.LIST := hf.1
            have h3 : pd3.state = STATE.DEVICE := h1
            rw [h2] at h3
            exact absurd h3 (by decide)
        · have hforced : decide (pd1.state = STATE.DEVICE ∧ pd1.current_device = dev_index) =
              false := by
            rw [hnav.1, hnav.2]
            simp only [true_and, decide_eq_false_iff_not]
            exact fun hc => hj hc.symm
          rw [hforced] at hstep
          simp only [Bool.false_eq_true, if_false, Bool.false_or] at hstep
          split at hstep
          · split at hstep
            · exact absurd hstep (by simp)
            · rename_i pd3 hpd3
              cases hstep
              have hf := update_entries_frame _ _ hpd3
              exact shows_device_frame pd1 pd3 h (hpd1 hj) hf.1 hf.2.2.2.2.2.1 hf.2.2.2.1
                hf.2.2.1
          · cases hstep
            exact hpd1 hj
  · cases hstep
    exact hs

/-- The device branches of `property_changed` keep the view on `h`. -/
theorem property_changed_device_shows (dev_index : Nat) (dev0 : Device) (value : Bool)
    (sw sw1 : Mode) (h : Nat) (hs : shows_device sw.private_data h)
    (hd0 : sw.private_data.devices[dev_index]? = some dev0) :
    (property_changed_connected dev_index dev0 value sw = some sw1 →
      shows_device sw1.private_data h) ∧
    (property_changed_paired dev_index dev0 value sw = some sw1 →
      shows_device sw1.private_data h) ∧
    (property_changed_trusted dev_index dev0 value sw = some sw1 →
      shows_device sw1.private_data h) := by
  refine ⟨?_, ?_, ?_⟩
  · intro hstep
    unfold property_changed_connected at hstep
    dsimp only at hstep
    repeat' split at hstep
    all_goals first
      | (cases hstep; done)
      | (cases hstep
         exact shows_device_set sw.private_data _ h dev_index dev0
           { dev0 with connected := value } hs hd0 rfl rfl rfl rfl rfl)
  · intro hstep
    unfold property_changed_paired at hstep
    dsimp only at hstep
    repeat' split at hstep
    all_goals first
      | (cases hstep; done)
      | (rename_i pd2 hpd2
         cases hstep
         have hf := update_entries_frame _ _ hpd2
         exact shows_device_set sw.private_data pd2 h dev_index dev0
           { dev0 with paired := value } hs hd0 rfl hf.1 hf.2.2.2.2.2.1 hf.2.2.2.1 hf.2.2.1)
  · intro hstep
    unfold property_changed_trusted at hstep
    dsimp only at hstep
    repeat' split at hstep
    all_goals first
      | (cases hstep; done)
      | (cases hstep
         exact shows_device_set sw.private_data _ h dev_index dev0
           { dev0 with trusted := value } hs hd0 rfl rfl rfl rfl rfl)

/-- A property notification that leaves the detail view active keeps it on
`h`. -/
theorem property_changed_shows (proxy : GDBusProxy) (name : String) (value : Bool)
    (sw sw1 : Mode) (h : Nat) (hs : shows_device sw.private_data h)
    (hstep : property_changed proxy name value sw = some sw1)
    (h1 : sw1.private_data.state = STATE.DEVICE) : shows_device sw1.private_data h := by
  unfold property_changed at hstep
  dsimp only at hstep
  split at hstep
  · split at hstep
    · exact absurd hstep (by simp)
    · rename_i dev_index _
      split at hstep
      · split at hstep
        · exact absurd hstep (by simp)
        · rename_i dev0 hd0
          have hdev := property_changed_device_shows dev_index dev0 value sw sw1 h hs hd0
          split at hstep
          · exact hdev.1 hstep
          · split at hstep
            · exact hdev.2.1 hstep
            · split at hstep
              · exact hdev.2.2 hstep
              · cases hstep; exact hs
      · cases hstep; exact hs
  · split at hstep
    · unfold property_changed_adapter at hstep
      dsimp only at hstep
      repeat' split at hstep
      all_goals first
        | (cases hstep; done)
        | (cases hstep; exact hs)
        | (rename_i pd2 hpd2
           cases hstep
           have hf := update_entries_frame _ _ hpd2
           have h2 : pd2.state = STATE.PAIR := hf.1
           have h3 : pd2.state = STATE.DEVICE := h1
           rw [h2] at h3
           exact absurd h3 (by decide))
    · cases hstep; exact hs

/-- A selection in a detail view that equals its rebuild, when it leaves the
detail view active, keeps it on `h`. -/
theorem result_shows (sw : Mode) (mretv k : Nat) (submit_ok : Bool) (retv : Nat)
    (sw1 : Mode) (h : Nat) (hs : shows_device sw.private_data h)
    (hview : update_entries sw.private_data = some sw.private_data)
    (hk : k < sw.private_data.num_entries)
    (hres : bluetooth_mode_result sw mretv k submit_ok = some (retv, sw1))
    (h1 : sw1.private_data.state = STATE.DEVICE) : shows_device sw1.private_data h := by
  have hnav := result_detail_nav sw mretv k submit_ok retv sw1 hs.1 hview hk hres
  have hreg := (bluetooth_mode_result_frame sw mretv k submit_ok retv sw1 hres).1
  exact shows_device_frame sw.private_data sw1.private_data h hs (by rw [h1, hs.1]) hnav.2
    hreg.2.2.1 hreg.2.1

/-- The completion callbacks keep the view on `h`. -/
theorem callbacks_shows (sw : Mode) (e : Bool) (h : Nat)
    (hs : shows_device sw.private_data h) :
    (∀ sw1, generic_callback e sw = some sw1 → shows_device sw1.private_data h) ∧
    shows_device (connect_callback e sw).private_data h ∧
    shows_device (pair_callback e sw).private_data h ∧
    shows_device (remove_callback e sw).private_data h ∧
    shows_device (scan_callback e sw).private_data h := by
  refine ⟨?_, ?_, ?_, ?_, ?_⟩
  · intro sw1 hstep
    unfold generic_callback at hstep
    repeat' split at hstep
    all_goals first
      | (cases hstep; done)
      | (cases hstep; exact hs)
  · cases e <;> exact hs
  · cases e <;> exact hs
  · cases e <;> exact hs
  · cases e <;> exact hs

/-- C20, amended: on a well-formed registry the notification that
"Discovering" became true for the registered controller makes the pairing
list the navigation state from every navigation state, the device detail
included.  When the device-detail view for the handle `h` is active and
equals its rebuild, then after every notification, completion or selection
of a shown row the navigation state is the pairing list only if the event is
the notification "Discovering" = true of the registered controller; and
when device-detail is the navigation state afterwards it is device-detail
for `h` (`current_device` is a used slot holding `h`), unless the event is the
Removed notification of a registered device while `h` occupies the last used
slot, about which nothing is stated here. -/
theorem C20_detail_view_transitions (sw : Mode) (hok : registry_ok sw.private_data) :
    (∀ (proxy : GDBusProxy) (c : Controller), proxy.interface = "org.bluez.Adapter1" →
      sw.private_data.controller = some c → c.remote_proxy.ptr = proxy.ptr →
      ∃ sw1, property_changed proxy "Discovering" true sw = some sw1 ∧
        sw1.private_data.state = STATE.PAIR) ∧
    (∀ h : Nat, shows_device sw.private_data h →
      update_entries sw.private_data = some sw.private_data →
      ∀ (ev : Event) (sw1 : Mode),
        (∀ mretv k ok, ev = Event.result mretv k ok → k < sw.private_data.num_entries) →
        step sw ev = some sw1 →
        (sw1.private_data.state = STATE.PAIR →
          ∃ proxy c, ev = Event.changed proxy "Discovering" true ∧
            proxy.interface = "org.bluez.Adapter1" ∧
            sw.private_data.controller = some c ∧ c.remote_proxy.ptr = proxy.ptr) ∧
        (sw1.private_data.state = STATE.DEVICE → ¬ moves_shown sw ev →
          shows_device sw1.private_data h)) := by
  constructor
  · intro proxy c hiface hc hptr
    have hne : ¬ proxy.interface = "org.bluez.Device1" := by rw [hiface]; decide
    have hidx : controller_prop_index "Discovering" = 2 := by decide
    have hok2 : registry_ok
        { sw.private_data with
          controller := some (set_controller_info c 2 true), state := STATE.PAIR } := hok
    unfold property_changed
    simp only [if_neg hne, if_pos hiface]
    unfold property_changed_adapter
    simp only [hc, hptr, if_true, hidx]
    have hd : (set_controller_info c 2 true).discovering = true := rfl
    rw [if_pos ⟨trivial, hd⟩, update_entries_eq _ hok2 (fun h => by simp at h)]
    exact ⟨_, rfl, rfl⟩
  · intro h hs hview ev sw1 hsel hstep
    have hstate := hs.1
    have keep : ∀ sw2 : Mode,
        (sw2.private_data.state = sw.private_data.state ∨
            sw2.private_data.state = STATE.LIST) →
        sw2.private_data.state = STATE.PAIR →
          ∃ proxy c, ev = Event.changed proxy "Discovering" true ∧
            proxy.interface = "org.bluez.Adapter1" ∧
            sw.private_data.controller = some c ∧ c.remote_proxy.ptr = proxy.ptr := by
      intro sw2 h2 hp
      rcases h2 with h2 | h2
      · rw [h2, hstate] at hp; exact absurd hp (by decide)
      · rw [h2] at hp; exact absurd hp (by decide)
    cases ev with
    | added proxy =>
      have hn := proxy_added_nav proxy sw sw1 hstep
      exact ⟨keep sw1 (Or.inl hn.1), fun _ _ => proxy_added_shows proxy sw sw1 h hok hs hstep⟩
    | removed proxy =>
      have hn := proxy_removed_nav proxy sw sw1 hstep
      exact ⟨keep sw1 hn.1, fun h1 hnot => proxy_removed_shows proxy sw sw1 h hs hstep h1 hnot⟩
    | changed proxy name value =>
      refine ⟨?_, fun h1 _ => property_changed_shows proxy name value sw sw1 h hs hstep h1⟩
      rcases property_changed_nav proxy name value sw sw1 hstep with hn | hn
      · exact keep sw1 (Or.inl hn.1)
      · obtain ⟨_, _, hname, hval, hiface, c, hc, hptr⟩ := hn
        intro _
        refine ⟨proxy, c, ?_, hiface, hc, hptr⟩
        rw [hname, hval]
    | result mretv k ok =>
      replace hstep : (bluetooth_mode_result sw mretv k ok).map Prod.snd = some sw1 := hstep
      cases hres : bluetooth_mode_result sw mretv k ok with
      | none => rw [hres] at hstep; exact absurd hstep (by simp)
      | some out =>
        rw [hres] at hstep
        simp only [Option.map_some', Option.some.injEq] at hstep
        rw [← hstep]
        have hk := hsel mretv k ok rfl
        exact ⟨keep _ (result_detail_nav sw mretv k ok out.1 out.2 hstate hview hk hres).1,
          fun h1 _ => result_shows sw mretv k ok out.1 out.2 h hs hview hk hres h1⟩
    | generic_done e =>
      have hn := (callbacks_nav sw e).1 sw1 hstep
      exact ⟨keep sw1 (Or.inl hn.1), fun _ _ => (callbacks_shows sw e h hs).1 sw1 hstep⟩
    | connect_done e =>
      cases hstep
      exact ⟨keep _ (Or.inl (callbacks_nav sw e).2.1.1),
        fun _ _ => (callbacks_shows sw e h hs).2.1⟩
    | pair_done e =>
      cases hstep
      exact ⟨keep _ (Or.inl (callbacks_nav sw e).2.2.1.1),
        fun _ _ => (callbacks_shows sw e h hs).2.2.1⟩
    | remove_done e =>
      cases hstep
      exact ⟨keep _ (Or.inl (callbacks_nav sw e).2.2.2.1.1),
        fun _ _ => (callbacks_shows sw e h hs).2.2.2.1⟩
    | scan_done e =>
      cases hstep
      exact ⟨keep _ (Or.inl (callbacks_nav sw e).2.2.2.2.1),
        fun _ _ => (callbacks_shows sw e h hs).2.2.2.2⟩

/-- Witness of C20: the detail view of the headset (handle 2), with the
adapter registered. -/
theorem C20_detail_view_transitions_witness :
    registry_ok sample_adapter_detail.private_data ∧
    shows_device sample_adapter_detail.private_data 2 ∧
    (∃ sw1, property_changed sample_adapter "Discovering" true sample_adapter_detail =
        some sw1 ∧ sw1.private_data.state = STATE.PAIR) ∧
    (∀ (ev : Event) (sw1 : Mode),
      (∀ mretv k ok, ev = Event.result mretv k ok →
        k < sample_adapter_detail.private_data.num_entries) →
      step sample_adapter_detail ev = some sw1 →
      (sw1.private_data.state = STATE.PAIR →
        ∃ proxy c, ev = Event.changed proxy "Discovering" true ∧
          proxy.interface = "org.bluez.Adapter1" ∧
          sample_adapter_detail.private_data.controller = some c ∧
          c.remote_proxy.ptr = proxy.ptr) ∧
      (sw1.private_data.state = STATE.DEVICE → ¬ moves_shown sample_adapter_detail ev →
        shows_device sw1.private_data 2)) :=
  ⟨by decide, by decide,
    (C20_detail_view_transitions sample_adapter_detail (by decide)).1 sample_adapter
      { remote_proxy := sample_adapter, powered := true, discoverable := true,
        discovering := false } rfl rfl rfl,
    (C20_detail_view_transitions sample_adapter_detail (by decide)).2 2 (by decide) rfl⟩

/-! ## Patches of the connected flag -/

/-- The root list of `sample_adapter_pair` equals its rebuild. -/
theorem sample_adapter_pair_view :
    update_entries sample_adapter_pair.private_data = some sample_adapter_pair.private_data :=
  rfl

/-- The root list of `sample_adapter_two` equals its rebuild. -/
theorem sample_adapter_two_view :
    update_entries sample_adapter_two.private_data = some sample_adapter_two.private_data :=
  rfl

/-- C21 (fails on the code): with the root list active and equal to its
rebuild, a "Connected" notification for an unpaired device, which has no row,
is meant to leave the entry list unchanged.  The patch loop of
`property_changed` takes the first row whose payload equals the storage
index of the device without looking at the tag.  For the unpaired keyboard at
index 1 that is the row "Discoverable: True" (payload 1), whose text becomes
the keyboard's name and connected label while its tag stays
controller-property toggle.  For the unpaired keyboard at index 0 it is the
row "\uF44A Pair Device" (payload 0), whose text is a string literal: the loop
hands it to `g_free`, which is undefined behaviour.  The notification
"ServicesResolved" does the same. -/
theorem C21_connected_patch_ignores_tag :
    ∃ sw1 sw2, sample_adapter_pair.private_data.state = STATE.LIST ∧
      update_entries sample_adapter_pair.private_data =
        some sample_adapter_pair.private_data ∧
      find_device (sample_keyboard false) sample_adapter_pair.private_data.devices
        sample_adapter_pair.private_data.num_devices = some 1 ∧
      (sample_adapter_pair.private_data.devices[1]?).map (fun d => d.paired) = some false ∧
      entry_list sample_adapter_pair.private_data =
        [Entry.mk "Headset             False     " (ENTRY_DEVICE ||| ENTRY_ALLOCATED) 0,
         Entry.mk "\uF44A Pair Device" ENTRY_MENU_PAIR 0,
         Entry.mk "Powered: True" (ENTRY_CONTROLLER_PROP ||| ENTRY_ALLOCATED) 0,
         Entry.mk "Discoverable: True" (ENTRY_CONTROLLER_PROP ||| ENTRY_ALLOCATED) 1,
         Entry.mk "Discovering: False" (ENTRY_SCAN ||| ENTRY_ALLOCATED) 2] ∧
      property_changed (sample_keyboard false) "Connected" true sample_adapter_pair =
        some sw1 ∧
      entry_list sw1.private_data =
        [Entry.mk "Headset             False     " (ENTRY_DEVICE ||| ENTRY_ALLOCATED) 0,
         Entry.mk "\uF44A Pair Device" ENTRY_MENU_PAIR 0,
         Entry.mk "Powered: True" (ENTRY_CONTROLLER_PROP ||| ENTRY_ALLOCATED) 0,
         Entry.mk "Keyboard            True      " (ENTRY_CONTROLLER_PROP ||| ENTRY_ALLOCATED) 1,
         Entry.mk "Discovering: False" (ENTRY_SCAN ||| ENTRY_ALLOCATED) 2] ∧
      property_changed (sample_keyboard false) "ServicesResolved" true sample_adapter_pair =
        some sw2 ∧
      entry_list sw2.private_data = entry_list sw1.private_data ∧
      entry_list sw1.private_data ≠ entry_list sample_adapter_pair.private_data ∧
      sample_adapter_two.private_data.state = STATE.LIST ∧
      update_entries sample_adapter_two.private_data = some sample_adapter_two.private_data ∧
      find_device (sample_keyboard false) sample_adapter_two.private_data.devices
        sample_adapter_two.private_data.num_devices = some 0 ∧
      (sample_adapter_two.private_data.devices[0]?).map (fun d => d.paired) = some false ∧
      entry_list sample_adapter_two.private_data =
        [Entry.mk "Headset             False     " (ENTRY_DEVICE ||| ENTRY_ALLOCATED) 1,
         Entry.mk "\uF44A Pair Device" ENTRY_MENU_PAIR 0,
         Entry.mk "Powered: True" (ENTRY_CONTROLLER_PROP ||| ENTRY_ALLOCATED) 0,
         Entry.mk "Discoverable: True" (ENTRY_CONTROLLER_PROP ||| ENTRY_ALLOCATED) 1,
         Entry.mk "Discovering: False" (ENTRY_SCAN ||| ENTRY_ALLOCATED) 2] ∧
      g_free_text "\uF44A Pair Device" = none ∧
      property_changed (sample_keyboard false) "Connected" true sample_adapter_two = none ∧
      property_changed (sample_keyboard false) "ServicesResolved" true sample_adapter_two =
        none :=
  ⟨_, _, rfl, sample_adapter_pair_view, rfl, rfl, rfl, rfl, rfl, rfl, rfl, by decide, rfl,
    sample_adapter_two_view, rfl, rfl, rfl, rfl, rfl, rfl⟩

/-- C22 (fails on the code): the row text written by the connected patch is
meant to equal the text the full rebuild produces, with the connected label at
codepoint column `max 20 (codepoints of the name)`.  The patch formats with
`"%-20s%-10s"`, a width of 20 bytes, where the rebuild uses the width
`20 + nb - nub`: for the paired device "Café" (4 codepoints, 5 bytes) the
patch writes the label at codepoint column 19, the rebuild of the same state
at column 20. -/
theorem C22_connected_patch_pads_bytes :
    ∃ sw1 pd2 patched rebuilt,
      sample_cafe_list.private_data.state = STATE.LIST ∧
      update_entries sample_cafe_list.private_data = some sample_cafe_list.private_data ∧
      property_changed sample_cafe "Connected" true sample_cafe_list = some sw1 ∧
      (entry_list sw1.private_data)[0]? = some patched ∧
      update_entries sw1.private_data = some pd2 ∧
      (entry_list pd2)[0]? = some rebuilt ∧
      patched.text = "Café               True      " ∧
      rebuilt.text = "Café                True      " ∧
      (sw1.private_data.devices[0]?).map list_row_text = some rebuilt.text ∧
      patched.text = "Café" ++ String.mk (List.replicate 15 ' ') ++ "True      " ∧
      ("Café" ++ String.mk (List.replicate 15 ' ')).length = 19 ∧
      max 20 "Café".length = 20 ∧
      patched.text ≠ rebuilt.text :=
  ⟨_, _, _, _, rfl, rfl, rfl, rfl, rfl, rfl, rfl, rfl, rfl, by decide, by decide, by decide,
    by decide⟩

/-! ## The slot of the device shown -/

/-- C23 (fails on the code): in the device-detail state `current_device` is
meant to stay below `num_devices` and to denote the device shown.  With the
detail view of the headset shown (slot 1 of 2), the removal of the keyboard
(slot 0) moves the headset to slot 0 and leaves `current_device = 1`, which is
`num_devices`; the headset is now found at slot 0.  When the mouse is added
next it takes slot 1, and the detail view, still titled "Headset", is rebuilt
for the mouse. -/
theorem C23_removal_leaves_current_device_stale :
    ∃ sw1, run bluetooth_mode_init
        [Event.added (sample_keyboard false), Event.added (sample_headset true),
         Event.result MENU_OK 0 true] = some sample_detail ∧
      sample_detail.private_data.state = STATE.DEVICE ∧
      sample_detail.private_data.num_devices = 2 ∧
      sample_detail.private_data.current_device = 1 ∧
      (sample_detail.private_data.devices[1]?).map (fun d => d.remote_proxy.ptr) = some 2 ∧
      proxy_removed (sample_keyboard false) sample_detail = some sample_stale_detail ∧
      sample_stale_detail.private_data.state = STATE.DEVICE ∧
      sample_stale_detail.private_data.num_devices = 1 ∧
      sample_stale_detail.private_data.current_device = 1 ∧
      ¬ sample_stale_detail.private_data.current_device <
        sample_stale_detail.private_data.num_devices ∧
      find_device (sample_headset true) sample_stale_detail.private_data.devices
        sample_stale_detail.private_data.num_devices = some 0 ∧
      proxy_added (sample_mouse false) sample_stale_detail = some sw1 ∧
      sw1.private_data.state = STATE.DEVICE ∧
      sw1.private_data.current_device = 1 ∧
      (sw1.private_data.devices[1]?).map (fun d => d.remote_proxy.ptr) = some 3 ∧
      sw1.display_name = "Headset" ∧
      entry_list sw1.private_data =
        [Entry.mk "Pair Device" ENTRY_DEVICE_PAIR 1, Entry.mk "\uF438 Back" ENTRY_MENU_LIST 0] :=
  ⟨_, rfl, rfl, rfl, rfl, rfl, rfl, rfl, rfl, rfl, by decide, rfl, rfl, rfl, rfl, rfl, rfl, rfl⟩

/-! ## Patches of the detail view -/

/-- C24 (fails on the code): in the detail view the row tagged pairing toggle
is meant to show "Pair Device" for an unpaired device.  The connected patch
of `property_changed` writes `device_strings[0][connected]` into row 0
whatever the layout: in the two-row detail view of the unpaired keyboard row 0
is the pairing toggle, and after a "Connected" = true notification it reads
"Disconnect Device" with the tag `ENTRY_DEVICE_PAIR`. -/
theorem C24_connected_patch_relabels_pair_toggle :
    ∃ sw1, run bluetooth_mode_init
        [Event.added sample_adapter, Event.added (sample_keyboard false),
         Event.result MENU_OK 0 true, Event.result MENU_OK 0 true] =
        some sample_unpaired_detail ∧
      sample_unpaired_detail.private_data.state = STATE.DEVICE ∧
      sample_unpaired_detail.private_data.current_device = 0 ∧
      (sample_unpaired_detail.private_data.devices[0]?).map
        (fun d => (d.remote_proxy.ptr, d.paired)) = some (1, false) ∧
      entry_list sample_unpaired_detail.private_data =
        [Entry.mk "Pair Device" ENTRY_DEVICE_PAIR 0, Entry.mk "\uF438 Back" ENTRY_MENU_LIST 0] ∧
      property_changed (sample_keyboard false) "Connected" true sample_unpaired_detail =
        some sw1 ∧
      sw1.private_data.state = STATE.DEVICE ∧
      (sw1.private_data.devices[0]?).map (fun d => (d.connected, d.paired)) =
        some (true, false) ∧
      entry_list sw1.private_data =
        [Entry.mk "Disconnect Device" ENTRY_DEVICE_PAIR 0, Entry.mk "\uF438 Back" ENTRY_MENU_LIST 0] ∧
      entry_action (Entry.mk "Disconnect Device" ENTRY_DEVICE_PAIR 0) = ENTRY_DEVICE_PAIR :=
  ⟨_, rfl, rfl, rfl, rfl, rfl, rfl, rfl, rfl, rfl, by decide⟩

/-- C25 (fails on the code): a patch of `property_changed` is meant to write
only rows below `num_entries`, and a "Trusted" notification for an unpaired
device shown in detail is meant to write no row.  The trusted patch writes
`entries[2]` whatever the layout: in the two-row detail view of the unpaired
keyboard (`num_entries = 2`) the notification overwrites the text of slot 2,
a slot above the list that still holds the row "Discoverable: True" of the
root list. -/
theorem C25_trusted_patch_writes_above_list :
    ∃ sw1, sample_unpaired_detail.private_data.state = STATE.DEVICE ∧
      (sample_unpaired_detail.private_data.devices[0]?).map
        (fun d => (d.remote_proxy.ptr, d.paired)) = some (1, false) ∧
      sample_unpaired_detail.private_data.num_entries = 2 ∧
      sample_unpaired_detail.private_data.entries[2]? =
        some (Entry.mk "Discoverable: True" (ENTRY_CONTROLLER_PROP ||| ENTRY_ALLOCATED) 1) ∧
      property_changed (sample_keyboard false) "Trusted" true sample_unpaired_detail =
        some sw1 ∧
      sw1.private_data.num_entries = 2 ∧
      ¬ 2 < sw1.private_data.num_entries ∧
      sw1.private_data.entries[2]? =
        some (Entry.mk "Untrust Device" (ENTRY_CONTROLLER_PROP ||| ENTRY_ALLOCATED) 1) ∧
      sw1.private_data.entries ≠ sample_unpaired_detail.private_data.entries :=
  ⟨_, rfl, rfl, rfl, rfl, rfl, rfl, by decide, rfl, by decide⟩

/-! ## Releasing row texts -/

/-- The byte length of a concatenation. -/
theorem utf8ByteSize_append (a b : String) :
    (a ++ b).utf8ByteSize = a.utf8ByteSize + b.utf8ByteSize := by
  cases a with
  | mk as =>
    cases b with
    | mk bs =>
      show String.utf8Len (as ++ bs) = String.utf8Len as + String.utf8Len bs
      exact String.utf8Len_append as bs

/-- The byte length of a left-justified field: the width, or the length of a
longer text. -/
theorem printf_left_bytes (width : Nat) (s : String) :
    (printf_left width s).utf8ByteSize = max width s.utf8ByteSize := by
  unfold printf_left
  rw [utf8ByteSize_append]
  have h : (String.mk (List.replicate (width - s.utf8ByteSize) ' ')).utf8ByteSize =
      width - s.utf8ByteSize := by
    show String.utf8Len (List.replicate (width - s.utf8ByteSize) ' ') = _
    induction (width - s.utf8ByteSize) with
    | zero => rfl
    | succ n ih =>
      rw [List.replicate_succ, String.utf8Len_cons, ih]
      rfl
  rw [h]
  omega

/-- Every literal of `static_texts` has fewer than 18 bytes. -/
theorem static_texts_bytes (s : String) (h : s ∈ static_texts) : s.utf8ByteSize < 18 := by
  unfold static_texts at h
  simp only [List.mem_cons, List.mem_singleton, List.not_mem_nil, or_false] at h
  rcases h with h | h | h | h | h | h | h | h <;> rw [h] <;> decide

/-- The texts that the program allocates for a row are none of the string
literals, so `g_free_text` accepts them: the device rows of the root list and
of the pairing list, the text of the connected patch and the controller
rows. -/
theorem allocated_texts_not_static (d : Device) (value : Bool) :
    g_free_text (list_row_text d) = some () ∧
    g_free_text (pair_row_text d) = some () ∧
    g_free_text (printf_left 20 d.name ++ printf_left 10 (true_false_array value)) = some () ∧
    (∀ name, name ∈ controller_props →
      g_free_text (controller_row_text name value) = some ()) := by
  have key : ∀ s : String, 18 ≤ s.utf8ByteSize → g_free_text s = some () := by
    intro s hs
    unfold g_free_text
    rw [if_neg]
    intro hmem
    have := static_texts_bytes s hmem
    omega
  have hlabel : ∀ b : Bool, (printf_left 10 (true_false_array b)).utf8ByteSize = 10 := by
    intro b; cases b <;> decide
  refine ⟨key _ ?_, key _ ?_, key _ ?_, ?_⟩
  · unfold list_row_text
    simp only
    rw [utf8ByteSize_append, printf_left_bytes, hlabel]
    have hle := length_le_utf8ByteSize d.name
    by_cases h8 : 8 ≤ d.name.utf8ByteSize
    · omega
    · rw [u32_of_lt (by omega)]
      omega
  · unfold pair_row_text
    rw [utf8ByteSize_append, printf_left_bytes]
    omega
  · rw [utf8ByteSize_append, printf_left_bytes, hlabel]
    omega
  · intro name hname
    unfold controller_props at hname
    simp only [List.mem_cons, List.mem_singleton, List.not_mem_nil, or_false] at hname
    rcases hname with h | h | h <;> rw [h] <;> cases value <;> decide

end RofiBluetooth
